import Mathlib

set_option maxRecDepth 400000

/-!
Verification development for the tetsuo-core Groth16/BN254 verification engine
(`src/native/tetsuo-core`).  The 256-bit field arithmetic of `field.c`, the
curve and verifier routines of `verify.c`, and the wire formats of `verify.h`
are shallowly embedded below; machine words are modelled as `Nat` with explicit
`% 2 ^ 64` / `% 2 ^ 256` reductions at the places where the C code wraps.
A `field_t` (four little-endian 64-bit limbs) is modelled by the 256-bit value
of its limbs; the limb decomposition is recovered by `limb` where the code is
limb-sensitive (`field_cmp`).
-/

/-- BN254 base field prime `p`, from `FIELD_MODULUS` in `field.h`
(little-endian limbs 0x3C208C16D87CFD47, 0x97816A916871CA8D,
0xB85045B68181585D, 0x30644E72E131A029). -/
def FIELD_MODULUS : Nat :=
  21888242871839275222246405745257275088696311157297823662689037894645226208583

/-- Montgomery constant `-p⁻¹ mod 2^64`, from `FIELD_INV` in `field.h`. -/
def FIELD_INV : Nat := 0x87D20782E4866389

/-- Montgomery radix residue `R = 2^256 mod p`, from `FIELD_R` in `field.h`. -/
def FIELD_R : Nat :=
  0x0E0A77C19A07DF2F666EA36F7879462C0A78EB28F5C70B3DD35D438DC58F0D9D

/-- Montgomery constant `R^2 mod p`, from `FIELD_R2` in `field.h`. -/
def FIELD_R2 : Nat :=
  0x06D89F71CAB8351F47AB1EFF0A417FF6B5E71911D44501FBF32CFC5B538AFA89

/-- One round of the Montgomery-reduction loop of `mont_reduce` (`field.c`):
`k = t[i] * FIELD_INV mod 2^64` and `t += k * p << (64*i)`; the limb-level
carry propagation of the C code implements exactly this addition (the total
never overflows the 8-limb buffer for the input range used). -/
def mstep (t i : Nat) : Nat :=
  t + ((t / 2 ^ (64 * i) % 2 ^ 64) * FIELD_INV % 2 ^ 64) * FIELD_MODULUS * 2 ^ (64 * i)

/-- Montgomery reduction `mont_reduce` (`field.c`): four `mstep` rounds, keep
the high 256 bits, then the mask-selected conditional subtraction of `p`. -/
def montReduce (t : Nat) : Nat :=
  let t4 := mstep (mstep (mstep (mstep t 0) 1) 2) 3
  let r := t4 / 2 ^ 256
  if FIELD_MODULUS ≤ r then r - FIELD_MODULUS else r

/-- Field multiplication `field_mul` (`field.c`): `mul_256x256` computes the
exact 512-bit product of the two 256-bit inputs, then `mont_reduce`. -/
def field_mul (a b : Nat) : Nat := montReduce (a * b)

/-- Field squaring `field_sqr` (`field.c`): `sqr_256` computes the exact
square (the generic build uses `mul_256x256(r, a, a)`), then `mont_reduce`. -/
def field_sqr (a : Nat) : Nat := montReduce (a * a)

/-- Field addition `field_add` (`field.c`): 256-bit add (wrapping at `2^256`
with the carry recorded), then a mask-selected subtraction of `p` when the
carry is set or the wrapped sum is `≥ p`. -/
def field_add (a b : Nat) : Nat :=
  let s := (a + b) % 2 ^ 256
  if 2 ^ 256 ≤ a + b ∨ FIELD_MODULUS ≤ s then (s + 2 ^ 256 - FIELD_MODULUS) % 2 ^ 256
  else s

/-- Field subtraction `field_sub` (`field.c`): 256-bit subtract (wrapping at
`2^256` with the borrow recorded), then a mask-selected addition of `p` when
the borrow is set. -/
def field_sub (a b : Nat) : Nat :=
  let d := (a + 2 ^ 256 - b) % 2 ^ 256
  if a < b then (d + FIELD_MODULUS) % 2 ^ 256 else d

/-- Constant-time zero test `field_is_zero` (`field.c`): OR-reduction of the
limbs is zero iff the 256-bit value is zero. -/
def field_is_zero (a : Nat) : Bool := a == 0

/-- Constant-time equality `field_eq` (`field.c`): OR-reduction of XORed limbs
is zero iff the 256-bit values are equal. -/
def field_eq (a b : Nat) : Bool := a == b

/-- Montgomery-domain one `field_set_one` (`field.c`): the constant `R`. -/
def field_set_one : Nat := FIELD_R

/-- Conversion into Montgomery form `field_to_mont` (`field.c`):
multiplication by `R^2`. -/
def field_to_mont (a : Nat) : Nat := field_mul a FIELD_R2

/-- Conversion out of Montgomery form `field_from_mont` (`field.c`):
Montgomery reduction of the bare value. -/
def field_from_mont (a : Nat) : Nat := montReduce a

/-- Little-endian 64-bit limb `i` of a 256-bit value, as stored in
`field_t.limbs[i]`. -/
def limb (x i : Nat) : Nat := x / 2 ^ (64 * i) % 2 ^ 64

/-- One iteration of the `field_cmp` loop (`field.c`) for limb index `i`,
updating the `(gt, lt)` flags.  `(b->limbs[i] - a->limbs[i]) >> 63` on
`uint64_t` is the top bit of the wrapped difference, and the flag updates are
the bitwise mask operations of the source. -/
def field_cmp_step (a b : Nat) (s : Nat × Nat) (i : Nat) : Nat × Nat :=
  let gt := s.1
  let lt := s.2
  let a_gt_b := (limb b i + 2 ^ 64 - limb a i) % 2 ^ 64 / 2 ^ 63
  let b_gt_a := (limb a i + 2 ^ 64 - limb b i) % 2 ^ 64 / 2 ^ 63
  let undecided := (gt ||| lt) ^^^ 1
  (gt ||| (a_gt_b &&& undecided), lt ||| (b_gt_a &&& undecided))

/-- Three-way comparison `field_cmp` (`field.c`): the loop runs over limbs
3, 2, 1, 0 and returns `(int)gt - (int)lt`. -/
def field_cmp (a b : Nat) : Int :=
  let s := field_cmp_step a b (field_cmp_step a b (field_cmp_step a b
    (field_cmp_step a b (0, 0) 3) 2) 1) 0
  (s.1 : Int) - (s.2 : Int)

/-- Exponent limbs `p - 2` used by `field_inv` (`field.c`), little-endian. -/
def FIELD_INV_EXP : List Nat :=
  [0x3C208C16D87CFD45, 0x97816A916871CA8D, 0xB85045B68181585D, 0x30644E72E131A029]

/-- Inner 64-iteration square-and-multiply loop of `field_inv` / `field_pow`
(`field.c`): state is `(base, result)`; per bit, multiply `result` by `base`
when the bit is set, then square `base` and shift the exponent. -/
def powLimb : Nat → Nat × Nat → Nat → Nat × Nat
  | 0, s, _ => s
  | j + 1, s, e =>
    powLimb j (field_sqr s.1, if e % 2 = 1 then field_mul s.2 s.1 else s.2) (e / 2)

/-- Field inversion `field_inv` (`field.c`): square-and-multiply of
`a ^ (p - 2)` over the four exponent limbs, starting from `result = 1` in
Montgomery form. -/
def field_inv (a : Nat) : Nat :=
  (FIELD_INV_EXP.foldl (fun s e => powLimb 64 s e) (a, FIELD_R)).2

/-- Prefix-product chain of `field_batch_inv` (`field.c`):
`acc[i] = acc[i-1] * a[i]` for the elements after the head. -/
def scanMul (acc : Nat) : List Nat → List Nat
  | [] => []
  | y :: ys => field_mul acc y :: scanMul (field_mul acc y) ys

/-- Backward loop of `field_batch_inv` (`field.c`): the pair list holds
`(a[i], acc[i-1])` for `i = n-1` down to `1`; each step emits
`r[i] = inv_all * acc[i-1]` and updates `inv_all *= a[i]`; the final
`inv_all` is `r[0]`. -/
def backLoop : List (Nat × Nat) → Nat → List Nat
  | [], inv_all => [inv_all]
  | (ai, acci) :: rest, inv_all =>
    backLoop rest (field_mul inv_all ai) ++ [field_mul inv_all acci]

/-- Batch inversion `field_batch_inv` (`field.c`), Montgomery's trick:
empty input returns untouched output, a single element falls back to
`field_inv`, otherwise one inversion of the full prefix product plus the
backward multiplication sweep.  (The `malloc`-failure fallback of the source
computes `field_inv` per element, which theorem `C6_theorem` shows is the
same function; the secure zeroing of the scratch buffer has no functional
effect.) -/
def field_batch_inv (a : List Nat) : List Nat :=
  match a with
  | [] => []
  | [x] => [field_inv x]
  | x :: tl =>
    let acc := x :: scanMul x tl
    let inv_all := field_inv (acc.getLastD 0)
    backLoop (List.reverse (tl.zip acc)) inv_all

/-- Big-endian 32-byte deserialization `field_from_bytes` (`field.c`): limb
`3 - i` is built from bytes `8i..8i+7` big-endian, so the whole value is the
base-256 big-endian number of the byte list. -/
def field_from_bytes (bytes : List Nat) : Nat :=
  bytes.foldl (fun acc b => acc * 256 + b) 0

/-- Binary modular exponentiation, fuel-driven; used to evaluate the huge
exponentiations appearing in the primality certificate for `FIELD_MODULUS`. -/
def powMod (fuel a e n : Nat) : Nat :=
  match fuel with
  | 0 => 1 % n
  | fuel + 1 =>
    if e = 0 then 1 % n
    else
      let h := powMod fuel (a * a % n) (e / 2) n
      if e % 2 = 1 then a * h % n else h

/-- Montgomery-domain interpretation of a `field_t` value: the represented
field element is `x * R⁻¹ mod p`, with `R = 2^256`. -/
def phi (x : Nat) : ZMod FIELD_MODULUS :=
  (x : ZMod FIELD_MODULUS) * ((2 ^ 256 : ℕ) : ZMod FIELD_MODULUS)⁻¹

def mulFoldFst (inv : Nat) (l : List (Nat × Nat)) : Nat :=
  l.foldl (fun s pr => field_mul s pr.1) inv

def outs : List (Nat × Nat) → Nat → List Nat
  | [], _ => []
  | (ai, acci) :: rest, inv_all => outs rest (field_mul inv_all ai) ++ [field_mul inv_all acci]

/-- BN254 curve constant `b = 3` in Montgomery form, from `CURVE_B_MONT`
(`verify.c`). -/
def CURVE_B_MONT : Nat :=
  0x2A1F6744CE179D8E334BEA4E696BD2841F6AC17AE15521B97A17CAA950AD28D7

/-- Projective/Jacobian G1 point `point_t` (`field.h`): three field elements,
`z = 0` denoting the point at infinity. -/
structure PointT where
  x : Nat
  y : Nat
  z : Nat
deriving DecidableEq

/-- Point at infinity `point_set_infinity` (`verify.c`): `(0, 1, 0)` with the
one in Montgomery form. -/
def point_set_infinity : PointT := ⟨0, field_set_one, 0⟩

/-- Infinity test `point_is_infinity` (`verify.c`): `z = 0`. -/
def point_is_infinity (p : PointT) : Bool := field_is_zero p.z

/-- On-curve test `point_is_on_curve` (`verify.c`): for projective
coordinates, `Y² Z = X³ + 3 Z³`; infinity is accepted. -/
def point_is_on_curve (p : PointT) : Bool :=
  if point_is_infinity p then true
  else
    let lhs := field_mul (field_sqr p.y) p.z
    let rhs0 := field_mul (field_sqr p.x) p.x
    let z3 := field_mul (field_sqr p.z) p.z
    let rhs := field_add rhs0 (field_mul CURVE_B_MONT z3)
    field_eq lhs rhs

/-- Jacobian doubling `point_double` (`verify.c`) as executed when the
destination and source are distinct (the doubling fallback
`point_double(r, p)` inside `point_add` at the ladder call, where `r`
aliases the second operand and not `p`): `rz = 2·y_old·z_old`. -/
def point_double (p : PointT) : PointT :=
  if point_is_infinity p then p
  else
    let a := field_sqr p.x
    let b := field_sqr p.y
    let c := field_sqr b
    let d0 := field_sqr (field_add p.x b)
    let d1 := field_sub (field_sub d0 a) c
    let d := field_add d1 d1
    let e := field_add (field_add a a) a
    let f := field_sqr e
    let rx := field_sub (field_sub f d) d
    let ry0 := field_mul e (field_sub d rx)
    let c2 := field_add c c
    let c4 := field_add c2 c2
    let c8 := field_add c4 c4
    let ry := field_sub ry0 c8
    let rz0 := field_mul p.y p.z
    let rz := field_add rz0 rz0
    ⟨rx, ry, rz⟩

/-- Jacobian doubling `point_double` (`verify.c`) as the code executes it at
the aliased call sites `point_double(&r0, &r0)` in `point_mul`,
`point_double(&result, &result)` in `multi_scalar_mul`, and the doubling
fallback of the accumulate-form `point_add(&acc, &acc, ...)` calls: the
store to `r->y` precedes the read of `p->y` in the `r->z` computation, so
with `r = p` the code computes `rz = 2·y_new·z_old` from the freshly
written y instead of `rz = 2·y_old·z_old` (all other reads of `p` happen
before any store to `r`). -/
def point_double_inplace (p : PointT) : PointT :=
  if point_is_infinity p then p
  else
    let a := field_sqr p.x
    let b := field_sqr p.y
    let c := field_sqr b
    let d0 := field_sqr (field_add p.x b)
    let d1 := field_sub (field_sub d0 a) c
    let d := field_add d1 d1
    let e := field_add (field_add a a) a
    let f := field_sqr e
    let rx := field_sub (field_sub f d) d
    let ry0 := field_mul e (field_sub d rx)
    let c2 := field_add c c
    let c4 := field_add c2 c2
    let c8 := field_add c4 c4
    let ry := field_sub ry0 c8
    let rz0 := field_mul ry p.z
    let rz := field_add rz0 rz0
    ⟨rx, ry, rz⟩

/-- Jacobian addition `point_add` (`verify.c`) as called in the ladder,
`point_add(&r1, &r0, &r1)`: the destination aliases the second operand, but
every aliased field is read before it is overwritten (`q->x`, `q->y` are
consumed into locals before the stores to `r->x`, `r->y`, and `q->z` is read
at the start of the `r->z` computation, before `r->z` is stored), so the
aliasing is benign; the doubling fallback `point_double(r, p)` has distinct
arguments here and is the plain doubling. -/
def point_add (p q : PointT) : PointT :=
  if point_is_infinity p then q
  else if point_is_infinity q then p
  else
    let z1z1 := field_sqr p.z
    let z2z2 := field_sqr q.z
    let u1 := field_mul p.x z2z2
    let u2 := field_mul q.x z1z1
    let s1 := field_mul (field_mul p.y q.z) z2z2
    let s2 := field_mul (field_mul q.y p.z) z1z1
    let h := field_sub u2 u1
    if field_is_zero h ∧ field_eq s1 s2 then point_double p
    else
      let i := field_sqr (field_add h h)
      let j := field_mul h i
      let rr0 := field_sub s2 s1
      let rr := field_add rr0 rr0
      let v := field_mul u1 i
      let rx := field_sub (field_sub (field_sub (field_sqr rr) j) v) v
      let s1j := field_mul s1 j
      let ry := field_sub (field_mul (field_sub v rx) rr) (field_add s1j s1j)
      let rz0 := field_sqr (field_add p.z q.z)
      let rz := field_mul (field_sub (field_sub rz0 z1z1) z2z2) h
      ⟨rx, ry, rz⟩

/-- Jacobian addition `point_add` (`verify.c`) as called in the accumulate
form `point_add(&acc, &acc, q)` (bucket, running and window sums of
`multi_scalar_mul`): the destination aliases the first operand.  The main
addition path reads every aliased field before overwriting it and is
unchanged, but the doubling fallback `point_double(r, p)` then aliases `r`
and `p` and executes the in-place doubling. -/
def point_add_acc (p q : PointT) : PointT :=
  if point_is_infinity p then q
  else if point_is_infinity q then p
  else
    let z1z1 := field_sqr p.z
    let z2z2 := field_sqr q.z
    let u1 := field_mul p.x z2z2
    let u2 := field_mul q.x z1z1
    let s1 := field_mul (field_mul p.y q.z) z2z2
    let s2 := field_mul (field_mul q.y p.z) z1z1
    let h := field_sub u2 u1
    if field_is_zero h ∧ field_eq s1 s2 then point_double_inplace p
    else
      let i := field_sqr (field_add h h)
      let j := field_mul h i
      let rr0 := field_sub s2 s1
      let rr := field_add rr0 rr0
      let v := field_mul u1 i
      let rx := field_sub (field_sub (field_sub (field_sqr rr) j) v) v
      let s1j := field_mul s1 j
      let ry := field_sub (field_mul (field_sub v rx) rr) (field_add s1j s1j)
      let rz0 := field_sqr (field_add p.z q.z)
      let rz := field_mul (field_sub (field_sub rz0 z1z1) z2z2) h
      ⟨rx, ry, rz⟩

/-- One iteration of the Montgomery-ladder loop of `point_mul` (`verify.c`)
for scalar bit `b`.  The masked limb-XOR exchanges in the source swap `r0`
and `r1` exactly when the bit is set, which is the conditional swap below.
`point_double(&r0, &r0)` aliases its arguments, so the doubling is the
in-place variant. -/
def ladder_step (s : PointT × PointT) (b : Nat) : PointT × PointT :=
  let s1 := if b = 1 then (s.2, s.1) else (s.1, s.2)
  let r1 := point_add s1.1 s1.2
  let r0 := point_double_inplace s1.1
  if b = 1 then (r1, r0) else (r0, r1)

/-- The 256-iteration ladder loop of `point_mul` (`verify.c`), from bit 255
down to bit 0; the state is `(r0, r1)`. -/
def point_mul_loop : Nat → PointT × PointT → Nat → PointT × PointT
  | 0, s, _ => s
  | i + 1, s, scalar => point_mul_loop i (ladder_step s (scalar / 2 ^ i % 2)) scalar

/-- Constant-time scalar multiplication `point_mul` (`verify.c`): ladder over
all 256 scalar bits starting from `(∞, p)`, returning `r0`. -/
def point_mul (p : PointT) (scalar : Nat) : PointT :=
  (point_mul_loop 256 (point_set_infinity, p) scalar).1

/-- Window size selection of `multi_scalar_mul` (`verify.c`):
`c = count < 32 ? 4 : count < 256 ? 6 : 8`. -/
def pip_c (count : Nat) : Nat := if count < 32 then 4 else if count < 256 then 6 else 8

/-- The `c` squarings applied to the running result per window in
`multi_scalar_mul` (`verify.c`): `point_double(&result, &result)` aliases
its arguments, so each step is the in-place doubling. -/
def point_double_iter : Nat → PointT → PointT
  | 0, p => p
  | n + 1, p => point_double_iter n (point_double_inplace p)

/-- Bucket `bidx` of window `w` in `multi_scalar_mul` (`verify.c`): the sum
of the points whose scalar window bits equal `bidx + 1`, added in input
order.  The limb-stitched bit extraction of the source equals
`scalar / 2^(w*c) mod 2^c` (zero when the window is past limb 3, matching
the `limb >= 4` branch). -/
def pip_bucket (pairs : List (PointT × Nat)) (w c bidx : Nat) : PointT :=
  (pairs.filter (fun pr => pr.2 / 2 ^ (w * c) % 2 ^ c = bidx + 1)).foldl
    (fun acc pr => point_add_acc acc pr.1) point_set_infinity

/-- Triangular bucket accumulation of one window in `multi_scalar_mul`
(`verify.c`): `running` sweeps the buckets from the top index down and `sum`
accumulates every `running`. -/
def pip_window_sum (pairs : List (PointT × Nat)) (w c : Nat) : PointT :=
  ((List.range (2 ^ c - 1)).reverse.foldl
    (fun (st : PointT × PointT) bidx =>
      let running := point_add_acc st.1 (pip_bucket pairs w c bidx)
      (running, point_add_acc st.2 running))
    (point_set_infinity, point_set_infinity)).2

/-- Pippenger bucket MSM of `multi_scalar_mul` for `count ≥ 2` (`verify.c`):
windows from the top down, `c` doublings then the window sum.  (The
scratch-arena allocation of the bucket array is modelled as always
succeeding; the allocation-failure path returns infinity.) -/
def pippenger (points : List PointT) (scalars : List Nat) : PointT :=
  let c := pip_c points.length
  let num_windows := (256 + c - 1) / c
  let pairs := points.zip scalars
  (List.range num_windows).reverse.foldl
    (fun result w => point_add_acc (point_double_iter c result) (pip_window_sum pairs w c))
    point_set_infinity

/-- Multi-scalar multiplication `multi_scalar_mul` (`verify.c`): infinity for
an empty input, plain `point_mul` for a single point, Pippenger otherwise.
(The `count` parameter of the C function is the common length of both
arrays; the `_, []` branch is unreachable for well-formed calls.) -/
def multi_scalar_mul (points : List PointT) (scalars : List Nat) : PointT :=
  match points, scalars with
  | [], _ => point_set_infinity
  | _, [] => point_set_infinity
  | [pt], s :: _ => point_mul pt s
  | pts, ss => pippenger pts ss

/-- Verification result codes `verify_result_t` (`verify.h`). -/
inductive verify_result_t where
  | VERIFY_OK
  | VERIFY_INVALID_PROOF
  | VERIFY_BELOW_THRESHOLD
  | VERIFY_EXPIRED
  | VERIFY_MALFORMED
  | VERIFY_BLACKLISTED
deriving DecidableEq

open verify_result_t

/-- Wire proof `proof_wire_t` (`verify.h`): the packed 330-byte record with a
256-byte `proof_data` blob; multi-byte scalar fields carry their numeric
value and byte arrays are byte lists. -/
structure proof_wire_t where
  type : Nat
  version : Nat
  flags : Nat
  timestamp : Nat
  agent_pk : List Nat
  commitment : List Nat
  proof_data : List Nat
deriving DecidableEq

/-- Parsed proof `proof_t` as used by `verify.c`.  The shipped `verify.h`
declares `proof_point_b` as a four-coordinate G2 structure, but the code of
`proof_parse` / `verify_proof_ex` accesses `proof_point_b.x/.y/.z` as a
`point_t` (the other, 128-byte-wire variant of the header mentioned in the
spec); the embedding follows the code.  The `nullifier` field of the struct
is never written by `proof_parse` and is omitted. -/
structure proof_t where
  type : Nat
  timestamp : Nat
  threshold : Nat
  agent_pk : Nat
  commitment : Nat
  proof_point_a : PointT
  proof_point_b : PointT
  proof_point_c : PointT
deriving DecidableEq

/-- The A point decoded by `proof_parse` (`verify.c`): bytes 0-63 of
`proof_data`, big-endian x then y, `z = 1`, converted to Montgomery form. -/
def wireA (w : proof_wire_t) : PointT :=
  ⟨field_to_mont (field_from_bytes (w.proof_data.take 32)),
   field_to_mont (field_from_bytes ((w.proof_data.drop 32).take 32)),
   field_set_one⟩

/-- The C point decoded by `proof_parse` (`verify.c`): bytes 64-127 of
`proof_data` (not bytes 192-255 as the header layout documents). -/
def wireC (w : proof_wire_t) : PointT :=
  ⟨field_to_mont (field_from_bytes ((w.proof_data.drop 64).take 32)),
   field_to_mont (field_from_bytes ((w.proof_data.drop 96).take 32)),
   field_set_one⟩

/-- Wire-format parser `proof_parse` (`verify.c`): reject `version ≠ 1`,
decode the scalar fields, A from bytes 0-63 and C from bytes 64-127 of
`proof_data`, set B to the point at infinity (the source never decodes B),
and reject A or C when not infinity and not on the curve.  No subgroup test
is performed.  `threshold` is `flags & 0xFF`. -/
def proof_parse (w : proof_wire_t) : Option proof_t :=
  if w.version ≠ 1 then none
  else if !point_is_infinity (wireA w) && !point_is_on_curve (wireA w) then none
  else if !point_is_infinity (wireC w) && !point_is_on_curve (wireC w) then none
  else some
    { type := w.type
      timestamp := w.timestamp
      threshold := w.flags % 256
      agent_pk := field_to_mont (field_from_bytes w.agent_pk)
      commitment := field_to_mont (field_from_bytes w.commitment)
      proof_point_a := wireA w
      proof_point_b := ⟨0, field_set_one, 0⟩
      proof_point_c := wireC w }

/-- Verification context `verify_ctx_t` (`verify.h`): the policy fields and
the presence of the loaded Groth16 verification key (`groth16_vk` pointer
non-null).  The mcl-backed key contents and the precomputed `vk_*` points
are owned by the external pairing library and are abstracted by the
`g16verify` oracle parameter of `verify_proof_ex`. -/
structure verify_ctx_t where
  current_time : Nat
  max_proof_age : Nat
  min_threshold : Nat
  blacklist_root : List Nat
  has_groth16_vk : Bool
deriving DecidableEq

/-- Single-proof verifier `verify_proof_ex` (`verify.c`).  `pinit` models
`pairing_is_initialized()` (process-wide mcl state), `g16verify` models the
mcl-backed `groth16_verify`, and `poseidonHash3` models `poseidon_hash` on
the three public inputs (its constants live in `poseidon_constants.h`, which
is not part of the sources; the hash value does not influence any branch
below except through `g16verify`).  The expiry sum
`proof->timestamp + ctx->max_proof_age` adds two `uint32_t`s and so wraps
modulo `2^32` before the comparison with the 64-bit `current_time`. -/
def verify_proof_ex (pinit : Bool) (g16verify : proof_t → Nat → Bool)
    (poseidonHash3 : Nat → Nat → Nat → Nat) (ctx : verify_ctx_t)
    (pr : proof_t) : verify_result_t :=
  if 0 < ctx.current_time ∧
      (pr.timestamp + ctx.max_proof_age) % 2 ^ 32 < ctx.current_time then
    VERIFY_EXPIRED
  else if pr.threshold < ctx.min_threshold then VERIFY_BELOW_THRESHOLD
  else
    let pub_input := poseidonHash3 pr.agent_pk pr.commitment (field_to_mont pr.threshold)
    if point_is_infinity pr.proof_point_a then VERIFY_INVALID_PROOF
    else if !point_is_on_curve pr.proof_point_a then VERIFY_INVALID_PROOF
    else if point_is_infinity pr.proof_point_c then VERIFY_INVALID_PROOF
    else if !point_is_on_curve pr.proof_point_c then VERIFY_INVALID_PROOF
    else if pinit && ctx.has_groth16_vk then
      if !g16verify pr pub_input then VERIFY_INVALID_PROOF else VERIFY_OK
    else VERIFY_INVALID_PROOF

/-- Wire-level verifier `verify_proof` (`verify.c`): parse then
`verify_proof_ex`; parse failure is `VERIFY_MALFORMED`. -/
def verify_proof (pinit : Bool) (g16verify : proof_t → Nat → Bool)
    (poseidonHash3 : Nat → Nat → Nat → Nat) (ctx : verify_ctx_t)
    (w : proof_wire_t) : verify_result_t :=
  match proof_parse w with
  | none => VERIFY_MALFORMED
  | some pr => verify_proof_ex pinit g16verify poseidonHash3 ctx pr

/-- The per-proof policy loop of `batch_verify` (`verify.c`): each result is
reset to `VERIFY_OK`, then expiry and threshold are checked.  The expiry sum
is the same wrapping `uint32_t` addition as in `verify_proof_ex`. -/
def batch_policy_result (ctx : verify_ctx_t) (pr : proof_t) : verify_result_t :=
  if 0 < ctx.current_time ∧
      (pr.timestamp + ctx.max_proof_age) % 2 ^ 32 < ctx.current_time then
    VERIFY_EXPIRED
  else if pr.threshold < ctx.min_threshold then VERIFY_BELOW_THRESHOLD
  else VERIFY_OK

/-- The policy-passing `(proof, random)` pairs collected by `batch_verify`
(`verify.c`) into `a_points` / `a_scalars`. -/
def batch_valid_pairs (ctx : verify_ctx_t) (proofs : List proof_t)
    (randoms : List Nat) : List (proof_t × Nat) :=
  (proofs.zip randoms).filter (fun pr => batch_policy_result ctx pr.1 == VERIFY_OK)

/-- The A-point accumulator `acc_a` of `batch_verify` (`verify.c`):
`multi_scalar_mul` over the policy-passing proofs' A points and their random
coefficients. -/
def batch_acc_a (ctx : verify_ctx_t) (proofs : List proof_t)
    (randoms : List Nat) : PointT :=
  multi_scalar_mul
    ((batch_valid_pairs ctx proofs randoms).map (fun pr => pr.1.proof_point_a))
    ((batch_valid_pairs ctx proofs randoms).map (fun pr => pr.2))

/-- Batch verifier `batch_verify` (`verify.c`), returning the per-proof
result vector and the boolean return value.  The state is the batch contents
built by `batch_add`: parsed proofs and their stored random coefficients.
After the policy loop the code computes the MSM of the A points and falls
back to sequential `verify_proof_ex` only when the MSM result is the point
at infinity; otherwise the policy results (`VERIFY_OK` for every
policy-passing proof) are returned as-is — no pairing is ever evaluated.
(The scratch-arena exhaustion fallback is modelled as allocation always
succeeding.) -/
def batch_verify (pinit : Bool) (g16verify : proof_t → Nat → Bool)
    (poseidonHash3 : Nat → Nat → Nat → Nat) (ctx : verify_ctx_t)
    (proofs : List proof_t) (randoms : List Nat) : List verify_result_t × Bool :=
  if proofs.length = 0 then ([], true)
  else
    let results := proofs.map (batch_policy_result ctx)
    if (results.filter (fun r => r == VERIFY_OK)).length = 0 then (results, true)
    else if point_is_infinity (batch_acc_a ctx proofs randoms) then
      (proofs.map (fun pr =>
        if batch_policy_result ctx pr = VERIFY_OK then
          verify_proof_ex pinit g16verify poseidonHash3 ctx pr
        else batch_policy_result ctx pr), true)
    else (results, true)

/-- BN254 group order `r` (the order of G1 and of the G2 subgroup), as in
the spec's subgroup-test description. -/
def GROUP_ORDER : Nat :=
  21888242871839275222246405745257275088548364400416034343698204186575808495617

/-- Modelled from the spec: Fp2 = Fp[u]/(u²+1) elements as (real, imaginary)
pairs, with multiplication (a+bu)(c+du) = (ac−bd) + (ad+bc)u. -/
def fp2_mul (a b : ZMod FIELD_MODULUS × ZMod FIELD_MODULUS) :
    ZMod FIELD_MODULUS × ZMod FIELD_MODULUS :=
  (a.1 * b.1 - a.2 * b.2, a.1 * b.2 + a.2 * b.1)

/-- Modelled from the spec: Fp2 addition. -/
def fp2_add (a b : ZMod FIELD_MODULUS × ZMod FIELD_MODULUS) :
    ZMod FIELD_MODULUS × ZMod FIELD_MODULUS :=
  (a.1 + b.1, a.2 + b.2)

/-- Modelled from the spec: Fp2 subtraction. -/
def fp2_sub (a b : ZMod FIELD_MODULUS × ZMod FIELD_MODULUS) :
    ZMod FIELD_MODULUS × ZMod FIELD_MODULUS :=
  (a.1 - b.1, a.2 - b.2)

/-- Modelled from the spec: the non-residue ξ = 9 + u defining the standard
BN254 (alt_bn128/mcl) sextic twist y² = x³ + 3/ξ. -/
def g2_xi : ZMod FIELD_MODULUS × ZMod FIELD_MODULUS := (9, 1)

/-- Modelled from the spec: an affine G2 twist point — four Fp coordinates
(x_re, x_im, y_re, y_im) plus an infinity flag (§3 of the spec). -/
structure g2_spec_point where
  x_re : ZMod FIELD_MODULUS
  x_im : ZMod FIELD_MODULUS
  y_re : ZMod FIELD_MODULUS
  y_im : ZMod FIELD_MODULUS
  inf : Bool
deriving DecidableEq

/-- Modelled from the spec: the B point of the documented wire layout
(`verify.h`): G2 from `proof_data` bytes 64-191 as x_re, x_im, y_re, y_im,
each a 32-byte big-endian field element.  (The C parser never reads these
bytes.) -/
def wire_g2_b (w : proof_wire_t) : g2_spec_point :=
  { x_re := (field_from_bytes ((w.proof_data.drop 64).take 32) : ZMod FIELD_MODULUS)
    x_im := (field_from_bytes ((w.proof_data.drop 96).take 32) : ZMod FIELD_MODULUS)
    y_re := (field_from_bytes ((w.proof_data.drop 128).take 32) : ZMod FIELD_MODULUS)
    y_im := (field_from_bytes ((w.proof_data.drop 160).take 32) : ZMod FIELD_MODULUS)
    inf := false }

/-- Modelled from the spec: the on-twist equation y² = x³ + 3/ξ,
cross-multiplied by ξ to avoid division: y²·ξ = x³·ξ + 3. -/
def g2_on_twist (q : g2_spec_point) : Prop :=
  fp2_mul (fp2_mul (q.y_re, q.y_im) (q.y_re, q.y_im)) g2_xi =
    fp2_add (fp2_mul (fp2_mul (fp2_mul (q.x_re, q.x_im) (q.x_re, q.x_im))
      (q.x_re, q.x_im)) g2_xi) ((3 : ZMod FIELD_MODULUS), (0 : ZMod FIELD_MODULUS))

/-- Modelled from the spec: a Jacobian G2 point over Fp2 (`z = 0` meaning
infinity), used for the subgroup scalar multiplication. -/
structure g2_jac where
  x : ZMod FIELD_MODULUS × ZMod FIELD_MODULUS
  y : ZMod FIELD_MODULUS × ZMod FIELD_MODULUS
  z : ZMod FIELD_MODULUS × ZMod FIELD_MODULUS
deriving DecidableEq

/-- Modelled from the spec: the G2 point at infinity in Jacobian form. -/
def g2_jac_inf : g2_jac := ⟨(0, 0), (1, 0), (0, 0)⟩

/-- Modelled from the spec: Jacobian doubling over Fp2 (same formulas as the
G1 `point_double`, the curve coefficient `a` being zero on the twist). -/
def g2_dbl (p : g2_jac) : g2_jac :=
  if p.z = (0, 0) then p
  else
    let a := fp2_mul p.x p.x
    let b := fp2_mul p.y p.y
    let c := fp2_mul b b
    let d0 := fp2_mul (fp2_add p.x b) (fp2_add p.x b)
    let d1 := fp2_sub (fp2_sub d0 a) c
    let d := fp2_add d1 d1
    let e := fp2_add (fp2_add a a) a
    let f := fp2_mul e e
    let rx := fp2_sub (fp2_sub f d) d
    let ry0 := fp2_mul e (fp2_sub d rx)
    let c8 := fp2_add (fp2_add (fp2_add c c) (fp2_add c c))
      (fp2_add (fp2_add c c) (fp2_add c c))
    let ry := fp2_sub ry0 c8
    let rz := fp2_add (fp2_mul p.y p.z) (fp2_mul p.y p.z)
    ⟨rx, ry, rz⟩

/-- Modelled from the spec: Jacobian addition over Fp2 (same formulas as the
G1 `point_add`). -/
def g2_add_jac (p q : g2_jac) : g2_jac :=
  if p.z = (0, 0) then q
  else if q.z = (0, 0) then p
  else
    let z1z1 := fp2_mul p.z p.z
    let z2z2 := fp2_mul q.z q.z
    let u1 := fp2_mul p.x z2z2
    let u2 := fp2_mul q.x z1z1
    let s1 := fp2_mul (fp2_mul p.y q.z) z2z2
    let s2 := fp2_mul (fp2_mul q.y p.z) z1z1
    let h := fp2_sub u2 u1
    if h = (0, 0) ∧ s1 = s2 then g2_dbl p
    else
      let i := fp2_mul (fp2_add h h) (fp2_add h h)
      let j := fp2_mul h i
      let rr := fp2_add (fp2_sub s2 s1) (fp2_sub s2 s1)
      let v := fp2_mul u1 i
      let rx := fp2_sub (fp2_sub (fp2_sub (fp2_mul rr rr) j) v) v
      let s1j := fp2_mul s1 j
      let ry := fp2_sub (fp2_mul (fp2_sub v rx) rr) (fp2_add s1j s1j)
      let rz := fp2_mul (fp2_sub (fp2_sub (fp2_mul (fp2_add p.z q.z) (fp2_add p.z q.z))
        z1z1) z2z2) h
      ⟨rx, ry, rz⟩

/-- Modelled from the spec: binary scalar multiplication on the twist,
fuel-driven (256 bits suffice for the group order). -/
def g2_smul (fuel k : Nat) (p : g2_jac) : g2_jac :=
  match fuel with
  | 0 => g2_jac_inf
  | fuel + 1 =>
    if k = 0 then g2_jac_inf
    else
      let h := g2_smul fuel (k / 2) (g2_dbl p)
      if k % 2 = 1 then g2_add_jac h p else h

/-- Modelled from the spec: the G2 subgroup test of §4.2 — a point passes if
it is infinity, or lies on the twist and scalar multiplication by the group
order yields infinity (G2 has a non-trivial cofactor, so the on-twist check
alone is not enough). -/
def g2_in_subgroup (q : g2_spec_point) : Prop :=
  q.inf = true ∨ (g2_on_twist q ∧
    (g2_smul 256 GROUP_ORDER ⟨(q.x_re, q.x_im), (q.y_re, q.y_im), (1, 0)⟩).z = (0, 0))

/-- Big-endian 32-byte encoding of a small test value, used to build the
concrete wire records below. -/
def be32 (v : Nat) : List Nat := (List.range 32).map (fun i => v / 256 ^ (31 - i) % 256)

/-- Concrete wire record for claim C3: version 1, A encoded as the generator
(1, 2) in bytes 0-63, bytes 64-127 also (1, 2) (decoded by the code as C),
and bytes 128-255 zero.  Its documented B region (bytes 64-191) decodes to
the G2 point x = 1 + 2u, y = 0, which is not on the twist. -/
def w0 : proof_wire_t :=
  { type := 0, version := 1, flags := 0, timestamp := 0
    agent_pk := List.replicate 32 0
    commitment := List.replicate 32 0
    proof_data := be32 1 ++ be32 2 ++ be32 1 ++ be32 2 ++ List.replicate 128 0 }

/-- Concrete wire record for claim C4, identical in shape to `w0`: the
documented C region (bytes 192-255) is all zeros while bytes 64-127 encode
(1, 2). -/
def w1 : proof_wire_t :=
  { type := 0, version := 1, flags := 0, timestamp := 0
    agent_pk := List.replicate 32 0
    commitment := List.replicate 32 0
    proof_data := be32 1 ++ be32 2 ++ be32 1 ++ be32 2 ++ List.replicate 128 0 }

/-- The proof that `proof_parse` produces for `w1`: A and C both decode to
the Montgomery form of (1, 2) — C from bytes 64-127 — and B is the point at
infinity. -/
def pr1 : proof_t :=
  { type := 0, timestamp := 0, threshold := 0
    agent_pk := 0
    commitment := 0
    proof_point_a := ⟨field_to_mont 1, field_to_mont 2, field_set_one⟩
    proof_point_b := ⟨0, field_set_one, 0⟩
    proof_point_c := ⟨field_to_mont 1, field_to_mont 2, field_set_one⟩ }

/-- Context for the C1 counterexample: clock at 10000 with the default
3600-second proof age, no verification key loaded. -/
def ctx1 : verify_ctx_t :=
  { current_time := 10000, max_proof_age := 3600, min_threshold := 0
    blacklist_root := List.replicate 32 0, has_groth16_vk := false }

/-- Well-formed wire record timestamped 5000 (expired under `ctx1`). -/
def w2 : proof_wire_t :=
  { type := 0, version := 1, flags := 0, timestamp := 5000
    agent_pk := List.replicate 32 0
    commitment := List.replicate 32 0
    proof_data := be32 1 ++ be32 2 ++ be32 1 ++ be32 2 ++ List.replicate 128 0 }

/-- Context for the C1 witness: clock unset (0), so the expiry check is
skipped; threshold 0; no verification key. -/
def ctxW : verify_ctx_t :=
  { current_time := 0, max_proof_age := 3600, min_threshold := 0
    blacklist_root := List.replicate 32 0, has_groth16_vk := false }

/-- Well-formed wire record for the C1 witness. -/
def wW : proof_wire_t :=
  { type := 0, version := 1, flags := 0, timestamp := 0
    agent_pk := List.replicate 32 0
    commitment := List.replicate 32 0
    proof_data := be32 1 ++ be32 2 ++ be32 1 ++ be32 2 ++ List.replicate 128 0 }

/-- The parsed form of `wW`. -/
def prW : proof_t :=
  { type := 0, timestamp := 0, threshold := 0
    agent_pk := 0
    commitment := 0
    proof_point_a := ⟨field_to_mont 1, field_to_mont 2, field_set_one⟩
    proof_point_b := ⟨0, field_set_one, 0⟩
    proof_point_c := ⟨field_to_mont 1, field_to_mont 2, field_set_one⟩ }

/-- Context for the C2 batch: clock unset, threshold 0, no verification key
and (in the enclosing theorem) an uninitialized pairing back-end. -/
def ctx0 : verify_ctx_t :=
  { current_time := 0, max_proof_age := 3600, min_threshold := 0
    blacklist_root := List.replicate 32 0, has_groth16_vk := false }

/-- Parsed proof for the C2 batch: policy-clean (timestamp 0, threshold 0),
A and C the curve generator (1, 2) in Montgomery coordinates (the literals
are `field_to_mont 1`, `field_to_mont 2` and `field_set_one`), B at
infinity as `proof_parse` always produces. -/
def pr0 : proof_t :=
  { type := 0, timestamp := 0, threshold := 0
    agent_pk := 0
    commitment := 0
    proof_point_a :=
      ⟨6350874878119819312338956282401532409788428879151445726012394534686998597021,
       12701749756239638624677912564803064819576857758302891452024789069373997194042,
       6350874878119819312338956282401532409788428879151445726012394534686998597021⟩
    proof_point_b := ⟨0, field_set_one, 0⟩
    proof_point_c :=
      ⟨6350874878119819312338956282401532409788428879151445726012394534686998597021,
       12701749756239638624677912564803064819576857758302891452024789069373997194042,
       6350874878119819312338956282401532409788428879151445726012394534686998597021⟩ }

instance g2_on_twist_decidable (q : g2_spec_point) : Decidable (g2_on_twist q) := by
  unfold g2_on_twist
  infer_instance

instance g2_in_subgroup_decidable (q : g2_spec_point) : Decidable (g2_in_subgroup q) := by
  unfold g2_in_subgroup
  infer_instance

/-- Intermediate states of the `point_mul` ladder evaluation used by the
claim-C2 theorem: `ladSt k` is the `(r0, r1)` state after `k` iterations
of the loop on the generator point `pr0.proof_point_a` with scalar
`FIELD_R` (the stored Montgomery form of the random coefficient 1),
computed with the in-place doubling the aliased call executes. -/
def ladSt0 : PointT × PointT := (⟨0, 6350874878119819312338956282401532409788428879151445726012394534686998597021, 0⟩, ⟨6350874878119819312338956282401532409788428879151445726012394534686998597021, 12701749756239638624677912564803064819576857758302891452024789069373997194042, 6350874878119819312338956282401532409788428879151445726012394534686998597021⟩)

def ladSt1 : PointT × PointT := (⟨0, 6350874878119819312338956282401532409788428879151445726012394534686998597021, 0⟩, ⟨6350874878119819312338956282401532409788428879151445726012394534686998597021, 12701749756239638624677912564803064819576857758302891452024789069373997194042, 6350874878119819312338956282401532409788428879151445726012394534686998597021⟩)

def ladSt2 : PointT × PointT := (⟨0, 6350874878119819312338956282401532409788428879151445726012394534686998597021, 0⟩, ⟨6350874878119819312338956282401532409788428879151445726012394534686998597021, 12701749756239638624677912564803064819576857758302891452024789069373997194042, 6350874878119819312338956282401532409788428879151445726012394534686998597021⟩)

def ladSt3 : PointT × PointT := (⟨0, 6350874878119819312338956282401532409788428879151445726012394534686998597021, 0⟩, ⟨6350874878119819312338956282401532409788428879151445726012394534686998597021, 12701749756239638624677912564803064819576857758302891452024789069373997194042, 6350874878119819312338956282401532409788428879151445726012394534686998597021⟩)

def ladSt4 : PointT × PointT := (⟨0, 6350874878119819312338956282401532409788428879151445726012394534686998597021, 0⟩, ⟨6350874878119819312338956282401532409788428879151445726012394534686998597021, 12701749756239638624677912564803064819576857758302891452024789069373997194042, 6350874878119819312338956282401532409788428879151445726012394534686998597021⟩)

def ladSt5 : PointT × PointT := (⟨6350874878119819312338956282401532409788428879151445726012394534686998597021, 12701749756239638624677912564803064819576857758302891452024789069373997194042, 6350874878119819312338956282401532409788428879151445726012394534686998597021⟩, ⟨7147577906119082371928845721565680195740313880601513940538190964715615728598, 17693347828039088453257103874612243847112526958525391664619811697023920267101, 13498452784238901684267802003967212605528742759752959666550585499402614325619⟩)

def ladSt6 : PointT × PointT := (⟨14200894805404530803494314764360849220593018442789506549990526041034915440158, 5468279621110488101273504126168008070018491954681345180045362454416613230004, 7279328318699293943547641236956651570950685078361312701645012240984545813291⟩, ⟨18282734720704933187571553073941921091210295589142106312547986227750320682067, 9023305569636905996615543522583458954374589965443283750071496952354351079905, 18851169500922365371597794166216032692747953509154164587945854094667850447257⟩)

def ladSt7 : PointT × PointT := (⟨14644426172278275613510128306685945368441725771079265263512272968704642584087, 802081621285788854403418522138706813132859749408271496256427477932585154814, 17960591318770737595275442298565495053189761148346395965322110190583508675673⟩, ⟨1083886560364091174025519416428634380260734938804334978363094570594017673486, 1546600088366339766273037468232249090860001214674072180455207750780865195150, 21499651966433142040133893085949589232857910472427006929795777189912758645320⟩)

def ladSt8 : PointT × PointT := (⟨12022036046504091021653416011944468468726881486609358541999990078502406219584, 8935862944332493417380820399746296845385534507214074304585293595263759140371, 223899074412613495462416027491360463468002834850441871602459876899760847431⟩, ⟨1263173693875697679080539718009697960562198122187665195110820879436812883620, 9282372695830969560173289172474451577019518152671159302914264806407764623755, 18809502986866601533456076902331874338319620601291330856350863471767040484088⟩)

def ladSt9 : PointT × PointT := (⟨1825351369218910393143439714050180738687243417324122933787880692625948349415, 1086808097157034445056366845983790964014646969529627364065688255316199531362, 1635813729704520154636303535174297633581726920055214855309872575530336182857⟩, ⟨12801239208179783416759075223875460866298810582161098898275134366156137130280, 11272402263772005864475187486655165945444782166811701327066544256264302833782, 8509641968918499517400167436442046541736218124867307814758670148035026341822⟩)

def ladSt10 : PointT × PointT := (⟨7221273753431539526089277393518050629550875377682606011743368069878946069752, 19738575353302613096196438118463503632782144282051614881016133675548151596255, 12323021335457570610044179645181108819010884293349502529607043531637339398534⟩, ⟨6338847849650538099934070044889862493169237877439899113426395302601594911392, 1817125740064786458096927924462350286014931666714396355540281649630811053618, 1307405782643337092839798774512450770106449645586458969168734851916000927685⟩)

def ladSt11 : PointT × PointT := (⟨459565290013291693227154108230846207385309646077118652368351251654523756119, 18078872199094025455239101363454912855275091664514861611617474777373473400799, 12806393111732214919234010924989973625231964088841057862287002872240518773368⟩, ⟨3051822073336964877019644426953595395047257754068833451558522558325046731679, 19179172907762614678077790244757294747064707605364345300587998746411246084859, 13882834434650229625217720364562888723869940290169262912776217121142480936635⟩)

def ladSt12 : PointT × PointT := (⟨9195184597705138392283068126459721165782191542123381982156507129673905147489, 16025159636132209799489957525849033057152691494131464404316568533458779838536, 11497589111507228135934525272793938704571127318982662294358744944714490051145⟩, ⟨10793017952499156523924578904524508741156500888251992225306254330718570303344, 21080271095917232677016522209620751855206159953389731119265289603242372196244, 19286360263450619836041108310770220691633763067676131323665415546015674807035⟩)

def ladSt13 : PointT × PointT := (⟨5264927102791514565608519531536443448774003658429578116039171861354718988567, 1353615516831573782363006697014018768637381421407468706518605466573938324671, 18698628930643994050762477022445841655002719997943410516846208155360786574699⟩, ⟨11065353457797039630943638976409012037994646111594427106126698392568901856593, 8365483346771538789000639081118779394774586034128795136383670910307104670753, 13950955656172151649626347476714856997739502192596012355898723167927441146376⟩)

def ladSt14 : PointT × PointT := (⟨7133308528912273892087868821858094331032461875241365769553306397252080428963, 5061891661344561375028825159236232681533910906472909859491368046727201802365, 1247861941626190873784366628214191386538496982994654600229663105763665298393⟩, ⟨12696410094353444360177640628718103267093605224575139468804829193682426898765, 870223612054439957648541980820041370228566203171726403714793036056703593055, 5366615650799032459797327266030623344486543914508698579644905063122264461486⟩)

def ladSt15 : PointT × PointT := (⟨18705201951353563122597008247361685701862203293563403179899709608177252377350, 15509583322570158217709649262770697767370812255046662080216776154793539158131, 12765565036827262076422400801148992821121605779936303866045915701674464038326⟩, ⟨56892856846550290662039689245815011103267932316798451966457608105709450693, 20191689010906745357805716820581740660500535356414040437019798466303380224821, 16337115204101471096678752713918822942036574775475391661426867373589797127832⟩)

def ladSt16 : PointT × PointT := (⟨17330979708047197486802564927681560660501551885704697178826838361054454660215, 10878223166478566612528707598065306404044159855873567608671527554817823023831, 5779365733078502027909180824143495522626780806224946941387791047397772281866⟩, ⟨14716332194688791964154769976523011756945746274018364629891099000405442681886, 1995218698819790688953788852574048991142276739955251477126266228802210439749, 1686165519464469120582780369940307566900152205419614366020003681581307633671⟩)

def ladSt17 : PointT × PointT := (⟨13543694646572090024619168662730380476522996392228856951003931934151869225964, 15725167425601198721959393437870036357366773623457632576662125957203905634606, 16540423679785752236521176874628133181322509498856946582534181944654032389068⟩, ⟨16705656716632440552941852606442209840405494529861310177664823275079788458924, 12072359328754631122744612991097696941089790472727490935725413171961473983295, 14412592118584159049656859862600132218483422980200889962668132482295332799600⟩)

def ladSt18 : PointT × PointT := (⟨2973240491482835840221188901395005366684398127490442584854520183964009032844, 6705834090940642290517757156607645229772186507065193103272020208984702710710, 8263372182553905563938123226175315870683309970947458678919732167561759164341⟩, ⟨17254460375183830652498072352186707247068334857474355438400223545309472037308, 15640732242880356491686131728359349702794838519539739331522835766278732862447, 19033738128649551392282594863543012276505045040112105884219756786151116417362⟩)

def ladSt19 : PointT × PointT := (⟨15681468877353642865884705779193483707966853406107298179045999461816142520442, 21296441020157351221530135891772482019021371133665402504575012386539489185143, 15253337869094456176313589962454590000266011907086346146234793292621294492351⟩, ⟨7091998453161163659126492621780052139342837890337659845424509188489084218654, 16605250780920197724183230347339913598148087371105115196921009597587286557478, 3381888675140594814507426222418548218751263374229695315820711817857159239192⟩)

def ladSt20 : PointT × PointT := (⟨17260074548541953492300591002751759041408860519375105285105749612568285085817, 14525969379554964935955481851801222895334108338442022026778744875440207160737, 4982966340162664021042942902480271586487577554905374878934024171948189296534⟩, ⟨7300871287076629944638474517959894916992856695225582972055823604563476223, 15180614963969157725489924305038161330367845634588525008230235034704203210661, 20827935116863736853046365690064868351178919880353965358411462326314363332971⟩)

def ladSt21 : PointT × PointT := (⟨9023468309624722838808519400155530758797710413231344926904092037332663555789, 13309335810323891267960975770530593883456175338568543187029358026726562853045, 4175645025210604570110472032950558297663397625228491319517885707054844404563⟩, ⟨11672636351251384733682428584941866621149040725865054631280218348059064642084, 4720531592532419507642639015683435989013126686864466072092022565826606999706, 3089022829350739176864685825005898481626427042131576361341455771418868993473⟩)

def ladSt22 : PointT × PointT := (⟨17476496334933906164670203500640902055758044947497439022884929035588575415231, 12304912290385086354255213311066050982190166096147274323754493848646434957640, 6533117375936529367490713028216487421977904597825825065553222221565314092822⟩, ⟨12699126663553633621472311870765749442004809055915685031325727400923384490609, 14887481043040926877831805350985562080609601022016351977293727890504104067922, 13535270280190219776767065882996065147801600957235275134621836142369233044811⟩)

def ladSt23 : PointT × PointT := (⟨10108935020785229786269226163874664865200487480128676607977943054423847306496, 13143266041179125456120743993148351037781494870923072975503571980721969212367, 714043390362371243466564779255832038833048982548179706153709119413082450389⟩, ⟨13080902689439347764465120678289558008554118652361191244198846705438334049846, 20924556097267534472811423508477407011790464524478687433556521581678754891007, 220019544007196637791902701279604322199072786048484598423980360759444635084⟩)

def ladSt24 : PointT × PointT := (⟨4201469086436939636639857869143998877719222648845443103746493811086032076403, 14942872052894920671493435913486279475707773355773665025529135970722691729839, 6560923783871222939692096218515659625102197800045170930410796134608048085296⟩, ⟨3517945891477428471142779787576119522605336879872180633127732989081408629377, 822073869503247880294134166105681974854988095184502186314859083961236119811, 2214884787469075204375390838817566660785603554948520936561068619090343496174⟩)

def ladSt25 : PointT × PointT := (⟨2710390356468914513564759061393862739762585937664478548560298817668566486074, 18530912186855425258512267559034259843495333664649096358897994144067540823289, 17918745201253622675983509400963438199484312669978668010812115662872655467158⟩, ⟨10446904899876021974598885847687703451312282843404618798925536164021324609847, 8494422604017462308832666900982094447875651368110586614188000239723734908035, 11877289003861025032265066941549828173150137297253151828893144742086350822760⟩)

def ladSt26 : PointT × PointT := (⟨8029470669470104511562735211475280674801791483956724948446164261113329948852, 14340917613610020058498660175617635746906225851353086209331179480680075356454, 9202209548718913424526681785102545190940328226805294767580867740544322747550⟩, ⟨5813794970542522175334476935435637827589714980159511193852457753530385604893, 5598210640745480045653949442202205706936221131927010221462935166038049361411, 12660279465805267992517919652033816171680954997928605270112220753423893604528⟩)

def ladSt27 : PointT × PointT := (⟨1659329665352792035518667518796899034402195469511983653821049834744411919413, 3508596432158215942053644212815661327750344380149411990359315798280725297070, 20882519721769987121812410139503532800766788949901714218614583669835143921770⟩, ⟨1896316949130486220565075989861079095386083014724334449595266380526602757818, 16342959124892982782736257983464030544927950651830784387176583829199060352690, 10178289892789229134229160168344841315773167182121055102483161949151745326511⟩)

def ladSt28 : PointT × PointT := (⟨17244258546101716730412667487370886639556270120321550481119466652948992477294, 3361757801576570250923702991574161190630487250222101590615445577811853663705, 8496298314901143434851028666541583593977561829612035456685263296793769877798⟩, ⟨9898880884947587519480636858213375981038534525797985048929235263480152094611, 4452496465601380310040590686630628539705044787003716228630892075914852631802, 19287952925819429911081083804480787644365056493079982674969719922966715922537⟩)

def ladSt29 : PointT × PointT := (⟨17300821692448487315018438950980646341086902629370897728265730390465957824797, 9211820218027149954219659582972632322761964582241352710337968181723696553114, 21063665280773404080006201731100018905800728504707750772271176736372536075984⟩, ⟨21278985322656431906996800651428918002742518226762930829235062794464311674301, 21462378687008239772561508992892602531931279871344331579387200403974498348407, 3850523015928246256299906325486943644778255898702877936837785297214627176835⟩)

def ladSt30 : PointT × PointT := (⟨3912962946390153784184468635607343410385026008392971940270685191019392980091, 13371776313143919407951001160698651753653920490616317838225149229129148421379, 16486649020755840923442148927567514080362653735490341620010040519676423409794⟩, ⟨5299189258751912359800841666305604317182558649555095202372166052824212999052, 18191411857069576576935877137247620826617737713694334647252170869726589361081, 5396297853719141831722148441038513261138997468185961543449026520835388230620⟩)

def ladSt31 : PointT × PointT := (⟨6361688830236956642270927512522363971759394723610091762491647601792782713438, 5179878261141030849125650228903206184969428401945079226704604545825823437739, 15440994811468795277051452603594456197254882590807593379438312857997222034782⟩, ⟨5541784554221589436930876526856440186462046907821175917609341430978723170003, 4040852610091051531803735339232258533459489779585920256407859012383167767676, 7992558392882268899081494050074755813332984035190563401609349408715909774523⟩)

def ladSt32 : PointT × PointT := (⟨15123147549726717709337415391170154990731565807473776839861247312590952412813, 13533396462371437246142627825110627947904167438756444864699631918672650670836, 8766188137039096646293631944796484399468176047348585620309398827988516927387⟩, ⟨21389480159534842251456962791276106490245952079887687299034155402248754745587, 11791058289259655280963566535901349238254067533937162457618544761067379495160, 20823218053194326885735694444468235258962914844667951779916854988293432698647⟩)

def ladSt33 : PointT × PointT := (⟨8698827217946518895190562765699182454396030624015725691110213315874050596683, 18357925982725630528477032832439718992961288251065267760829386097535295540789, 14405509375854478654709159961896902858520590727132301892030988477974398204397⟩, ⟨10918117423374560502253781552869552598712621442203209031894553708089601101098, 19832002347495522133078279378450493343801150889416886024299245743927838312215, 16574247837477910388318694277507609590593569840822452138775653890272804796840⟩)

def ladSt34 : PointT × PointT := (⟨10355397388030775544429338114738659258543770604526818362910826549989163998428, 3987849849883336985608006237140280232404869825416979191413514750145269276516, 959325785439102840124552091495004544406782852336175399249492884238878413489⟩, ⟨15906990681958273411365245538522099191066106418989323116865586138321291838572, 2451895914250013000066401714291982003330314579702727714641651971852278021501, 18774247026933027687448994504406050959852997845582486621198108944120781148593⟩)

def ladSt35 : PointT × PointT := (⟨8630222193160410810347180725443928543599250789121997201716620349744431113276, 10573258319104910358872132717867493550486263383468185486014576821121395692237, 1205792217824496195990591795080186556574599117414306116278777684018942463626⟩, ⟨4521953692936977385206111850024209423548647620382652042299830918552107071892, 12907103269102868794689455934279378687660339967488073462804863493439588595165, 1438360558467963896042007622742744748435486707103810246134199273663947058299⟩)

def ladSt36 : PointT × PointT := (⟨12664757545889801922264337404635353962254695608087475342158615193731627765735, 21440014369359116618324995124667166295737202761252181126288961387325184492179, 7619511607127386279205964335828493627460269226064404592036365695676434341518⟩, ⟨10395189750137977246443864314806306758841924856581618047163193274144883541681, 17920659389440676783382642791281653192552944924345337579024546497928589085230, 9424272004016414081101864311216197538939612392972499614729798612134497362651⟩)

def ladSt37 : PointT × PointT := (⟨4417986925243034376153505785458526088040288126331512983151608668879445128526, 8843707011445043745009200264839759848953028366206694557699226756023944190391, 21570656344267756216021323110423103073628980108092872496246375726363069233116⟩, ⟨20912073737443395032192085804182106399467300581148635244330741594626619858656, 2618732160728104932660832744237304435845457320939915680639696338268355027199, 8654188578944213518247836624524998937717099969407327242744359185351575596372⟩)

def ladSt38 : PointT × PointT := (⟨19068774454222583173090318916512646817429345054487711300156447133135319307835, 5535174643955474393002109834242430390879060111286222076059056105086535433367, 5688630080096348848400614949923986214418736133216128581165277532848861363482⟩, ⟨19754446980508940946703629076308062149937608387823515847404050609764421831868, 15812912311068806496088815522149779538058293998826312224326350157492283927642, 3409836240954851146413781951670990570886832191668918749868469240186891181456⟩)

def ladSt39 : PointT × PointT := (⟨8314698944833002017852438036952150377537147715409630659048258045981507625942, 9055497171611037794341632230551120451069340510483959315102872039942482594125, 11881442340178535051550452097958284623506005787530864211823393425199350169955⟩, ⟨3020730910413399410724404259111491251421627171789128747211072320726995557000, 1967773567342681515772810784180358644656176505604239978828004749774550848539, 19951921809038570983753154484100553560660662267964364822705237385577114552998⟩)

def ladSt40 : PointT × PointT := (⟨21067209707550696198014014971061244209202694358073227775631690330601506827333, 2113459390714185815078760647347751789054218533103023480665911025502026341360, 12645328713601139719601778569825552792144448082921991309357199143824178097404⟩, ⟨3313704106693257415289739968301459202245973829558109801817976639710351801951, 1747175392874374622657192914519758276158205781937266636229570228215821117562, 7781061475931682645973936688903779321215111877648927404170521281505566654915⟩)

def ladSt41 : PointT × PointT := (⟨18245468147608130092286766260983244624856802351412381553248802299686459609938, 11237770490316379896562679209730484874862619299047141772026123041733389603369, 18509303175749860214706120526153839412519570103203920311655251872453961739232⟩, ⟨12433610812214409806035956980402690249218565973314835287785801736142725173695, 20881996624271942654622184551054687875143490756256905875120734751526162257482, 21478383537135325917498095531488263989041864509684587421559721850041207389721⟩)

def ladSt42 : PointT × PointT := (⟨18726781799150472510907757230478791340540264606285680313000979655085405662229, 9716132132245868317002085129108212049656854365059391086318198031986148859840, 14017104276595055896672358516109214934316186957445450219806784097784380644230⟩, ⟨3272179674076557011171193880097822316030421183788246819073797311182086327336, 12053249093196008921377685248681109660347460476277189052394679736460492666355, 11149875030786305756226406243157574984852183328832133298767948542943109604771⟩)

def ladSt43 : PointT × PointT := (⟨2760985676026524337940523557455368809461307729927999964396006578616165641129, 15773380338929161941976059670259808966403479575846359166506851826848507950047, 16887946745353353113145020728957740283872785548445754771254171065556810445790⟩, ⟨19991689214989282007487399713931608036941975952429822078071597122577120346888, 7210221862529610628552414492069686355902907175106112046618082037423553197253, 9359042125886994780925086652109083393306626471055460959847504801101821800404⟩)

def ladSt44 : PointT × PointT := (⟨9897636511492518378931633444282796576641733103235080692739500207288833733678, 19851057061992923695711930341216579011874278480950105148083108892084328509306, 9456007586891266923964913971008062343923335661455730499189336592718655454429⟩, ⟨1794613833449559733267953280974883862329253203715152958587728946868644029347, 8995332807781419699636750450827454651137168295622204716702258271971618874064, 1360034292308370543560607134339566349653642961441598357169303181424925363465⟩)

def ladSt45 : PointT × PointT := (⟨19408150273716941622701197251159937104253853805210955290657253569090922011219, 19621468121154909940000502947378749101455386756841722259749105271036290955860, 21572590962552027779799429864246767477773012458581010815514728818295182939666⟩, ⟨19854969695237248098269202747786726912788360820497337129020953869365441119703, 7313517682326720543253530461587605092692743648328177221339765544898573025066, 13532547272874299862930813928963417508730817972060910294578892318968589913150⟩)

def ladSt46 : PointT × PointT := (⟨9952600294301484364953255493589532023663556009853235072519167525534746116686, 1652542483447147812478032970720720232740494486563314966649262864493640913514, 7346554535922528600449712166355188349044138636463377963046663104751520852337⟩, ⟨3702405231516124443580151902430059762312404351591152563019608254601010403913, 13551886564331908261583113481486802759675228682565601702179484898423124651289, 19903509108563484017009067059551772223388411664134767133115568350204848729096⟩)

def ladSt47 : PointT × PointT := (⟨18309279699410697631850678113575436845118123819646853837049113658304926700285, 14026753765900149431155564784650541762957607559323064170968965055971470103511, 716635013493758779086876121287396277863166606229043839704820591382819568189⟩, ⟨7327700038895609689542272949663293666907548965077665186376797327528222989008, 8002124356108921083576401571019236178953750776058720496213866835537210006181, 20408337206272114448019817982848877694929188779674717010438197418915806998335⟩)

def ladSt48 : PointT × PointT := (⟨9473794767496296757245440009791178195987049073317319391751435015308872682919, 18850737869070561396436019675780358581676530193856135495937839248198726565588, 10351672292738410952172836638654406313643402924486227273152677960915162458498⟩, ⟨14712930090224005348724867456118705579696573662554185881121949115951686979891, 10785592451383821443410711480523391087253073060882176453477451892290214134505, 3163608059059072742421176838091227577216380161193354616836753122061904986327⟩)

def ladSt49 : PointT × PointT := (⟨9594394490753731519605366916653626199792937825101705697557911693176600109325, 11814315757483854204991777319615320539278658164064122037400017362410405965825, 12125035848540750775518179338993566324393352688640042802694417811530378258688⟩, ⟨16321390752648729049023317941384219706032554786664641992277864874576429136613, 12345992508143721488670458783752340147311671953744185417690705879391375261707, 9567830155452978350573083871306471464969386237517379951957695469240112811316⟩)

def ladSt50 : PointT × PointT := (⟨16015204206371731974690599848358213450660010807320449735397583770294263336734, 15704837139344755207174952102628925674687553597396198337430276032599968744211, 18765923638792849104715654859201627444357145309223930484330378441827228807922⟩, ⟨18794202519010114421193130168248901881371681780082950816039008566452155573181, 3434245283107466218755422899708008845303608638299202398696774777222665804349, 9720910403267059719536650133237226626907868192888195236477090229779834905482⟩)

def ladSt51 : PointT × PointT := (⟨15221602929809564084981076185096179257082853505976575194236442735939256026821, 5137964734451540304048881120099463867531584080468723434372842449393749840143, 5026840867851256350268476362235884516744023089512555953604449445283529239717⟩, ⟨10231888108183209788946086748831927700633623705955007774685290122676745350568, 19958108785017210762709471727922477632441364603112860842106236263646028756120, 7061766609175324116313667828898197000894724433301742017300299779458066204786⟩)

def ladSt52 : PointT × PointT := (⟨7204660277700649475775604039053960922910941012390074672937462212214107418887, 1489883002639099138572886400602770138932897318641704388520758971604100370009, 12258999394070228019070102434699752622750726253810648955535916841205789927185⟩, ⟨14389928774008180649965647282164987362779937318925481558815677373622882580828, 16452191084049147494989642724287920683808032242803679155064173864703848141820, 7412879637359755775858772359555070729805181813999054034386860661537586996813⟩)

def ladSt53 : PointT × PointT := (⟨2120928375825450849584227009930895663139673472597971760322897311027710043059, 3837935536854932463779851659040997109864883312106645016798388515040244703242, 14357197527700404365831766706755434510444498965377813640748264865583766508480⟩, ⟨9276962898221642234594637918433005693982248808468505772703246389636856305567, 20518494530789235071093822790126133418606440496754833136515121711502241272516, 2884947914069985126472520612441811889247850427031945939042681921375436369239⟩)

def ladSt54 : PointT × PointT := (⟨19091014627713557638664445271588782151163237722411833201677352052911090325072, 228360461479501490902024798013100446573652162497149985808754086310379587652, 21567496943074379717601018691892013880662734682041349077682340225892401069050⟩, ⟨13029556301719661842432296059289341605240890029933091319431429651157683457275, 4502270133692260212821236493515488028214004332784976368952824426666859251367, 10351057414742962180212834323455761155880231855653577603347096291638983592331⟩)

def ladSt55 : PointT × PointT := (⟨19419045404598376415251942495849117206170694096314095116801524540991227028286, 13636504232920283925960374663114603314123115648310834235626217919391161688617, 2826288051877361368659935610497075115801769117313346284399236256956462438424⟩, ⟨12311815803458168312167450262280588169974379536367726373508251676209425098585, 1842657463991004676668550479882680460386486415840226707294321046036540105544, 6253894613742722903911066792039652404225770856693482742378673537448466240980⟩)

def ladSt56 : PointT × PointT := (⟨3690524584623596961643988424070361509792016982544495957322766498615089443744, 17190682841244584381844067661992580324541703130125097025673041279945390860457, 6238162855450372961123875914344170473506730599822845239977757014790477182704⟩, ⟨5822571700771013709989856756407868972755595607600708154279980016539406070881, 12008955321207758480272920024915967099477625836490370657646724870938146203089, 14765370808516039481574099966782840143150382236319474322514237406837116823135⟩)

def ladSt57 : PointT × PointT := (⟨19142660400106085534505340335323305307655637906330852125168180398521148560346, 10870920519806455721152353937173404478262031782793243119844899982583042228696, 13065140408142342532900983111373443790262199787581512049684503077589467957721⟩, ⟨7167509391115813696321565097248905231908746289518825828583452453037106524560, 13710630466193646081354190692368487562256708718574840665115507712985066145774, 17277501165349462499175591697626187463937003396445406116465211720945064573803⟩)

def ladSt58 : PointT × PointT := (⟨6021703056227315719914133787139569038801758346454550502341403626250854640104, 15029641608839827887845376917828570489637482851804297282245893733793134867362, 5169981701018384061743313497070682331555305183682477638591492717118673566781⟩, ⟨11932049518731998400480814762815388917892356879999413188433572808756542993690, 10996520727849775101762560925302167560510161553445303410850912147373969107201, 5501398464671258171814399295300584476628559710348607680212960504483846978708⟩)

def ladSt59 : PointT × PointT := (⟨17382097469765611268856590842663664301418425354704166499254088762245313004269, 6074718314781502684058240332818211101350862276704886861126916499402346457917, 18429055268238662281897782675468205618728399224343783394496650634932050835877⟩, ⟨6666285672099962909082369855613581504863806302846426585801924083178550535914, 6186227086925802208118153799601170427766545024395866408691200505286441554291, 12361577420933843121096604574836955516699778035995380921018129258342270203597⟩)

def ladSt60 : PointT × PointT := (⟨2016775789789877666188163043820548341583306663944838137236946403911370145876, 379752413764697317617945512183657177159964213380958992027458777788290450973, 14561208606100730522117266394710137879174042806213350213148086642325663811532⟩, ⟨9415358199797403552466935852392531444184986523411612751153239743144717693414, 3188221287315320072536915107942443402756827459817004966421969310768179842278, 12611639027970021464950251885601499331108854113655499348360161945744926087048⟩)

def ladSt61 : PointT × PointT := (⟨14433601288271464015300513966795285234157320479070676855896934437012834475128, 16770228016954831186544217030477006755391845318399941162206808968164897434146, 8562509310637322925195090260556200884698452412178829344461556448948948424293⟩, ⟨15006151052553348648987585287038451588626030386721448814594262783895553243790, 20244518874684147571434856264131172595942034361466024731621040538100501816752, 20791565898785048403640295327396704443512649286286946948955938163609486598477⟩)

def ladSt62 : PointT × PointT := (⟨17149341347961883195507233063124928034213217357296909905002162737156589122412, 12928739283204238389524935957862796695125016526856057920871530169142663404827, 20964629575898974425232643128569745241213562166092572789263898406960683563839⟩, ⟨10015572182317316063201781620554676140231829342712651183975758116984987653885, 17469921032846996638861819380803920450812203039541637510880909328187292574242, 21563163325618309593963846899732024766643244185523478448254422006056537979057⟩)

def ladSt63 : PointT × PointT := (⟨5563518597424565248723368194019483002900483781373113926625251276820646980693, 17715304825650192380902582280959635547302659983805420334580741472623358013595, 21056266836615870098816034292795285567648074235528414302599736961160633957001⟩, ⟨6225182203641701524885273729772728424247691953737090790733149747568379525388, 601128756258365385177496619814957313612896101392074625696577862185693063174, 18859694434333954338673132541339182749146867302918358708761903329326018008876⟩)

def ladSt64 : PointT × PointT := (⟨10494311600637560567652083428380568168128036762030999758461894846850401928238, 1260053718792266936018204303593347752637443104009115204982265539115240825927, 18901785745913870568803355987006633891617868540620169515796878999324536465775⟩, ⟨5634825263538178604146577342500613109112509578212727688290844526094784355249, 9386605524326710764659586329567693009489351788748680321570220126843658720384, 12432281665739548371330749286683349654435899423967430984525232594455263167387⟩)

def ladSt65 : PointT × PointT := (⟨11990589433949030786749805761348568080727201780188876542750116066706856161967, 17050198008375182897353429955108748343488123702574753579120772614947556252439, 16156401293265304804711527371773124827398595162894412847558041168098726165591⟩, ⟨1537661559115675354727649371637108074893694354451239087879588328856386273609, 13281308987797164177734428973648198236843234568020349701006464434684049591636, 4413269685658026293426967298962330358939290694105616825971946159954867183663⟩)

def ladSt66 : PointT × PointT := (⟨4697755449301521326649145344332842704003584695721764406581906023164369002867, 1085350157122210151659771216963532513483758140477319548951625046166648438735, 8327027151851293745476832374575340460973898861617300926276382617395180258278⟩, ⟨906612863444420713432563702943882643083182938972069876811979758519889212491, 6033321920026103930299367766356117698895041975594358151426779561583675200555, 11324778517816443686400275467824157832532171951929249609401403534439246096708⟩)

def ladSt67 : PointT × PointT := (⟨19718851097732932922527676393278301745833853404255050626763235509771985471899, 13293848494681233464381161850100851587050047676324846620584934035930056520210, 16348761560691270552465918289224678211555546805654079789509296791494426102025⟩, ⟨8544253557724162266101967954329085313286605809287619110266337062887669869884, 1925745595634660587685793437990150012695899379074551142597274267943862115960, 591752607746805100549213173383075686629815197025932551994455383414311249169⟩)

def ladSt68 : PointT × PointT := (⟨3989311829673129364296045060886736636858149018560532746563862963441449771208, 19644805127154677716167832410585677602003420122428012920233983573670207683155, 18159050754913095153738893901204736596729911471986926222565531203533614275192⟩, ⟨10474937465096320860047999269129245846065063954295935401082700853436811319117, 12981161968586967966750092109191117069368944024114310237868465153628300022627, 19996974267051949048151520726947492583149689386401447660437081810908337317694⟩)

def ladSt69 : PointT × PointT := (⟨15273645502390322005856605717942552562952631696297025556461112814753555581773, 4749953138705440961610856349712530919107191989263648262048789380857946888723, 2228988613383290340883830927518871660376803434174052575169331582503633737513⟩, ⟨1815901069972937633892853543884953876828988199831383145747834673885962361821, 3303812869942136530256846765460716211601518766285282435005212165109050580590, 20207237056493534168110555979466326189053065451232893413544621751134316994936⟩)

def ladSt70 : PointT × PointT := (⟨2349010543681246191477742370093363129649045567967553136773190534347624033985, 10937832942167977927107368490447598961514960550150152974003105135464899057828, 8297276706054752319780387536287811901808815885910479431418971919859479072098⟩, ⟨13392973286015494703204448724180927792992840083285075341838813979883720487895, 19719996581004894242735627156361910095513210773375712376861513779374715007146, 2689956085085043542962227954175028594677116673775056211007970538452502952580⟩)

def ladSt71 : PointT × PointT := (⟨10416062777193277505539387929618413087943729307743971779784155077222951752872, 4253396221763396469986752187886666246061324667452458201727080870648832114492, 17160041316269237897038044031326151304744009799676612401191419000848153568461⟩, ⟨1474133432281966009664496286409144336528906008446728623823220500213688262641, 17821719406307229766707480930662468403995533139659393837489885542292676218195, 12203679110478386217542716875591767116098408581543583902688065018049325049028⟩)

def ladSt72 : PointT × PointT := (⟨3157881039593842321185203506736185679052950289768817991491904288759804591944, 4408347942744250574546116823426151078536418598271010483349924883617941206881, 5554854032795956540335800788079636394492842322300340112010200734249142261657⟩, ⟨6172581405563806898753864937354222124627300225116828345428610718490949140617, 16441337881413268014149048154146597453008625184147876406643374594521533499335, 21834306788048792393209852809697362126134972825681857048264177447790325067881⟩)

def ladSt73 : PointT × PointT := (⟨539590693448120450324727555362045540219697586712094536742306524339369802465, 13682030548302207622242252864768079377880310615872782711094371064644876895792, 8733869027211931089082354897323585581299709534445703000672204312019432479619⟩, ⟨15202245282091567221158772951878538857601494652519804331810046031343171835629, 16181724711369836133233684974214909265849729783898735818833993058596343439592, 8366238558655109278037436618128993051401518847323872205501611777811883735945⟩)

def ladSt74 : PointT × PointT := (⟨4973958609004469544420012789855090871785979708600725766723516631331422708351, 170399136450673109930804775865723277357768807107815783191804719023137645830, 11329857647625817720972908220946371527653241898981271726143128932060054222945⟩, ⟨1801368201120017473254586491955745559042580693028271982487641734594043595514, 14213254439317010883884006861225818344413323067250644545237664994202834505085, 10935387581422076729474512510712288192788365673779166924800244560001344341801⟩)

def ladSt75 : PointT × PointT := (⟨11491396136683807633983513572828667960217204255561119367738796702757296763677, 231677387626250974554775675096324977876027193663051307679722642310227275943, 20825653614362387704895453457304175587565940972783661220629244506518493410937⟩, ⟨4097566450934641314982743903584052562911836063968109474629507799703457630425, 4848655295357560187037837916536463277614488952297124860295659303893862776945, 19489246471198725112418164806917742290731762855683386701883007742526196260310⟩)

def ladSt76 : PointT × PointT := (⟨1026023191320593022446549572567814805177617433038204790002181898014005958626, 13099679642674921244047825959648826956383918702832728615446651259780493979749, 12788953767780228991067644162283542680766192761045230154077091061822267375646⟩, ⟨12612978607856629501545457855470381924750394577851813550845724570760025040396, 10458567813835461611811134949169544857223565235358150492438747244800473201284, 2510161116408995190204272763820871809502726257992590906965895885107383881950⟩)

def ladSt77 : PointT × PointT := (⟨6127401061843567105781001531593340926783533186429929205376398806875534504548, 977952849408476856717609304230378051023576409043634708331980100023070265302, 8629666539294043568488126868703790922164026406939501397413926149498294482907⟩, ⟨18143481655853631403892671533360157643082623015853287427468247501678985864948, 7506738119617688845957408448412073962551537622477288820359577648462089637425, 11261565343540463386705555312972932915887867663326976429783580892405013474576⟩)

def ladSt78 : PointT × PointT := (⟨13443322397063840802507647756357067135636245891548255863407918073847252232874, 18318293856580009695568135215146849470889234345893924324398038963902028261881, 19323230458019203529603909216363658910133190484498491363974558712304387665943⟩, ⟨13526892821159013561478060114542536431630461868688000257908382712181389428367, 19784464937634249241310008928820181061186667454026105146769648436349862364137, 17650591061243856548646549896559614098457605886836881893316561205856265471174⟩)

def ladSt79 : PointT × PointT := (⟨4144034885015057535185300966866756130980476623382193477353248215398626047080, 12646719443437869887359232910672586329919076901002903801770030246907774641871, 6589308653059935385828206054596507230115923047786016609527411256103676007664⟩, ⟨17219549292269301935884526454830659355192043479311689682707304030989820223122, 1383099516020419739321848198260723961551225875366936990733692326366669732585, 10342959909528069871891156208264789062184252354687846297863368122770505960809⟩)

def ladSt80 : PointT × PointT := (⟨10757524784460762186142150795709124391585231236094180271371639228292920026980, 8033133027427318179552422349771887024582290867679326414336015088147321585902, 1580959585858961412051654845163037557986825380488869875573833705420904258466⟩, ⟨16143049100117518762149241990091314196369318025509053637935154380088965274087, 16110198006762871938413976065787157719728049432728929051387361707640465527748, 3084839457750434378200158585025872155545334636420784454790649852791960628737⟩)

def ladSt81 : PointT × PointT := (⟨7065900847786126820950669327712894748560460438069444417110713410192569777517, 7273324986399867580207564467541587665160364063620737546391859099885194841468, 12601692909522228122570631982434773606685033590925971721573126499948923456839⟩, ⟨13820864404023066912428834672225330625736911214386091215705945860590114951142, 2925126335525195122395245470646653139887225982244656415214340609029477513107, 6463799841979505648572676969494940174655608887513266925377083278952463566359⟩)

def ladSt82 : PointT × PointT := (⟨16977611069695088118393637769812678558216254033010585526043517853969908945729, 7858353703596747524968164547024287626962653364612554596463687980767678417778, 4816379551844846991999110407440107728845358912868811572377451305077053628648⟩, ⟨19316772617901569538392536901552172431182931555958646128317542040933358166795, 1213864465661434635481431849147784692831071742026040485601322322482688136306, 17507562944644600215030140889830732519496947906536479439062020078282801134214⟩)

def ladSt83 : PointT × PointT := (⟨5555002302819052464561525293962231401925720906413741256170071492666704149804, 1671095703173786552089022667260438348151830638164114873297907883076125632041, 3186777453677061769915917530455041600433706136736987259100888239600374760173⟩, ⟨6790470478253103173216319311851085800434809345687522954648038899351265649011, 476860024786394160925874349183966839924903269677622112251678569789178684836, 19032463276487450831274536539290537361091441696616522280072968446523717902677⟩)

def ladSt84 : PointT × PointT := (⟨3631679069009632135770728025308768837288484243116127683118302161970561794159, 15290976546871605987081416633880885047796785994907468539264753765086197190574, 5364880851282010609662514858908337645574111957660363691781789612055129660768⟩, ⟨20742868630356883317857730460042720340612475003246371470506155530585307745641, 12391787994049811913434692574454781867731929056880903190793244309465161841266, 15891503431482920470178231287975081703120524103824303676003816917193293026726⟩)

def ladSt85 : PointT × PointT := (⟨8796209145973824464281398808719508449071598990230222321895428547434774756176, 11517279382212626801740026776644840297389318740126211435648127284148200169793, 1841159831320650663278288831094314148368192388276852211723527445019049364817⟩, ⟨19615865722204364759777050149842716636199496383216721451636628935963238997415, 18434168789643467993899046830257760080661198285924827524093016181879153034375, 13981392768307889217584871639201623621245451955064174840542852311785221711924⟩)

def ladSt86 : PointT × PointT := (⟨18403189360611306941191424405249540415399739048366732923460790408372058774989, 10890786734181394538211153282621482222740573861211270808963218402608372067560, 3807625191713644174076451456270077833053927415168430017154168789476684732175⟩, ⟨16075088770432641945728895536427111429493400196561061385230014431977407308224, 15994920485682947049019908843530449060753195275421934236388284526019974494402, 6019545520017758066801116450145542371972054313281145121061151219720334674080⟩)

def ladSt87 : PointT × PointT := (⟨18469043643797895222172003521343262132594658103478216099465182380507376106502, 17180522188704290582475531698399480041291269103735558980194339243923693998132, 21369924000138728727908216302810892607009046197838106466305012999587923920299⟩, ⟨14877162026015343270177821672253203787875325592513728318149648037295800746392, 14377062282351438147658599248989732678858935361844409794050427020967103830810, 3885061490867357463283364768279718108888993763564436031525783222059692898884⟩)

def ladSt88 : PointT × PointT := (⟨21286660253146420919724884367877198765233746687224940872089842150338060571660, 3274701875922794927761083727942195882445917904680854111514907193790867835815, 10779770709297066027978578645513703973949661167381081223855188822046099775135⟩, ⟨11389975707407963759986226690655796611017810608383958025583827777913669100145, 18913930972711899189900651572506074538935737369341514225498172942173437198203, 16448810303175536384256551517238381735423385341211267643668733020633206709932⟩)

def ladSt89 : PointT × PointT := (⟨11381266237174137342216632643481333171226039777089904528891527704901002275125, 20183463761379816805350996020857688429798727027286304537072460679800412682971, 25257375181334916920990769544999229974840332534522479824384026286566703028⟩, ⟨8608770802316151146004799873107580806431196142546665137610371380181487121347, 15168709036981869439297971121005680106372130150054749988709516421957565865627, 4699709511393801972030209125325053487198632497096635718076918132658108494417⟩)

def ladSt90 : PointT × PointT := (⟨5683234728192452927250278372017867036596292720089562394731683193935113977150, 6025462371501743462224858116876226081346115882947692189448846186069941460525, 13039092735747895757932277866567859356232806306101097523620193458274462986994⟩, ⟨19086512961025939858711696567151462902907774298545973851655386919304904163244, 19290212212301279002387700735402299577908009970691093753779434372935674174344, 14296413016766836550628574423678759878774422821454571366815791405200991997939⟩)

def ladSt91 : PointT × PointT := (⟨9686335843298539767977589045057812104822697159820272251504246417511005826988, 20524985746725444658619248009019534834451666529645528139671409212658066585228, 1606333471343516781372943677938349815477872095099493011684470907343927833193⟩, ⟨19732536096002175113595177423999431884281652871678125252949452652216717624748, 16507417072655498279152590516202896842844748537626566739682365487495022324652, 1170794963774171300974651444782485425141620699952398953853243409568031009138⟩)

def ladSt92 : PointT × PointT := (⟨17755339026517075246192776840512813904194335915868937988916697616417748824746, 6400428602438261649460297428146228648417590802749053601916644601439078602376, 3242248469710839087922174236421183053845959289654084049675978840477296347156⟩, ⟨12045439218969663832603997765821161636561324108159044119058499555629268593535, 13671658788556539044287550537418528793149970282257853121302638157095624254595, 18470961169145125926940939270372969319830552197861042810318954126725914875180⟩)

def ladSt93 : PointT × PointT := (⟨5500319273456750898677175409024794315956438969878826532041396823657222563757, 5502915881330064660017441583978026886214221436664705175273252092389319705933, 18601912626786114275126413035801668642701604227131972461662452763062381578542⟩, ⟨9970566206873607444977359484535941956391310173446334450247209488549676387070, 10023846241123446562209656640659835728105877126156591000647622772849632595001, 18715977827387325318720711288596736385945436715528369496364677803534120240367⟩)

def ladSt94 : PointT × PointT := (⟨16782720231953202704087082001561323893466143487649896882783595005001273653471, 135681585714006964407091910856696468977546790393215920244259434018829207881, 625509178143823532562718620356651081492469127115889302348407466407699020856⟩, ⟨21023363243123558886836024408507211127728919555808058073794633073101131076373, 18071123759395600087320568148917746484806096665928160957698104990987836576100, 21699912175111921509502396547197061683923126298183311377947593500346377062856⟩)

def ladSt95 : PointT × PointT := (⟨21666454456954417870645127192157327798723545213634345108811028469486775173177, 1379033160918256219187692969655317488798514070849788302419381325010476725022, 936195799288919648113432674876746763533251455547967267396002949169348273101⟩, ⟨20421509401853888192007741014938483873951693555065911397893532849158055545696, 19863288749612402380823392734290120722352998467073001834512187693874518055202, 12456872800511451427430178923399948174487520834480287672670809627620353830454⟩)

def ladSt96 : PointT × PointT := (⟨18920779668598380875802728671848331340078820976025910821947907873126183343725, 16591036799051371184069047057231286003677825418896416976612427773176230755948, 12982344172213793043246190991686059908640645397254063871818101930684093906575⟩, ⟨15869924604551315484698733011034988558847949919575948104793264760515521239694, 11879242352406086781355916276428341642804241272690107770464117534045264864045, 13540868320798457129001341696114517583025316389430375916977926348276947400804⟩)

def ladSt97 : PointT × PointT := (⟨15241212756914946186518561427214091689710985837291682563746530053091562033249, 20999439546318890773950905661113473444913474728112008182926806536564473482550, 17277061199081031215000659726553184294036742317879273017432154715748931318429⟩, ⟨5049995382485058688314216848215467442326102371401523137816330173665098331460, 1073164209392698637114056889237432199252447675661796784884559795884127996159, 5562933846484314607592623363230479819525844316161323860188052099217765169326⟩)

def ladSt98 : PointT × PointT := (⟨422711152697214427413335376641959216841564349706318854701227448199215910701, 19012549689754631565054325960652744607623694250615565046317532137627435984691, 12477279105399074811823629883286424246063858976295528984738611162887124897747⟩, ⟨19180712256536552237105720727114074496485613804700981225283103948156094136374, 1303349104921264344148798232152805139698656437935422143305119619805010975787, 385632021157801809190179589985207152396783916676079153315133439672940306311⟩)

def ladSt99 : PointT × PointT := (⟨17332488953222054025471371718984972192978679505355761399460821755219746457894, 4798588415916785164600835165568419487553938207746852821015608620279636781669, 15183821161982198644072867888623053389756815436358110338432789744665557798411⟩, ⟨18336419440475564531286279570797277475837999192949406410707286898660853856524, 5246687209065171465780868003219303491162586537966508791077766547100400508068, 140187883315698501543926143884148215347770889846050018000843817122188540594⟩)

def ladSt100 : PointT × PointT := (⟨16092942990984611059546671705168357736881595107354997795848397200570554615923, 3291191271775486185979242511648956150670414304318114030562008127734517381347, 14268950807377988458444885595385976212647537417653271704317682097779981722857⟩, ⟨8246738264552140172094999735600948484602301165149253973374947111543310248408, 9002119435563168948062200183406579558746022356065692335512740412690963195697, 6761500576619001957839374797341027501360914309646374683083246942422476254643⟩)

def ladSt101 : PointT × PointT := (⟨3323708118971658939261531467963938722448638935043036132232404618490090430027, 481728793298126996834412720554124694317652823158271899113677384711807339812, 12397010934692658613998403348283804238766261230247244277035180094171360225467⟩, ⟨16918419827860533062437928289353164367804663649777880514141206649794402005064, 12685660175841947262186188041411595081423657193913508539645536244511978015494, 5647059870257714146173382872577914902558892765984088121038798433079216017264⟩)

def ladSt102 : PointT × PointT := (⟨8581092138224713055178230740053486623352721811171800486618932519679794066390, 19545879606254578801837149216749638195377375536661183923245093425402516251298, 598096263351697817590269014886561708320816569217501630178495444785649850470⟩, ⟨19485039709733358663561925712013444156870135090630560017825825549994895738178, 14086170142712258825006215094154957872254343232549472997791576428788263817655, 2765356767368472965752393531637778826171840838468607511953352952864000992822⟩)

def ladSt103 : PointT × PointT := (⟨13911574978288607939821845489860928068287737175451893827315314992758464583207, 15480571528916777395153980875185385695624735381300124751925289210779247540292, 1495034283418501174584678087737920854711166021353989057759810557396880127848⟩, ⟨10811892780263469613245044925988716890773983756193597556405225123148938736188, 15706805463164518835165602353284703106655281938181849535914422771069118925861, 11249531028737279718002989159449180476729857275363825033564687955280439655535⟩)

def ladSt104 : PointT × PointT := (⟨6047343055610872765671302052565979075673020433096045631692389358087820045407, 18158921494460552543194193769254802020871692448765776879129929905763957799521, 21776268193372059595976312944670296321072396248335234635625377153110520067656⟩, ⟨763133651911531881882680221976280439889509013461351652943305119240684497759, 7631211354366001638691314676576868747550588402199545066871122705506714104002, 21584113949996762936386205270354457036390747726590352556626164967331547632331⟩)

def ladSt105 : PointT × PointT := (⟨21475037390343223193468278991152685347465022734329571298423580509236334086602, 6741897296509805228945874780684632673511244113827132771024808956803122876870, 12520746873721324121171605779368284835219874599478251171781576976820991017071⟩, ⟨11862052503554410112245792493597661120046827490537542275969220302748195360907, 4981891239292905336734589724491693164164999951710853621227317167429671079190, 16176324557542668490248895434586944811238196494134022169172743731314608264691⟩)

def ladSt106 : PointT × PointT := (⟨18000888779818175179655329373537556104516005450121374156487575125687561748799, 5833500523482800810419994728458136947653158144386212287676128218171557099134, 21092699792829491478602231448809475553275908772016275725064429523615366210328⟩, ⟨12980828784675787301147674375518543160060097593846389048760832097085373334967, 1048738634507399149930532211122435512554685707913344217055780610908685047704, 20134907814443879501000496986707241397250730169680659402817028914133090467867⟩)

def ladSt107 : PointT × PointT := (⟨4825958838069423375067532699053998021190623010295193928350572706767484094512, 15291216919125619444779539654085725649093017287063518709771878439840162326440, 577610353186569388674547856827884203062423858531523284939346705912290682502⟩, ⟨9872837936306616442166606400440049371752453866625843107927719851523558867719, 13352093726643454322271239213031695532987459221015343177295483725539080103580, 16523340042015988989168894910866352442789326018793274946853365436059023086466⟩)

def ladSt108 : PointT × PointT := (⟨10334528974296193414007095072773487820945722844208728055652707012011322362529, 19343878935640116096085101870608899449431853632125636078536361302576097328204, 2679568538455611955491402488938431448187572843460169790228795603199639434621⟩, ⟨2316631989820183865989548608714718890884188305718178468313563763210470433260, 14434113779871529663214555729339770722530091818364207570201980997727477256090, 7964196728703827998335216340368613316610388537481255148589013373039260721992⟩)

def ladSt109 : PointT × PointT := (⟨6103993291855661387137687995057806525280139990165747075408703378529383031318, 18465564852191035368621069143268510357287482375789113906620953447522568258927, 19234276527937477694680326886024942300025527062679829748603094309965406085913⟩, ⟨12275182231674559062765955776334457188469082379989344124864846957842260310709, 11987129874441602108858486937476880342717612967883670117285746010073908637690, 18043643367816445286088775109775785478091568980466136429154418138325538528122⟩)

def ladSt110 : PointT × PointT := (⟨5496545013235250431837245699579818589963800831201930840872242596827850467430, 1158730521076246515731855483622927101820383724280726036590598460329892150572, 1035620832484696270070006916772804904398994609284773015283165671400903955087⟩, ⟨5032233594332525951787978156355686991179186577988497051276359254375287696439, 18576576398976427955321798521383066075258480585845035693803461504781841923815, 3604223133963300994842295398733772732595217870020640912626600054674151064098⟩)

def ladSt111 : PointT × PointT := (⟨17660922859436363399911309026985725912016547419428392581887894580111563522118, 4742055362550191593270599302985068426431296605543982092617715896842762951814, 2905145247767453304761317245756959146480949389324501948104250127195045308824⟩, ⟨14303828517016671620063189806008822590037140598781467355774235409698776788476, 5218720430202386877231859600273202134250344208532226565408050007237865992454, 1174733801990635423271769983402344250358118332865119209882955663630999907624⟩)

def ladSt112 : PointT × PointT := (⟨1726000359602727339177162054963593790864407608367163328755264187891192974462, 8159216229603557523032072897275396843743636835618504939503260119918601576485, 19500763437997944844123966958774407563095796394828878883291192297943611483917⟩, ⟨4232889726958329680339923366066339469997299038118458949383166916183178588830, 4882998237243204977888793761400915474828244582204498419009237653943662498189, 9536107062146226119567178399286020798865065708533288140783374311850616068848⟩)

def ladSt113 : PointT × PointT := (⟨20064431821822940603598954936342430796289508444108743668034838118205104820732, 21192158728305354802954072123014875603096285740952055940880966987758193519581, 3465160623577550827562314516484277976207872232327458204471657758732945648314⟩, ⟨3497440561538394645795672174347122313905692044096925249686467959748505328056, 15088601798656411308007329864178068884889565712343743533624153721103980074560, 2733263130295404892803722880282508873415707395585865423013561016468591541760⟩)

def ladSt114 : PointT × PointT := (⟨188465816100984639658681341595555252376653538988750121479458297985825250659, 11094076324248946826130491932612254158399720036331477825363320234457888331329, 354441630456714327597346290257976179836434955159465943371662154167466348220⟩, ⟨2626248002001157739205373736612566559974531221158079722472303767461936269931, 19907985481167326126812434109049187205868410184973612392213171782801400622628, 1163942001272605262219544712227180072935879034856318056742438737433775022283⟩)

def ladSt115 : PointT × PointT := (⟨6596271015873534246654772443333856239673546098966108453566261747502240579717, 12567059451001124737119908807064102222042112571138191900275743782288215831344, 15860845272651433482784349845112271478828486875586992569899155018131684724916⟩, ⟨409913745273316319197800638674893462873255926032696632926136803394120437443, 18246845126879004117853487691818651325050313611117132649622419147059304304824, 14358462334898165777972659037304312521060204912063228507388501469316707777370⟩)

def ladSt116 : PointT × PointT := (⟨1935594495342996554933753988538063852293025522322071109483728311268541598643, 4734453972782336251273716111169456001336536796887396172623279102886092605513, 1249136775528836561759293320283832785994303451554275816683898312629878874854⟩, ⟨4807832363230376756790633371530114370033991348866216830037102256398065179388, 19171171688159948543554537848445916256027040498314301214522168335315733239385, 18516169290591993160385185704269165833813129626359363650547199918092097172777⟩)

def ladSt117 : PointT × PointT := (⟨12681166548861346164222331473567449751071627711308712549422158621291376755822, 15454159650146566889274686341964631306978203322780597739908691451264224248536, 11172133359740134219860847478917892410769650520478036415779411309974908210737⟩, ⟨7863380267453249294238416890390155318773410621599977592001354063674624599378, 13257791499872850783488226988420155161652004994666429954984040817507086440175, 5371098278544308277476899054478880256204329799924996478261902249611857262465⟩)

def ladSt118 : PointT × PointT := (⟨7569747344469261775772945626727719136142478482971476194187213984595120050986, 7995593921066332065727448195162935738499638247002701562374280076027590040022, 21691645640681591779830289655180665963701177291735028820304970048607009867854⟩, ⟨10920328762655698972032731755407133305188315172127161333470182195079097714640, 7220757398027655702023518877855757171894476554517477734294890705746550915954, 13850888861791159028872076265466157005329806344747983093227438790066441676543⟩)

def ladSt119 : PointT × PointT := (⟨14564182899423386256594704978860684693290016675496075571909198952482533009375, 7483564383848983665141354034498568180438536018118696668130509463102176564881, 1367679892861546862017171466814755484595487445215068033017783663762161477497⟩, ⟨2557409285082565156887747854813115827123361486537987489840625231075634810490, 3143340093195171435009563385611023923157432502466634494744132177056923685861, 9846796389451083349582892661676804306727037708065781354399567053400637341708⟩)

def ladSt120 : PointT × PointT := (⟨3652754104322816821810431692608749900640983783175326101786822013687535462176, 10148517817015668361144155607298206593643685303651379881117406222065676730738, 2156523019004404507834067123979077563919921954243594233831403060827569776882⟩, ⟨6521004467461432687503601786130241595020799809204827514226707936500349634963, 19998962065929413140071010614157401564091394311144807020563748718455117086917, 18136329059720858911865888591055763863998906171077934730593431955064614195065⟩)

def ladSt121 : PointT × PointT := (⟨18415458164453702032627211294969301561666041258222509749150238472764491293287, 17742587641894969584231670257553220866370979489918579271694448493554070234191, 913114546669319039707839413963713304184680413989262036449008184313914825476⟩, ⟨9410709898494576265836223901234681612323776366836270758986138677577469579950, 20794776043574322506197203763765750118270924095720692018154887511869713106265, 8658262153341041736507936971844470773231549203842136644452664638588967481009⟩)

def ladSt122 : PointT × PointT := (⟨14803208522209512456355572341237422108138200459233844392105452941728526952918, 18246693120030929559545023852729886295909997115171838467797833548414797600281, 4855340064442035459177692691167858693439870376104547205568591676540301673520⟩, ⟨7130343802104941465126102503900373062884782280801093847103551872052190359937, 13756282426656546115886735393313356462654202720056073262940781199728969023320, 16646178863946866773460570495781567395890898499352142416966146726584271500376⟩)

def ladSt123 : PointT × PointT := (⟨20492461005859856480135273933688790044975352253579659283660267491222402955238, 1661795014389147911116689500290987547424025359167417809507815293572182487530, 19825295767321189615876178746891428068834835962686277268066648429031429788720⟩, ⟨10920936390330004515861005778881488720003256271725369073444449601016146216516, 9326065013563602855172207944486912380866085613948098665737992453270302634162, 13761591002710474888309134210638461011335307342024797415426302103636604004778⟩)

def ladSt124 : PointT × PointT := (⟨17626248875506905551962937812808780425106402526587365097478993644715629141788, 8189053443328572277566811014611365836611224395345981892561652598947662403969, 7058263591929140668674631440474047114485801519819523055968567959456595152862⟩, ⟨16773818555576132634306365091844572325123576603737294382728535367390549631201, 17900334145177003969806457706507150774749288001597262328810509413482842319815, 6412612077539357466050181877320016948967947373630046447935295244452805346717⟩)

def ladSt125 : PointT × PointT := (⟨4281668353656485480381722995664617453736579062750892483673894868751968208081, 14164735135213953103052899156566471696653104713352208899666489500424937407787, 18098404837219108429588785595695440211501465545556008187775807984098617936108⟩, ⟨20384792021604305652976075346640318236412231713298696202053079106531493302271, 10773640983250953777748430127576146147940140536408775375357286444026058733649, 20503865790981293780820950842925123436462038426256765469799849287026336482021⟩)

def ladSt126 : PointT × PointT := (⟨11590898199810310113159242246988452421689145404052071673743491394251477466729, 16859182823769088043514648631375720272758812813964139501549175401971123511004, 4851483780185440124276877762943971289399180032319521018666028545845021885386⟩, ⟨5107662400029627626242231162460026990833098017869972786446903289101921850236, 13956281779781063551812288129392710610426692060052611205130393096527239086274, 15299373122451716107359558701318825837528753089783709670228520831268274302241⟩)

def ladSt127 : PointT × PointT := (⟨12791170594128888462590762986493222146729788883302485682648590093670350785267, 3520317387133842203427398963394012515970117895521880471038657868450756183076, 21349833792933772325601051443659433618884536726627170878160223878980697650035⟩, ⟨8638952688138717050891042881956804154762472779325677267082335132127874751331, 21643829087186542808199014889552731873644335520997014514287839828880671115887, 18937139337168589066938317013797121389701647022172055159416163744471300632157⟩)

def ladSt128 : PointT × PointT := (⟨10187293116754759406028408734561222110783964431569198264189842975750703075358, 3540345586624062356009407764828683572374362198461683577575552033867759551862, 21046382130271135219737796266361830230943815923810785740544520294200901510135⟩, ⟨17866906884858639273332233792653762335217016295423948451010150738973070417979, 9426156959857238144905932187635078871550594782373902888054650159166802076354, 448130927518618223709076733065730173491032184589581498333352888428284407480⟩)

def ladSt129 : PointT × PointT := (⟨12968182972164820291686858373911560745649424776008885603144144623779003714694, 16394238213547276902334269697539699196426361841720886879738184283473447450849, 14278454144913632480055159063544298730187427053431370291703324981777170120609⟩, ⟨20591379963085106551877082567998502165032533032255337745643708654040604417733, 275866784001017159483718816519421221247162638926495867367628621681919419626, 1504569506569725682865358381498427109187372431862238824171522249200178390908⟩)

def ladSt130 : PointT × PointT := (⟨3540546845081117384342420194556830373004393688823167617826503317106055586927, 8931169185837459452000637414619513478040882791026414505715816156880927889785, 3064674264049186640953887841876511223569739887995510251078760482688187274246⟩, ⟨1616426718850926749880510712685058453520722547476965538038778640043427983589, 20274410823944115831252235560432998847410573813706313489698264200505919832722, 19529637322496708086805014525782665854648204675815826576809907733708179949091⟩)

def ladSt131 : PointT × PointT := (⟨19723874805339913754181535617899548563955990154016472760739187525081923780840, 12346948572515773645531120826527606883345381323209765412387619802317424536001, 18970135471708290703118430375334596188012163406503380838419243521218874146375⟩, ⟨19041616347896276155909497893795769659591483472261092553663354043854461207383, 15468815643118805857099608878148021815303677205067690784229338804955526216720, 17020327944561554402987245266274989276215049766010559861637630620015744524233⟩)

def ladSt132 : PointT × PointT := (⟨17381171299975635414988257923883314105255071260257791920615703758848442048823, 17099789253531535667518950129926202324869494721880024146633275445381122817034, 2878090323600939872047073258925957092635551653735771237748731628939246160281⟩, ⟨19746798327307672778398131354409759547527096999263150553999735587148257753602, 2748864337451718763575663483682634377723081062079283798789855365701847893064, 5212578691199814997130546601624446860555392994562173575555045847301066210689⟩)

def ladSt133 : PointT × PointT := (⟨19300188263507895791102412187822661228130545623167277135400042129873608769107, 15803010000435466534057674158927583789258688910240231881540858799475523797131, 6601896720241629349749196596033672199517852554941320243817948313668549763666⟩, ⟨9044398151636466707032839716949093140728975841793832210211400106000941042564, 20528528104873820202004658206963341700113873421299343275279148949289745267681, 21125210985822257704847328958616722120124738219193763671805436504350736243550⟩)

def ladSt134 : PointT × PointT := (⟨17461720941502867557118930050881081279616615312818642169548855885958343565975, 1796266382092854711842019101566870694469999857164756762518276645174249926772, 435430719605680012941947030110542756923731804387027195236277362172669690911⟩, ⟨6523199004065184996050691116999094407379359737985982824631791243429469506481, 17488696232497730995848540480100666139609188430276080399558321996287572779830, 15720820626327356933094706304799870495749717719574818007243568218749983632346⟩)

def ladSt135 : PointT × PointT := (⟨11505125078857688176380052019547915795943729947998326527650491254228483740669, 9081290420910448016257951217358620849438393128266983424912766997590722745079, 13122329768178348273907823689843324460656258416161820547337069695794057315495⟩, ⟨21667911489362513767587036254913009326822361195715650047853311495405336439151, 8988053486588652266932928248501246758237146873185336703502332187724378561165, 16214977767287485249940715975961117163514489228449210591949683768774531828082⟩)

def ladSt136 : PointT × PointT := (⟨14157260014259130264828615099944943008442213612128931866029508994794478387634, 8280281975468585956860599877856841476794654319576542703329485614379935939936, 20438324875548534002712713703159864340161509462887030329603475716547851303539⟩, ⟨464917765132148861904444481472666543853207631842221644452891240414427206115, 5430301434166577765779809987699411891051653207176239489962378074212424026697, 9143489259198497826121851574025586777622682722019233684473421022701943350132⟩)

def ladSt137 : PointT × PointT := (⟨14161132954624609256791324724464937941828960212887854895063177041143701111328, 19164140947745325145664759286962963812198570114554913542926672738500952307191, 7502710984440913798152124677857596694457352700099964424960151807640955834832⟩, ⟨9506277935085337172783498579344043229143477475037674814881854695675016959934, 10538577341675987080444029801654546929793899100441057050874558625073215190860, 8748348205313443210931142027614848623076447374829135267122015503421231301853⟩)

def ladSt138 : PointT × PointT := (⟨681829467114138955739511082345661619650943721585880582562081395510047047587, 17143274239637627213536492776958529405973257111829365511309842195200780160368, 10372478457804970717491500724353258057427157841587458511721864437384237372302⟩, ⟨21855158219987361524503519574714140054892468855569642903897759346451730933604, 6791962106247242868049622814501703827047208486607054703669187028565976058509, 19662040995576860136449887073777632720965396875449003561130196266473428742360⟩)

def ladSt139 : PointT × PointT := (⟨17665246846292674919090629883720934385166839777757915605409736561787217086695, 19159811214748400576250293984696794931317943104352410954115343998539894036264, 5472942691146556181166638314562271493457257574185249964373899273734192827095⟩, ⟨15167592094822718366727480760461391138125125683425294766220872182715010657619, 10055523363024392928042143818281827819277064495832883952062055578191669175491, 18302178364055795973768694421678465820263286966412092135174683337493463723598⟩)

def ladSt140 : PointT × PointT := (⟨4530620134274915587184194109886552668107740907525821904582753531659705212237, 431105352895765280472791932864311788677500838326570693485971100923185120665, 3876265704544501853830032806994803673594693169636177651242548509186847246155⟩, ⟨273380869370289948476439652289960710522677825237214525818737132686831191767, 20180941150433016308886013021826902226066965447999606647184592041427386818228, 1345355091831425039815819860875691243399896745977115087150553290959139385875⟩)

def ladSt141 : PointT × PointT := (⟨20414286183119330581682569045488077153541894779972027907986136650105334569929, 19807706873206419088474044592267315636653697013348797874935014961449376442635, 15149286194284343331367528550405658781547847736388330453044958037087912827023⟩, ⟨19920346948976609100985749960687966633476326539807121098162756389876751712508, 1153636699466463294194214672381155562779131576902867901813587746908440687106, 3181712928672172575308566214824701936938174212431456878296635470683199828428⟩)

def ladSt142 : PointT × PointT := (⟨9293392885823798861864273760975861974302558498223461661615773350756588161753, 21259778643300318649433949748306376269376231570411325216587196620542590212773, 15161433989887288831241665597989130770762695055339091719290010579584509683055⟩, ⟨7293349046528815330569661299677068220360166679974034993249951193815639389852, 11194503592183261403510336241670311893940630904895576944219614539877048848964, 12816601424391468029453996525977424929310732198884003372509253559449294547538⟩)

def ladSt143 : PointT × PointT := (⟨13132287618877624878589361251396746392812589871068535887537121419714974993699, 9876042411839819782700672869731882211052871074709648134711342196372761155682, 21609088812797911066731626076726192574884915237690894425543970182462426592896⟩, ⟨1831312209624058099870041375630466080193069187251222815901512974318109225573, 1625554329085132440874689159637500388971214858785316269764839365567420560381, 10733544684069858023033996657041004093812515509386457554552788045361801989752⟩)

def ladSt144 : PointT × PointT := (⟨2528277654637517565033142185066034557877210725524130778733241867793963339611, 14684550063364525452408220971595093956874431324422834864500747252439638532841, 6850969228909404483258566462597471338284311863167982306714053796014524924750⟩, ⟨2354576327784878533098020862011084606206395924662167383975805334365150577827, 4209678842745739151655249227594644468016728761028953707488839713103916230336, 17682449967355287908874304118030271236562695447477993706160610758515553847066⟩)

def ladSt145 : PointT × PointT := (⟨3035866545024112906441471536892453675669018240158352591213728063961702159977, 7904612964836847178345265305896169604560005376147591990470097432733142485740, 18722279551114773168351979667964404060714558963374080420971678758173898973561⟩, ⟨17149327165471535511990869028994766844094440845300243315819058328357086483091, 13675326081695318690903944870993294377590078594081872486552041187543174251399, 10581021864182668106038878541354715290542655320075774505767370847287758731464⟩)

def ladSt146 : PointT × PointT := (⟨6159170953547794543423170946404615776393068902624920785593470723512872798116, 9211257430145480769687296977564317899530020032580827421918811176631942061924, 17856422187902229432014798662026912439728296780596013373859505725424966745520⟩, ⟨19683078528474520113930765863583154119075092318090843741100659429372047390064, 3040955434005726497227844755131001239535315801286227082305871257248258075591, 5265233561977205315122330675570214887997307556420715517937065659876298069123⟩)

def ladSt147 : PointT × PointT := (⟨11911477843533502729439355220061728514732507041635701371322430400431509893791, 8280384300386186609993693040934791796674014644833201007442107832291192277889, 9214900201459203150480596619970603693375858833240409164315095453845750802544⟩, ⟨12851228105103293569618008083849294908868607419513253919842659485067342311242, 6634048471823898862351369065869280785450540578552342433606917954993568451529, 13844846965441286067139554501012295845240873604156872100091878110838639674102⟩)

def ladSt148 : PointT × PointT := (⟨5643583838555954030318223745307534960342390945727003368970206293372953367091, 3278183999921409316240198872543560603107757109411052411563552957081529525075, 20130813521612369455159921944315436667913040237231428532073234122288754558259⟩, ⟨10469968890506526390230903154050352419074270249596624902313740799040978454423, 20239299365444953945633080655615403125067710570616282501746345846205759956423, 12878954073929785833870737209903119118139033329329277955284786300783989025771⟩)

def ladSt149 : PointT × PointT := (⟨4349492243230991555943686776375518984003666220475733034471271158606294657580, 332271172815866241433282374854683754751410967620251110225696345482000429594, 1601963621803401030285991316910741558124963109585183179647298442226793967435⟩, ⟨16263206580040037147607535470208338336178227110504741661259500571801042590364, 21460744199828130071666439998760142469870201812293090197060204819731612444248, 4480059679931047095044871733797898438747923055103659594218822610798766873499⟩)

def ladSt150 : PointT × PointT := (⟨13255450479679261695554502232831974357074991014484423310639647869667358706513, 4207240530960919950971246269791373635376626403340817935479462294153288731285, 13954811689694628078998065037173550151308678502740583521539053420419340089320⟩, ⟨7600669896555129740559600444814286298325760629227821152633466498759484664184, 4631795918359715222666497175985299637514499710087398521892617731115177664604, 9168766733648694484197077676074537323123191576890700535751578617668609423913⟩)

def ladSt151 : PointT × PointT := (⟨5222016522685374628061144466515741038661029638926276339281161702025545805609, 1459310174473921179940402604951687506072261287258207145127295986436197583883, 2788016119615220264726818753149286041604183290201789958611884289547219217898⟩, ⟨9630323408393064634823013025050967338886437171278555575455210075988692727631, 3027803320123148800457441236291472201936791905239728815294588019343490701629, 13346361766686401400168388157988647093734012284202313515821152526064061444633⟩)

def ladSt152 : PointT × PointT := (⟨18681231882877919261827890042853631086609151003413026848306270789261230163116, 10292497535817813269679202722603956551712632244584293126851790279833214077761, 477412832180708711568622187278633373390662739641059267403031466364902965328⟩, ⟨21576997073495446823000677658274691420938659713119885408245448702070409537402, 794522969882348626076423140960750895177587261299808376052949326834131662345, 18688157284454016388040138021050559079540185619129469786072136848155739984527⟩)

def ladSt153 : PointT × PointT := (⟨10335492854575956392011320732163979963567839638573854982601718983722678447500, 18528088937830809834796966003575823552122941331662379369836091421009772541617, 12740105502922500983498905923902400822269998451998805086669304804724585416096⟩, ⟨2581486827477937061095098811589178691447539620113811630355067981465289546357, 215650242755732375161461462585641770814170356482068559469222909865719249731, 6484629534837757896217685660858093705123472227265830788393501111755475005051⟩)

def ladSt154 : PointT × PointT := (⟨12054076781366337921925584935716984431824878649261334426307810365250450900091, 4562148488167212535762114618562094909436321010719404679429758451708261457598, 4169672305698628503112259010129431644604480533222476014631324094619359206965⟩, ⟨13373980527970492193638331932401593052602838115712782601755775260430456466714, 9185120855701407826178383390513619871037103948269705340673615547520946768113, 9969860525318778966043894855705432941418002522247235775799942256847442646688⟩)

def ladSt155 : PointT × PointT := (⟨21436119835922193178469211023125630485769358980026974224643788642521820795794, 17542587880727000196041202736685427771928037816108773238798612615752468042076, 5795389591882673269980703375682266092576148741021932009123122678504575899817⟩, ⟨13585769536668405735327031832990039563103510127908560909528379762485397750636, 13359797884030896546703161005604647123344403476119216033828952044368139409097, 14390661752192316345987530707732491089438260814119272933026107204251126540054⟩)

def ladSt156 : PointT × PointT := (⟨9912735983944354101286424791552420632082268342545025842575244398617999383628, 8554387445124922503708975329484822816915978412190514513083779311454242393787, 7374251886176449018471751816856435207065785933814986667274736626617099353879⟩, ⟨18621651921576796708312620204277515740030298554142960992082199261147356170751, 13621900160740638159316684301058628187525556718585593455614542658530692806034, 14192204649769477377036702527375953830859682841251023346817169130147326023395⟩)

def ladSt157 : PointT × PointT := (⟨18679168032465661634892689826614235233907747209923426593857513560568518642751, 4898649576501322329528723133524419913687616139639963281989924576191694594489, 5323265184952365013323784333923584781579625226543916547438547058554999033269⟩, ⟨11523254215411981994033666869208446664560427335323303273175282732539952063279, 10735254243024767565814330985412571477547183534451959614677506348074786260206, 18803215881038293391337644304949853783667211990176594102078497693322561605867⟩)

def ladSt158 : PointT × PointT := (⟨16346275390070796006823144674721298880715333372191632178419209577673329675307, 10986323629310775649995144588644267837512209156514886379015421719908917012430, 566392498313507136383894183234019273244391473357554147365857340564413732697⟩, ⟨21831572272832999036061421010595891116154850147814949035161815737883418177684, 19611459629773159880144032916543201959441040455829560834459903096176094014798, 12659575724078458991084307458133007906541813829523672230199719792134035671893⟩)

def ladSt159 : PointT × PointT := (⟨16622109366003136126769371172263032668365125799825732126868675249501199463722, 1052285168966514279616740315187168246110685766691384840958669557887022045898, 4374686734801310117357969811235424670740256422026526010345263050594397374447⟩, ⟨12650918809315765784853941799560130096768467425983386830703965455122935648850, 13875720262616470529182356766547687840917298960058812775879937904905732852619, 8605472540798316241918703555980369627138232666863782075500826244370341907729⟩)

def ladSt160 : PointT × PointT := (⟨10330801394039394887880483332353401234992682697826641161975134600819455124601, 6796384735044353722808231169710821746208703892656564508863140971119141718157, 12964461338962893370149923498580907970763430233385667906556894610991924880655⟩, ⟨2442674098923291606970431483951185451096093030077122051920817332584654264264, 4937745102109963920508477295200347938367363079402492482382128491132751372243, 9909497184039215435890744251724495060381749454081324081614354339336976972164⟩)

def ladSt161 : PointT × PointT := (⟨10844614251076714709816437236595599251154791221692296518920576181828565045844, 9907007982754117795792731448273793229158498561819463262807765234569301694787, 3408319268464902505674562596787303319024679400939393156157386782843841157275⟩, ⟨17418478485326863964582442321605671780842216626505098355088505802116035522359, 16360478459681468728335548143362251264291705587916154001917854106086243822401, 11796306369275993482361294689950315913860475099267018054995966869293158495999⟩)

def ladSt162 : PointT × PointT := (⟨15314859610813142913383392682154586077427306800373961467611280335294860636111, 18508019600376009613610754127264080203941092585415219085176543487465464586406, 10166633747892552946128359265715226260807540848722324609438089884566719285703⟩, ⟨14055119503721172624547861433271708229664684326801595060345644029311710421780, 9805507732325030273599658162758473810901709622354355136082779195482265170824, 10985397544641740102222436714082413919260909785704775337037977507832298560376⟩)

def ladSt163 : PointT × PointT := (⟨11553727414987788280615883267737330903372636161700647775582373665430849765003, 5272017117782048825449484992418199690759861079995140199595025538926135356988, 4178752038444207460431512083432186326319455488188511076518457807230283780157⟩, ⟨8701941272628475802161434624851542288570789718753161149386841013064113115090, 14861239200393172339214973806390516634365229953570494881268891407212427755850, 15586092593549644985618987386204031334400510274781167162280672946685474318506⟩)

def ladSt164 : PointT × PointT := (⟨18840037607940474431273567469591020847464250945641109601610347101375691142373, 20732392150913606627247935182397083774901437742053301971136965545355531019153, 5847362415200886428393189940182777777028212584518189005783843588492631228356⟩, ⟨9864418794020275609079755461526891545371020982421935906160934928965964970736, 21309552629239296683258519107808353633682722466218057629339016701770315281044, 19696153259413403703408593790682672439111175491113886571518037854506587299807⟩)

def ladSt165 : PointT × PointT := (⟨11716250770671251140299674252747860466892263732957543979933078213335190660747, 12482730615214800058365638601681339741226059662089173508540743612173682672680, 6222189547479746829830595656370479022490202384692094487424857362406050866148⟩, ⟨1557963065381856092633326398126576793100229365863070978144610793620691071115, 5191579263644309060641977387068331304006674192002958364749796374474548692397, 9174011864626673766398857594870739346965793933139676401700596186081600109251⟩)

def ladSt166 : PointT × PointT := (⟨21431706745322867870313948036016608350182649182047254006689538930277463722890, 21607104184226809935390775442525929333879336686342613677580566973863825388781, 6038705502549527166280467861558937901501071218315227731514198249575320358468⟩, ⟨6096509373741825521352256195883758548512854336809932283524585336332903778692, 13924041386253986755026020623646089231160773924744101153260181845934908677999, 16787249974599275715942637112475257134325717583087969889081802393479559852107⟩)

def ladSt167 : PointT × PointT := (⟨3982545313300476046586370109957928955655638210819416551474420655671526089951, 3676579471885273479902397016156517706586863610433410501568341758039571532896, 15147902521048648525540970943266513822303084064479436809002250380967839173145⟩, ⟨4224502198441163747044716612740929400250915515537623742816251822884220334190, 3879018712335486465294099914660593392981459641167815094723491259147239385441, 21443571182154893734270948825033365526129153733584668259284248940923803385206⟩)

def ladSt168 : PointT × PointT := (⟨9759363932603764432955519487858646112116009616052727181712161067007225182943, 16755244055856621984995977163955985857111880022164365882587212280937305751627, 11841718347656140703825203338088564121049923932001578158395946484919375779550⟩, ⟨4799890523885188240953637854404095706173439182102885374852608849891524631785, 7956766697228105714478743865350366822791677121125006564374909243116962588651, 6833281782912901364603061613947918221615064801006525126444192655168390526627⟩)

def ladSt169 : PointT × PointT := (⟨10276961292248163766101720970323738721304146409904464192897272731995323973977, 20635247163454176351246944008264705406083260392174896076557732284874561423842, 5875914106932846137079861949211703333446278586530290945671739290133948604612⟩, ⟨7318633179940199747478698300095939988908177637754517016776418903877011542972, 5311516590754792203527144997082543583580969673477948161064720752303866204436, 20803836981543929687804567291129656713206445959378236336521944265516676021160⟩)

def ladSt170 : PointT × PointT := (⟨393815196288690817882961431764541302773554572627817893629674874658014312336, 16985031639428629407343638549685936454153624278636500005563892306625886017256, 17415679633788654022697548987759533639185625830464190100721717595532490533711⟩, ⟨7922057913571126905495416885256981098812827348153837050339216813778800300543, 5888331155036468087913268322335576902210817890603908714885360660979251226905, 3140842121045458959182214451127081503872563068037725812608654704985606848965⟩)

def ladSt171 : PointT × PointT := (⟨20102473604322550670626969169851779316482472808095236448468538259421930749658, 14632631688288727595481484912368443609169157783186201263736056628758324349356, 10698598718441471916531204082703634294701650811677975748689596134663248788495⟩, ⟨4122931981243106086493001838004151701077820941699407189520073395281302150059, 1342719891508398336945331635450181688952534195102680065964380392081519810767, 6591268851843221695972441291767836665691022093181781109305841361924407602702⟩)

def ladSt172 : PointT × PointT := (⟨9062380145098320541266899733341144226156057869168254790624716314025060618509, 15904192412852784106259401166252620611286636256323070410545926019998123944356, 17364973819927008906020105088315081533958980757825195423853464375754681509156⟩, ⟨16544761261247498426175330586521086086184524672912286286159107966725129390675, 3820815602962195230750339212656408877717926413798205048216977671082439010666, 5121098896689317765352954619994705235542018546663995579916454417693092473194⟩)

def ladSt173 : PointT × PointT := (⟨8894745428880499297678917839476545921407977032476601460144221120726718604576, 11687902532143548126945103607890428002445242684105852356720602941669028230824, 12840260774097217054601526132900145766407715330434182523921841283038600881711⟩, ⟨5760930162877065213036339632078550167981991875218846311579497084285996409967, 5608473207286552620434852255704952278429077989694962967201569936753390144414, 9164213021177160455176294737174226598011886859164107802379600880560824571927⟩)

def ladSt174 : PointT × PointT := (⟨18988949253585203122397515659832353132306235066886980118145508074273285377207, 4133581659597257200764162043689024639819368750707335557292119200275606546092, 6564640416836330494253329376863879890176383199665962201752582602994397054502⟩, ⟨20796187184740576067404746166732281471615662028098596743361996327551279098957, 2819448380548783886292136647896036658648912352948225279580601032954369681272, 5760887747925613193502641590369894819155836566525149026372604025949025125611⟩)

def ladSt175 : PointT × PointT := (⟨13301361084469381826159034666561043810231538522413029376260166610542898233320, 9376769140695618882100953648192676961392640314958952941774619550753809148366, 4540242093936462043491775483114735822876104507039949226421805774086529082883⟩, ⟨20423755061206024948775636209145684304576097689810748467654623550493573620092, 18384470399742944611234439863246136616916498503998352228584368597606951941263, 14509090217726141538910560559676253235684036855104552623597869886299794835983⟩)

def ladSt176 : PointT × PointT := (⟨10723797387119776966526062211046741314295262146993586595769716500260617370977, 14414399552698723602525150459091511494926640295550625422626236311360164888002, 9273173648850521379758678744590757471305401238297117500227914802488079672992⟩, ⟨15671060126477341602860832374311005864057113445597787152530189235098583438689, 20536848152840007987454114024638703837786421420371855075037963064721501326871, 17169057915153500429670254109210117121790082196554745905765195070948609147497⟩)

def ladSt177 : PointT × PointT := (⟨19718486697929905326003334546879313054360290954938221036701903477146144057588, 9816496629608379145605316949640420172005372468954112177920412398108887359585, 16093078086203438596185188284883312798394206038916920852288162916478727440239⟩, ⟨14674351612785677225890030831744156663565939515535481455887920704191350722910, 1403902572489526033258944120695671068845105676067859321116069627685437841422, 9117843218774926021687849720927552336861257138308556312458314977493491800260⟩)

def ladSt178 : PointT × PointT := (⟨5276955800717565634104398696371070097128059076297031629103697613214905635548, 7148994174551804266209346268245360061242124182181464543391110979610048455086, 12378096490894571228643551669878387960825312007207645666027149989901211806923⟩, ⟨7444950659183038027793417455971856510354681547221971445610429705802584627634, 14084443188046059630883478663981175052384100898519190905027069338952505227263, 6995717249139046909464773013709127588426999288991385210090426061664953249289⟩)

def ladSt179 : PointT × PointT := (⟨17628969128656820435211482563757477876167577927981749457901315944077087085083, 3439985650587068671771387568832196102195588786429427648837091491485230352028, 8485646401214324813600743186345411850585297900009599235655541515041985241912⟩, ⟨21153522089164531186532531678329233916471424873666731425310806185265953154841, 13044762113540130336343040907158280608904536445175835363577492362005177622302, 6954908732864634083151625347308623686306970779795586726847913556773364787467⟩)

def ladSt180 : PointT × PointT := (⟨17795480992100619233966718561652391902623999577034123015416542907904235605854, 15009770268207338612018370231352805426771383354753401455592602299611647370496, 16674089239764902907569978758078080544201134863223737604815187971099907604600⟩, ⟨17473621348560011114675787102532176570691694482993886155733381507000272863980, 9637487342998846223830154616234270761325035236603493611174642546364450810990, 13529240498744089021004565368634191643298485088193923435431684042515894028635⟩)

def ladSt181 : PointT × PointT := (⟨10776161452863787384771825746585861878598916851589920335400148729009867917465, 294736721701621047406545967331873019995874006262053130338224499430321906692, 20331408453242920195139506926676823724239263897645803070056336700580614796200⟩, ⟨8717822917963625998518181605048194914415862000491604627227004662098126418488, 13607474495774032001179704463616686668219455216436592124167434183608635926349, 15025956036171645048140809068536403926356948399655287424454031704902338493957⟩)

def ladSt182 : PointT × PointT := (⟨14943578895136587017798652740850750123356264235926709534923757441972571974956, 16004920611336748217490251355422843543054770090140844269832711361277246381773, 13909071202411484594730625039532445229158423812064218567700256082166160827066⟩, ⟨18159062518897440990241249842549478758907471132061154643931878206627850155055, 14429855204450398336986700826905455259492378400856719086840117687117334314846, 686823725053379072972052404776304917571983060532709036997520988957344164644⟩)

def ladSt183 : PointT × PointT := (⟨17201815103401171900967859138888860873273200634083352418721157194043755128063, 4189317545611175685730420916302697273475779044125791156528145363986674927141, 7715045113151358525187063423699798380935449254334027245648025584818144300455⟩, ⟨17872531223954798576349365898994315638098174242682821637497067541057126374418, 945984120969976356208832774176017986703667712131263662825768697495767746154, 8390449159986769262369426930400262801454595571201987600897482078810453965500⟩)

def ladSt184 : PointT × PointT := (⟨14346370155985403719324184321121865138846326209498943024874272443807475092948, 10573275960893948883197150769070353734806420136356886052511010788234086710917, 14075099073039525836604800714014576284291292170614904237224264730918428245225⟩, ⟨985620133436402698629499220217079145562504947772673543424625497343354046888, 6451774758663853755405592023757044264205638089533062871245536786804645014918, 13294855048206220496770087585255255516927319022516285259023306493956303517316⟩)

def ladSt185 : PointT × PointT := (⟨10000742914351755043183840132320011633454743362631674630196036974138264303912, 6607105412240804533654698128864378647252223005086983597174441314933431039051, 19129902431227802332818813734577564077800597726648006319740185316482932749884⟩, ⟨9127519025167573523450098835052985153392569665449345758781916616451050213981, 5716591756383565947063190948437730520409815981939861966244204375904488490675, 513829088198902814898107567822463134443449115151230217749634166944196005268⟩)

def ladSt186 : PointT × PointT := (⟨6851092611867186994226946048506738119813504519747224434212360720551800416107, 9304605512244271476917293044547035406815732531321921387258473674930319294162, 11211261192424367813215030867203643183796594855756266290669344327875147620768⟩, ⟨20635529886220591452870288900885394369885602427079884330589727110688217932304, 3692883083962314194573061298242620737546158308532193751893006050803452462726, 3753993126401540079013011842760587940799053635525576850934978569437979074778⟩)

def ladSt187 : PointT × PointT := (⟨10635096832928852827448786843051097999756081892134200398418090059420596613282, 13840556891073467858812294886102851550325533964146821009807981789136168786263, 18249077821874240604704542610660001781924553019472659484908212095833487945842⟩, ⟨3438806737104119899701855324433660268631235428889994635035254142496813840008, 21179449727624411580926694612258146153859522249056630486585873160948293764776, 2204090159675375148831507735341171163005455759811844009829426040823271574117⟩)

def ladSt188 : PointT × PointT := (⟨4509363904693306931435469695927617993775010608323535373211870343784366524035, 10035246639517420649506922800236101521191391841178434099498618517119840333015, 14561304403042761025911620453842834865375703714956540008460121619066955483422⟩, ⟨12369612442065966152331457972994854809553414345372401333913326180808088320371, 2298772520123028145155163145510712798258707897607783309594866742341735261136, 15234790986818312806992301943774292407575439606853287744910178078443442516282⟩)

def ladSt189 : PointT × PointT := (⟨144516182407022038835848896765206461703714328660513218713734136604327435316, 15121182062970289327070641377405294686865478178582336083469915553551451190919, 19413718265403859660795333994753964423863115664029760413158542153049060459867⟩, ⟨4547083350750686196775015650816614434275570502818346158425243106615081595267, 5681994539781998765981490844458904444268132471555206912009910736152223329465, 17975613568333978882066286560683611586967892683505213969519148559977099374702⟩)

def ladSt190 : PointT × PointT := (⟨16954072750755904163331402787037410414406267096226609581723510951221240303392, 1324018159039997815046199595692100880560979643182874516301697661372036192721, 4454041602231715362331770239854151958282643559129030721452091633489254103422⟩, ⟨11045384512063314094211176008835705508272989692371428346222360410005832872919, 206735025588580013477024788759393018790638513052471421910529347160436293010, 4479771579882993926646547042768970841213312258978997985789917675513647127104⟩)

def ladSt191 : PointT × PointT := (⟨8580141562451303638044888291038749608663207697327044093329080810180146531026, 333211906339597423546505129262596055749563352549477358724233386512051283340, 8900945209208489698921773028463100058752332076001595129595443570114476420277⟩, ⟨20337344003142840939929835504322819666766916895901580327620869398676131854917, 3239349145961304433437615796991881443261454652286765471141738581285554310059, 3834772969133485835834052911218692081558795337852312886478797888926330834956⟩)

def ladSt192 : PointT × PointT := (⟨3218047792507041721520425565941901633057379442667573794366849719985593721081, 4501249017423647143840166527835043756289233681916525639035503354729052217002, 9605723527745192237294075591409656260824171897392837176514510095986388581741⟩, ⟨2147461135378973731221266627676120204639236350283827528866519315099120703804, 15361172950269419508387987466691390857978557916692526919392598157329996398023, 8746806748745121425813643289673336016392122363130442071940607195390877933347⟩)

def ladSt193 : PointT × PointT := (⟨6736132286958233429380017361075329015051575372246768882397874945834174202865, 19577433196313177361697196807108513241441999691156555084398750012859787073762, 9889028641732072284126353352212219027374555136525667939400356869387618714403⟩, ⟨21641438079309754113328212697735217010794345787327352268200814596733572792141, 120735408597065767745927661216014603729744492603049932669647427330712738089, 9311439102041501045585210366425408377385320914597980281340854087339172683763⟩)

def ladSt194 : PointT × PointT := (⟨10049924850338472027482195172209903875546117913057904414480082237960593069481, 19340734770326772904543432539983856119998364825500170117701848253243139472264, 19579846691374462555110333976995028545996047459722960472320850334221427104969⟩, ⟨19279742294981449225542950294946904066011375563238582000133063362853986017811, 7274805024079471862133430257407899740395271191307596453292006366617873911956, 9063463169116589608264917413375205165927767708021581392047942310011461861837⟩)

def ladSt195 : PointT × PointT := (⟨3759386488344665203906600740337197782367868124717655510344747685396654216846, 12446305907089326227301119795900910020779194804140237173136931484699548557426, 3115194001737857698292024965445275846802756930868721814664092484123285106302⟩, ⟨13799822091409315531398883106474909606436534047392316985595301288841612026531, 1475090919168555246047561234074122271223103293043972346434590720202535554027, 10263527419635345385709516375189114362408043506628553270910131935560227325070⟩)

def ladSt196 : PointT × PointT := (⟨3758775003193847718273388705655238374704182010699161857873792220121423022187, 8700422211246977404226649528485403679873901654584079501210007714590867552219, 20363532372937331584206378946016729750598384615691848497308528353175233602612⟩, ⟨1034281150765954723875096752669647492476136710843134404423505168664630803708, 16976470110329168310518592172461201137119372259035156453896295801171876666678, 7448308363478919848955156864502182556591679880709226658094858202254525002705⟩)

def ladSt197 : PointT × PointT := (⟨3834518002058392268440350967096432873198978398548041262520228706524908592148, 17970584591818699790354033918307201595079271675926292154472476510003316453281, 9417828573622988979777754473527882403764494406746168223700641329116301321476⟩, ⟨19479244434776102762291670989485617969800815529561590663532372020615153032951, 4493370431484183228055973625213804237297223591418969045519467772734623164581, 14203669903534270524567726149421067513296739240460951072415245603920758240222⟩)

def ladSt198 : PointT × PointT := (⟨15449548580134042816567299728712609209858829483136532128707249252146288680189, 4893957294998599302167369693737882448388578720305532444394685669267314214741, 2602645143833475295617368523608295165217132400248413397402494473105824946833⟩, ⟨4641001989507611188345120945699414801148355038791211987458598194839170658666, 11053107761195793098948431641263996991719465626078072466675981410536937068443, 13876449989584550889957265782918147028260807065392323966601493323782528599070⟩)

def ladSt199 : PointT × PointT := (⟨15682059084369868623966895502781045204554287333982266308957232900360618585463, 17423123074416875514304042053065560273147579844538397043087355191192185465971, 10404719538911291613348219426348422894514209569931521969763336652519338447173⟩, ⟨11776621409932869532373279647348974298701147521033126350199616969941444378080, 20081812398750672562139801258284543483679112781971120176720148551596511514765, 1865280077286650073991523452087256523070679738836396735766481636837514052232⟩)

def ladSt200 : PointT × PointT := (⟨14731489087513681714829278526117337852151820160968380296790164214796820047520, 16903188799230363769341269526374999068391500965698677057346475646496545117491, 12841063156293432339411707279672411433047185616659046891549882905689414548419⟩, ⟨21374823217459846579132025269060724165712985501567738498541074298913916075119, 8623528806227170592402081059485402134150745602196134170671370619878127241112, 9716114130717811162338054935386641105929996109912327231786970601458253461498⟩)

def ladSt201 : PointT × PointT := (⟨15759639540392629599686601922214803290630614851104117791663710142764595773778, 8770705368236095272179447592369563135763774331005289444321967956610523379526, 172621543499293134500877503399223837797659909459419588621702642677840380440⟩, ⟨18666905320259247600781850863308854732472437314957295051905270176568823980492, 2463604313050472918145759443785783413762058827074253235491070297881846395582, 8875189815188490874934907115034078302556504244231066768614786455866583993276⟩)

def ladSt202 : PointT × PointT := (⟨12124369558004781181651483012031147998588206402431788564502531468606738686122, 15051154489479736592699510439488957109090643910975841494563151880849729465372, 75958046072134470340441848623939930033483902014223212679492762382030132590⟩, ⟨10400966877494796556569696051770547494432507330815881997278033071822630200560, 11363469323911973844473186976253980524579018935985842335170794230280698796283, 5679875488697611128327032646442517535801889576392930744203413187117117850217⟩)

def ladSt203 : PointT × PointT := (⟨14778305183012184757575782496219046534579896699017246996626658256487093304208, 11305345865608808310703580901443936548119075777005991337942024600611591987198, 5951066440575980722494904066984483025221584204491977299687053756483550028651⟩, ⟨13492630819971795829861080417114704686220985761215211947613188582935570491659, 7620455283856354629325045146432848490319800152548249106009809483358889397267, 19538995961848580427853122754718046348602896079869390315906183804497640904739⟩)

def ladSt204 : PointT × PointT := (⟨16146007623978754393090172120381084202986340286185883545698581993510779714069, 11304350943963895121264817311593852214751280613671289200824264864145088548178, 642065904944002053435330946194719583196620195959648660978826631876587389291⟩, ⟨10218318052321597471009925033529830440329669975299606214084025393076371339178, 4298847728377600194164187826847950432251682362785518457320635306579636373970, 892317326893130042824767917859816873198456113012903196775718638611429383941⟩)

def ladSt205 : PointT × PointT := (⟨9360434465845328171257799922770080540866680888171846527929688356720083823893, 6622768923181207946815817496922493818348012922267070324879344271627287915632, 3920653654796183243825045334473388862630576967462607150812205621203962215642⟩, ⟨3239388262404429509672860291427872969500499995599353808236495141807845057580, 11812684653678109216694741999485718284056121912509390395463394617770578721796, 14225588066246307509419529377314462763652371105072759127127828887212691060945⟩)

def ladSt206 : PointT × PointT := (⟨15879925156270363908680884204394057430366144024407045643296242952196126659976, 5981896589478260002892349216884283928664310470130816696603190851845635697261, 1305545694336924301676933160610733618968655374211635044999384882227036907883⟩, ⟨21168496276142774573196946731872920613162261484864147923847489344210555668610, 3089105064949824137161764908110981465022878697620561899253531185495179244485, 2324024653531608698140178665750323683501050895138331251712720098747895914118⟩)

def ladSt207 : PointT × PointT := (⟨4803946861246790576309383044865882757504758834124725776509279324851776912188, 20495204664178446510159595583078756914150750026127120096771456197858549981457, 6274855021561892653017366547420920424312718782374975318421369942684068931885⟩, ⟨11367945657114510487537291943396593004824912559544505228251781844484756908370, 7778480642256941680098869115298381003837046095126794369742431270541661694051, 6251820774852886468751738951097684379741419467462305586499407923659929357742⟩)

def ladSt208 : PointT × PointT := (⟨15610455093661313816739777548276686791586463620301483694154034570571508111776, 21161733882218520676168805632595161993552962398642428561029899810820386395597, 16160960856644413051481998739066653735283589428007753943253030771439148624274⟩, ⟨1671494112170017728554926917621495376513759954931063277607293888847661465326, 19239496436719688626354623604236410296057313790525960164744471120691947030771, 15060149449583505662115547683653502590638385741812767066989588006615155637259⟩)

def ladSt209 : PointT × PointT := (⟨18443952989368799229136093865386025685579531622000236716202452006629901127782, 18457897920324565323956126890419394781717839822291498339556406054511097748097, 17394014423586739304801980793010173307654985845533362796303782967543768063638⟩, ⟨9544692722477157343947736326934212481240217714637665584897154910066819855065, 17721090374336528894444692122197825161480234500365399156977532988754349962745, 20172862008119964014051394355229100540634890581769149226466014471217096263842⟩)

def ladSt210 : PointT × PointT := (⟨21280638800497309919526912904455010299219797272124582520334562452723029371162, 788276408102371829323668200370549037326118248341936380203887452602335666137, 6686535431026801848780163402451255537738726324028779544769559553716911839836⟩, ⟨16404371948523869313699088668108240368147006422434922507284361603346960329557, 15758703432882470177437316861345963586751345327020601165402437570711234821594, 20989674960452926772328381320977379090571307429705505179905650000318121039468⟩)

def ladSt211 : PointT × PointT := (⟨9326001720089108671002356893874966239169298450228090649654968281337917481893, 13149707056531570999685316093183480115992157280030078451075838662481111207318, 12506881125005444747987126804063940659346641431570951790210295547916462456782⟩, ⟨5907750202209125883142860557106509245339817426434004897331356385369152367118, 16738811971562344025875718131300247863535216948850708848816898479307907659781, 7962988877888614175491487422836094431614382555402922259213853923525412901628⟩)

def ladSt212 : PointT × PointT := (⟨13068796947869280817602719597468367141123055886470677049003974574625763860565, 13260323236844060460501545237861749972765704881914879481461551706376190316524, 9603600749132781890889934821472734413025082524088793894937557971479785855615⟩, ⟨4447294181504217104504378243259713350724883630817826489660480750892158603430, 11063781359740737709127011465450556054732082765702726684010023114934976252776, 19470260596447661935558476952024598079228499063951473325385740239594056966773⟩)

def ladSt213 : PointT × PointT := (⟨10330634877655904695291241359411928610832914284358332196501279190125212155525, 19914712746924662795082695132401581906381417763643279249658401759214375041834, 5028018792935652520038172493673527414923581897162673903569736235643198542806⟩, ⟨10686240375098338925231884117538855577512643022748983399158467660245592609867, 4912834212514001135514489094263665059645189527056410417951247432453760596575, 18372469647893189559219096322175082175897181308140670755514301163881524210606⟩)

def ladSt214 : PointT × PointT := (⟨16333206103830209547510314085419589125180566474373567383218698159842429305572, 17377621022507289097292172873888299717572097678905773761141733034610476102044, 15662684565159789100264434647556550639681149299846125488607124107324954989135⟩, ⟨19262071827925510082332792955968968489944043902359074293715309535542633150304, 14292469217108380364879341203737821096452222418240454209278455407964591656847, 5390748377641406353022952635027019600128071336988341588007622384215846301166⟩)

def ladSt215 : PointT × PointT := (⟨3761043722439400438658533602724327946412772744916837080136183047210890236602, 16234840218383145926712378917953874414045507017183370214619532505791800917756, 16742855685732117263851330216823415674332838875392103751604736770718362202642⟩, ⟨13872282794765676684331941949032123081525614387661412235337729093071712471221, 18086728677403365945376722943551645969679630035085444621428836877478702515810, 2843616765573503733465282614427672360358339838063209705706095975249289500366⟩)

def ladSt216 : PointT × PointT := (⟨20922849328837666608839594521382308726714012307534910292311844846565636148411, 7520949508604698564996942249441918075556595200953701812058955250884367717468, 13280605766482452928608579579338389596113167368819790551933294253586275509295⟩, ⟨5914220229038950985476421327404752701696106023756247355183221065807502481885, 17283744501240828653627064046248552109124836152971687146153884145759126505121, 18474270835662903069622631773678392747452859489159500483545021761601313945689⟩)

def ladSt217 : PointT × PointT := (⟨3834150981191658030984141877077969828606818799212924293959225626585251230955, 8947630328899898697407522226832153354566774985027281479135157447393107050478, 14522043332645923716142586336299339835387888677774520228689441763886477523863⟩, ⟨3599814618371701609153595569547321297534254818795148403528023249553324575539, 12856621825642460491085972813632371372018052467376041745349719007773574801947, 19306906256864289028702528296982174510378600720640724491369299837449322876607⟩)

def ladSt218 : PointT × PointT := (⟨15742483077453793989713062231401792511322435642042822515637062113377019461422, 572917087328197708226329209034550163566554957474392583918383466699408093288, 19681329763822834308055981201293553004943360429144248107583270765865031277775⟩, ⟨12746488129209430388818939786373614091739536808867489232698092766314265298768, 18391520963179975537134426529533813148859844190840165617980987480615970551908, 15247769233713465769217299725569779408538929473498058408076471695502959084321⟩)

def ladSt219 : PointT × PointT := (⟨21422254522823330335932667378272546017105280975575711247149890807402640812847, 4938818188518538992909234887894489026805710647479645888622817463999864624978, 19519920711241822064555193663364936569826585961660290450740026639947273563178⟩, ⟨10632188008489863477243711519012401420843634636424438472650709679349284970642, 15860308872514533773474539447777978160624457188044987836226556327547533855736, 3326366712989181076322848520488531267954417962372170118025669254799902498038⟩)

def ladSt220 : PointT × PointT := (⟨11319446175692415222926417315992198643528285184315125270185248421481445908752, 5195251438243725785067560625567937278532607126225232635416239297989114331993, 20379076818791628056954976075802245885910054614417948753600019830366574942430⟩, ⟨11874786468063339215567608182449642326825317255869984318902942962792063192048, 8224840942482685842155820901849636808515542350874818956846389020488569725720, 19980237302831607202344850894519618497614706063772209823187247538898245314282⟩)

def ladSt221 : PointT × PointT := (⟨4884796413736353320542468800782873053917593527887638864235620935698083018558, 18420886761956667558919079373179320388333622772753234028837624271060020455337, 19352728535018560417620510741727938239078156634417439070082184696391231561386⟩, ⟨16841690744556680107992481915655199687434417871197478041873820834467415832947, 19175211915670968873558872050714937571597346271583650853813648675052035397306, 19801928987210349042286913712969062289293386869768057340497654366500008203621⟩)

def ladSt222 : PointT × PointT := (⟨765924652201291948622305265093510537682948621639149141561383399974390922422, 4664399638907576912596283977228077153287364064141376102686940869424710654363, 841366507070898938441057045096181183919102751282524957214597478463068032012⟩, ⟨17417532307307397295599626798096406603149679753876534800778099838438468487417, 11784767992023618148957954947892524689205445232661556830928783871574396523830, 627371039898492007465871724725871235326024783363431823381370254380960058274⟩)

def ladSt223 : PointT × PointT := (⟨15122684711660745972809175352765906179677936998668742572126481766939613929823, 4444695321608554921106511080314280499548331752575436783667406404419800982368, 19483488411885338777584530959865231752795419866094617436653578188841829723897⟩, ⟨20774731843284680623062644476027876407851934956802177496960138260410185182102, 16740920598221101784132547919681931333194905041892740915312064291392455581441, 4501522736645617070569080382084226845341962673179576354527220583292242440579⟩)

def ladSt224 : PointT × PointT := (⟨3702998436380105894353203049555351021161701335581505511222174640426208222060, 1726244533225044078035256934876417397248959844283988185901056015778818036144, 2006702244883112480408498234756550043373081663598756043315641075531902429672⟩, ⟨11386662968006727337480367894270084825447249055847716973489911731301317353888, 21569138303315836145553062037712605771007433371511463601875833748489154899108, 8178849861884120918320124127811322031229619264683039438437313978976543681577⟩)

def ladSt225 : PointT × PointT := (⟨579076757816142843040683469229772436747017167464318010623694025412501547311, 21691443591794879829332232927052384337595529455423772187344574021148621242282, 12504843321493947700130951815400023268974282776934353810052340938975060893762⟩, ⟨13254216834626025729258339328997465872138960304280503298337784872108520130478, 1058853543187432985526298571973145296054231693045557698487696836250956367456, 17776387391901012261208387753501930081159957151649104312882878211635064201746⟩)

def ladSt226 : PointT × PointT := (⟨11022872830505638663966939211907489647037332372762591543952704208809340757981, 11172741793247291610674443676839237763505914020143836518788760519565584047889, 12287739701902258847994009314793954986491883187009377563916204506021243684306⟩, ⟨3425454305844576438190783990012054309156259957774222207133600739839111535549, 13980437621786388514390746093118863009164528213671532232450388211025544990263, 13043447241585072842270632094146673341019458139806478187177912345393614460712⟩)

def ladSt227 : PointT × PointT := (⟨1742683694642190049784408670133881353155096516297114456773495543782994667995, 5386991065191058974679696929214948642220105426915928281529754944694428290241, 1335997507773702203439844540471613460403317207034132623275944389127534515134⟩, ⟨17967701227442217767028671556259873428797399398597719574448002317068748981763, 10787926178333836654070866130042362543460692350700572807429084957477986046178, 14570363495466287743683252577007448498820661210835786280348616045529410945908⟩)

def ladSt228 : PointT × PointT := (⟨14715584807107093774332163033801368749801668164902080088816254875671794344330, 12585958029805328403419720824412912404600689169871093693871382832507223273336, 855608334105047488263315356249486295596145476525052955463775471521302763967⟩, ⟨18137022072097528657249789611616104154554311342782826315768897537842519740765, 4115388747998854100934129595080859295801074807824598292134242684106115928255, 18375365536983277907472056002479275347079179927708363958183743765655888695838⟩)

def ladSt229 : PointT × PointT := (⟨15636606427810478004006102660061606191570178816071387798411015771036005057101, 9040012215010219291614173173325660802537183300501483370803834056446563890335, 4764013843885792138061545611018268798050883974832148121572801801086988500426⟩, ⟨17701623982787093155541175653080660927265632731459711856392923845104780548755, 20243417245599597223086358798946034504814763901412112262784475785064500133777, 10300519104779992631450832436441249499362590935267408329676635858822880577427⟩)

def ladSt230 : PointT × PointT := (⟨8481775468691865439096340310829244842726991941875881511396227196097479471344, 20855218010524979973144492707762860750438729060442114997691688373249310170356, 12043617164525876349452925477746037839316753283374389760880291605848532866222⟩, ⟨10170420003286125608906502570440790499000462550905008007128898784549077186682, 2044271464494261886489343112381149456128502322048837782081850371931745868139, 21142515076301589582792926699877079810727986422528590778798224328425355577804⟩)

def ladSt231 : PointT × PointT := (⟨7314277034941055151731438180751302912442820154762569651423353986936009803517, 19376006101831293950000569453997455370969448871958915466098083131941406909166, 10680674353414519436901154930029462436558428532938585183211936168356035765061⟩, ⟨3297228521148225589474620470436858080154496836773812932331744112245318152341, 7932078044087039727318481099920032456308345007770244075309126506714691807671, 6167426054153693440944511962375604178274880957889673599995976529012749911299⟩)

def ladSt232 : PointT × PointT := (⟨9063341992958733241239749363307149514015915757123526873655253349242729135899, 20220200955818093233939725395268292276676344378520772982692270152074746065810, 1441865994685913149150217180283520139336090349234232207347071399220894519839⟩, ⟨21775734012311773678807826584168059853975310091003992031894693758286852553695, 9459974785928818982556852057161517579400633482271424294512922447229357462561, 12566705953190597447531990634443840895854095460749643718356080815206934648915⟩)

def ladSt233 : PointT × PointT := (⟨12207443019040235787439094516003475375518895209886875156113066091894016782425, 13204672105806278018298468839470884675110277676857206590634192636598747998735, 15652641131509058946916453948213562181486476101203336308973960074239750331716⟩, ⟨1899591070782025249926686364305902058332479221627435241371219999563199995081, 20631165470543837849907206905877958561120598591780062093473505374125574515963, 15285682071245221734012701954197869455445693096921073839724354795852096156449⟩)

def ladSt234 : PointT × PointT := (⟨12502211353057405406130031876062221763602820314079975150401190782635480889786, 4405279426165116294409092554080162513619924482657834349036823409776912945820, 15257361880582174203766673490981169967368506667410045303030696972871017881406⟩, ⟨83894220438851746664226521302688671641476640319806824434320357994774570522, 10452532268472749447264687240288798294179754157164406146916952051012124211198, 6115378588800630477410904590893838077933057275692905701189579522679220913958⟩)

def ladSt235 : PointT × PointT := (⟨20310798536958988941753080868766732131093787833182663298075355604002727945751, 13636226080526903482521383477338167785043266678814034643745797840491648951896, 949131149093142408579006037935899160159494231056840479741839595532383117039⟩, ⟨8442850859124524006468621488103587369714349335283626648972276210641132157979, 7147485979491954488931501635985981223238567715440996326798068000405734896745, 4287494898036330668791397270184460142581178518116142568019250378581237502830⟩)

def ladSt236 : PointT × PointT := (⟨4005353772945974578103878164997313292742772616693809005655274382730311876286, 15818437273843930862017626260910281785097102697837935295335344091560275764182, 1662956516427489346867057519941437651285718949332662103456288166111848769945⟩, ⟨16290884871761220643550284119593336118238543757449682494776167588754390361192, 6482012637443539763094967476858804194935778341042172005666413421259546296513, 19591997647203665210085048555771535472290267329672005703799978061351370476986⟩)

def ladSt237 : PointT × PointT := (⟨15526805642919535458227511736229559346822226202743035540698669710764781728950, 20061614871779254608991097138965734876116064825377981055892141894963451650215, 8699464203527141315782062205058257909391262415065565185152994768756899607288⟩, ⟨10638311491756478435777826879762709038685098745375655674700505489072258215005, 9724700386031465758302243102685748852791502735363050363323262411318319815970, 18120088533625545246704996027922193994918686461528995230012730804275900111691⟩)

def ladSt238 : PointT × PointT := (⟨20669298056550510217790695745941708170596067361094487577917750214213543959898, 8065381744408428518540169339326260786349559540738359662254785220361071960155, 17384742990593116830106255179505702911555683769577389539469428198920417892871⟩, ⟨17183668081688298014571731713888152093387854444576677376461586183908265597671, 15995175929428423764538863569108154074098140785206667010278583767709266705355, 5767415975629617603789534146508973121548196088388636937229663318051058692688⟩)

def ladSt239 : PointT × PointT := (⟨17831286235821193630722959864567756680373317140039145071083273356936221338454, 14872707370049254056401750430608653907862770336632703841548207531948538598986, 8628161602242399365667078036128711632032770131063577479796357654727313895357⟩, ⟨5985000319172290701075787997304291782277416345448704045388225256759510545262, 19616220279045097480109677097693589545730770908579248358600815740184976837748, 5395138839508713075080980063585046953230411178300561183458725763126872489142⟩)

def ladSt240 : PointT × PointT := (⟨20506050222883787117771478651311195850419507968508467521025967074901513758366, 7731809086038755539170508595788657439178998367944694967753982628238909451298, 19727552712001603964102510332810916316797993556785287815555663798838662571090⟩, ⟨16968846966715973203001361242705064718128932109258407960734613805275268655794, 5590211701090512693638709118402387578210241035955344989134387549802290903244, 2709208072213674582242409524532503984597271569515367072591607517341388718319⟩)

def ladSt241 : PointT × PointT := (⟨7974983908794111420137143907799371099854518756883154208035174441223593325181, 10453229955857759642666063551550408458758015249978067827611508530989856976721, 1656316760736347721295988391311789430742231257208876104330552475834825014878⟩, ⟨2181876377214313458441816120997010621153846631669002069373641712204196845263, 14349871188959763568083405753909004044521343995545578509911838525867836994990, 14660795883055503297793056180495066618469732595568864250770052887642674784896⟩)

def ladSt242 : PointT × PointT := (⟨8128151062399885372471788153599319589325853947939758659006167542226415624521, 3666201209709599430218853684642368152485918949444402084199991198571428367171, 13187324861517067325301402168614632035695903631787886827695156625788616505406⟩, ⟨18786008511862089821195087159080511986301709648919297774779164751602230374230, 16987690101458976450823125385097745394048466298707009727335117134819292623715, 13101089456306169740965848325085552542652207225402534524408265105980298602849⟩)

def ladSt243 : PointT × PointT := (⟨1365639682245397538898251771301296643528099354411374240241752363668164590254, 12890064739363446458249671655745557319306905405219566606152781316608099989069, 10577780504493549269411099511003814872617454552513098148803754367181878839333⟩, ⟨21814642971547094978202047644850392649400130023936970188820429733470027975045, 19489132805465113819582881259110620084620789090732233976187379541812304090214, 16975597295006073339618175225959064205535306262686696057975761099405239979543⟩)

def ladSt244 : PointT × PointT := (⟨7158863200869456466635606116889201021354461210068215770465814609730462848389, 14967058801615856441086968746934141059931520431034330254101577282034808318538, 12388300464693577017403582095251188263150691533042580406097472216740061012362⟩, ⟨1333431129638866002239782632220458253367983330023083061585496935141708963974, 17388609750410501589300140365456878415359349195607072378051605411395403601315, 2036148009564492159177456374810646033451210013543149711448175161314723785520⟩)

def ladSt245 : PointT × PointT := (⟨18655945859263841832068561583247917402462259474337982427387713048111058299182, 19297892798680805022455300426292300668479610041295235710518646435809585079559, 16053320495744248849949352478913457298820806578402223480670475054516877142538⟩, ⟨15738598289119097331926981957905202501617775915806559539479738226960674068877, 19025713119131326234208770255702395054424436979239755397737688752591730139688, 423592052673683327055740416779481708091888693388337218340762997287356110909⟩)

def ladSt246 : PointT × PointT := (⟨13230161311009770083787387595640916668384304245330590070838513241671266669601, 9636840080425438944969643804969061809613917164046414225129922649425363346395, 12592782596148605946473580053024777548338121708924966945382632841532789345425⟩, ⟨12675730074089840939370102249270376548578717398686590770011455344009948269116, 8236213813314936439479838059884521045201109262024294055668404782180378267843, 3803738447339405720048729527481373612360647832171610424175638562544289295832⟩)

def ladSt247 : PointT × PointT := (⟨18320428886874686067674687159436714660295915653736490920089181697911614394383, 16199271814909871519921870604409418284357876920882871003209726341833702560124, 8796675642746707069988591795256954395446302514902089036404834639428596493243⟩, ⟨18107227524371389448907149924239935501100479479638270486646217958935256798308, 14890564066734128631152442084393829504527146102781000906792383969163674573970, 2602165925179534449930162637195668222378812840048280787528489085067895059327⟩)

def ladSt248 : PointT × PointT := (⟨21452589627627632514718142855307498598384004090543545165715074307476895095244, 15102776553976569814241198606041179722775002196613928338904378146126543970312, 19428915539191154740665191014577800444196193177616092475006155947111921297788⟩, ⟨13161146104237278701398311968220917935451266075665090852155765993349009113384, 7716762756273438619307583138298115512094677592821800855071022760724642957314, 3675748662573146785453582893374600458390411950201578698288078734168179659170⟩)

def ladSt249 : PointT × PointT := (⟨11372411322574365060384456197658514432555770671892089792056292638874267941144, 19245877330986978925387331885567423875388128179087997373206647897129046669043, 18047577097480546832232307196389773860782948753371355859540853391111397892924⟩, ⟨19390266218136339994417971140272164542309729615918080982190902836860834034061, 14526950470366744610604637293299640951655192375277927261520276403417788407732, 15451724126990819787464988277231983787051963119459293379761227952632345237615⟩)

def ladSt250 : PointT × PointT := (⟨14095557539029869601782403290012583016250733081760628533884784967148745594379, 5605776806752867958828713739893925260118118787792206350209814437870856856749, 20551513148931577953580191472334275443778320477864737432312055050694445448091⟩, ⟨11313176830046516943076139487216664221503355605042100856767100148985997498265, 9583510781579521004768772032703638895909470747023395499077239098934626433589, 12857145919991945010538066273096381191495364639072022920050649214450621116894⟩)

def ladSt251 : PointT × PointT := (⟨15050493668188178528743319072215560053067869504013213163595972155052715895668, 644592631654795702884073822059676845651448695950116073514351685362168874828, 20472944054227680579922125812765486519659276578984282895412937416926738013093⟩, ⟨21601693408168302704435343178870207983890606971506325753637655252778168479925, 14497478554144800379786121864780335141677372110016622536252974395498766313501, 11313359134282368156350453144886014768420454057748979467631541208756679305099⟩)

def ladSt252 : PointT × PointT := (⟨3872921774913922062783844184203419778064008713937262853437502484913264026966, 7061794972271594004913991031627589877103063603531342542043535664917581589221, 17148472640514831079795660965584983861901471679668036645379320758601566348775⟩, ⟨8023924495660089529727102188397256912271810238586091153025671288956014593332, 1270744573721652503893653346291518190692526187014843186772237677000967604718, 20513507850453011685101541193879872594346071774621208172876395697222224728963⟩)

def ladSt253 : PointT × PointT := (⟨17628890584465493033360336002744450233786419665172623305609285923652523293417, 13067434878607690729460927437954759294736890457432824741102897165019496270250, 19706219459565452520547822594549304712413934505665228192253649174920806966107⟩, ⟨8334113759566843645272613246574282039093821337564679306029855691917386636911, 5483864209452577853719770199488776861589543406427361435900955192469141818137, 21623061198080113331776662381097623254946367291492136913912312531108119051209⟩)

def ladSt254 : PointT × PointT := (⟨3513993107471943510764538434885572974683696934199900986048062165532756834387, 5211667867458748879176922460015187366252067011098371539821120930471935531491, 7659710300780053191956365565704438279314287784308364250846674767121335707562⟩, ⟨11828701304615741994131796811860038526128615097803429173064458654291106725353, 4251133884364649221959231268677800268580462641618541393819734712025712205933, 7108701077507671813126548787028605635877476579131310933185462730838330480305⟩)

def ladSt255 : PointT × PointT := (⟨21142119185336464249161293476124443371792224542584978965290204814710508002401, 13800715892044743555188999220761453451909989481504696552186034900911994872988, 18274743448002664403301176639121763777060269013194230468101171097906340934823⟩, ⟨21150875848105303260930443171183243503219016117486319281260415883587927324206, 8246680378658409567077961087272329196697373054553858282047583795618291235448, 13417096813112105749686732177327722869777363709252876130188816984161782458789⟩)

def ladSt256 : PointT × PointT := (⟨15778590529945377856077575114064373724223434745046502771319035698411422917465, 10460723736887821776920274937386350578494707629378615744008597407270585796430, 16684937756375514585295539470666548804943527710500521379394696275901984524857⟩, ⟨9477852931306319080684241183290431965826384557670944316556095536019336281355, 12609454449449855262296357415649832401593591853559921158063684479957775217439, 3442551985346351555348686928075428970389638699990124900465911877586826416562⟩)

theorem powMod_correct (fuel : Nat) : ∀ a e n : Nat, 0 < n → e < 2 ^ fuel →
    powMod fuel a e n = a ^ e % n := by
  induction fuel with
  | zero =>
    intro a e n hn he
    have he0 : e = 0 := by omega
    subst he0
    simp [powMod]
  | succ fuel ih =>
    intro a e n hn he
    by_cases he0 : e = 0
    · subst he0
      simp [powMod]
    · have hdiv : e / 2 < 2 ^ fuel := by
        have : e < 2 ^ fuel * 2 := by
          have := he
          rw [pow_succ] at this
          omega
        omega
      have ihv := ih (a * a % n) (e / 2) n hn hdiv
      have hsq : (a * a % n) ^ (e / 2) % n = a ^ (2 * (e / 2)) % n := by
        rw [Nat.pow_mod, Nat.mod_mod_of_dvd _ dvd_rfl, ← Nat.pow_mod]
        rw [two_mul, pow_add, ← pow_add]
        congr 1
        ring
      rcases Nat.even_or_odd e with hpar | hpar
      · have hm : e % 2 = 0 := Nat.even_iff.mp hpar
        have hrep : 2 * (e / 2) = e := by omega
        simp only [powMod, he0, if_false, hm]
        norm_num
        rw [ihv, hsq, hrep]
      · have hm : e % 2 = 1 := Nat.odd_iff.mp hpar
        have hrep : 2 * (e / 2) + 1 = e := by omega
        simp only [powMod, he0, if_false, hm, if_true]
        rw [ihv, hsq]
        have hmod : a * (a ^ (2 * (e / 2)) % n) % n = a * a ^ (2 * (e / 2)) % n := by
          have h2 := (Nat.mod_modEq (a ^ (2 * (e / 2))) n).mul_left a
          simp only [Nat.ModEq] at h2
          exact h2
        rw [hmod]
        conv_rhs => rw [← hrep, pow_succ]
        rw [mul_comm]

theorem powMod_lt (fuel : Nat) : ∀ a e n : Nat, 0 < n → powMod fuel a e n < n := by
  induction fuel with
  | zero =>
    intro a e n hn
    exact Nat.mod_lt _ hn
  | succ fuel ih =>
    intro a e n hn
    by_cases he0 : e = 0
    · simp only [powMod, he0, if_true]
      exact Nat.mod_lt _ hn
    · by_cases hm : e % 2 = 1
      · simp only [powMod, he0, if_false, hm, if_true]
        exact Nat.mod_lt _ hn
      · simp only [powMod, he0, if_false, hm]
        exact ih _ _ _ hn

theorem zmod_powMod (n a e fuel : Nat) (hn : 0 < n) (he : e < 2 ^ fuel) :
    ((powMod fuel a e n : Nat) : ZMod n) = ((a : ℕ) : ZMod n) ^ e := by
  rw [powMod_correct fuel a e n hn he, ZMod.natCast_mod, Nat.cast_pow]

theorem zmod_pow_eq_one (n a e fuel : Nat) (hn : 0 < n) (he : e < 2 ^ fuel)
    (hv : powMod fuel a e n = 1) : ((a : ℕ) : ZMod n) ^ e = 1 := by
  rw [← zmod_powMod n a e fuel hn he, hv, Nat.cast_one]

theorem zmod_pow_ne_one (n a e fuel : Nat) (h1 : 1 < n) (he : e < 2 ^ fuel)
    (hne : powMod fuel a e n ≠ 1) : ((a : ℕ) : ZMod n) ^ e ≠ 1 := by
  intro hcon
  apply hne
  have h0 : 0 < n := by omega
  have h2 : ((powMod fuel a e n : Nat) : ZMod n) = ((1 : ℕ) : ZMod n) := by
    rw [zmod_powMod n a e fuel h0 he, hcon, Nat.cast_one]
  have h3 : powMod fuel a e n % n = 1 % n := (ZMod.natCast_eq_natCast_iff' _ _ _).mp h2
  have h4 := powMod_lt fuel a e n h0
  rw [Nat.mod_eq_of_lt h4, Nat.mod_eq_of_lt h1] at h3
  exact h3

theorem prime_2 : Nat.Prime 2 := by norm_num

theorem prime_3 : Nat.Prime 3 := by norm_num

theorem prime_5 : Nat.Prime 5 := by norm_num

theorem prime_7 : Nat.Prime 7 := by norm_num

theorem prime_11 : Nat.Prime 11 := by norm_num

theorem prime_13 : Nat.Prime 13 := by norm_num

theorem prime_19 : Nat.Prime 19 := by norm_num

theorem prime_29 : Nat.Prime 29 := by norm_num

theorem prime_41 : Nat.Prime 41 := by norm_num

theorem prime_67 : Nat.Prime 67 := by norm_num

theorem prime_73 : Nat.Prime 73 := by norm_num

theorem prime_89 : Nat.Prime 89 := by norm_num

theorem prime_229 : Nat.Prime 229 := by norm_num

theorem prime_311 : Nat.Prime 311 := by norm_num

theorem prime_911 : Nat.Prime 911 := by norm_num

theorem prime_983 : Nat.Prime 983 := by norm_num

theorem prime_3557 : Nat.Prime 3557 := by norm_num

theorem prime_3691 : Nat.Prime 3691 := by norm_num

theorem prime_4999 : Nat.Prime 4999 := by norm_num

theorem prime_11003 : Nat.Prime 11003 := by norm_num

theorem prime_13327 : Nat.Prime 13327 := by norm_num

theorem prime_327599 : Nat.Prime 327599 := by norm_num

theorem prime_1853641 : Nat.Prime 1853641 := by norm_num

theorem prime_4562087 : Nat.Prime 4562087 := by norm_num

theorem prime_1263766531 : Nat.Prime 1263766531 := by
  have h1 : ((10 : ℕ) : ZMod 1263766531) ^ (1263766531 - 1) = 1 :=
    zmod_pow_eq_one 1263766531 10 (1263766531 - 1) 256 (by decide) (by decide) (by decide)
  refine lucas_primality _ _ h1 ?_
  intro r hr hdvd
  have hfac : 1263766531 - 1 = 2 * (3 * (5 * (13 * (911 * (3557))))) := by decide
  rw [hfac] at hdvd
  rcases (Nat.Prime.dvd_mul hr).mp hdvd with h | hdvd
  · rw [(Nat.prime_dvd_prime_iff_eq hr prime_2).mp h]
    exact zmod_pow_ne_one _ 10 _ 256 (by decide) (by decide) (by decide)
  rcases (Nat.Prime.dvd_mul hr).mp hdvd with h | hdvd
  · rw [(Nat.prime_dvd_prime_iff_eq hr prime_3).mp h]
    exact zmod_pow_ne_one _ 10 _ 256 (by decide) (by decide) (by decide)
  rcases (Nat.Prime.dvd_mul hr).mp hdvd with h | hdvd
  · rw [(Nat.prime_dvd_prime_iff_eq hr prime_5).mp h]
    exact zmod_pow_ne_one _ 10 _ 256 (by decide) (by decide) (by decide)
  rcases (Nat.Prime.dvd_mul hr).mp hdvd with h | hdvd
  · rw [(Nat.prime_dvd_prime_iff_eq hr prime_13).mp h]
    exact zmod_pow_ne_one _ 10 _ 256 (by decide) (by decide) (by decide)
  rcases (Nat.Prime.dvd_mul hr).mp hdvd with h | hdvd
  · rw [(Nat.prime_dvd_prime_iff_eq hr prime_911).mp h]
    exact zmod_pow_ne_one _ 10 _ 256 (by decide) (by decide) (by decide)
  rw [(Nat.prime_dvd_prime_iff_eq hr prime_3557).mp hdvd]
  exact zmod_pow_ne_one _ 10 _ 256 (by decide) (by decide) (by decide)

theorem prime_35385462869 : Nat.Prime 35385462869 := by
  have h1 : ((2 : ℕ) : ZMod 35385462869) ^ (35385462869 - 1) = 1 :=
    zmod_pow_eq_one 35385462869 2 (35385462869 - 1) 256 (by decide) (by decide) (by decide)
  refine lucas_primality _ _ h1 ?_
  intro r hr hdvd
  have hfac : 35385462869 - 1 = 2 * (2 * (7 * (1263766531))) := by decide
  rw [hfac] at hdvd
  rcases (Nat.Prime.dvd_mul hr).mp hdvd with h | hdvd
  · rw [(Nat.prime_dvd_prime_iff_eq hr prime_2).mp h]
    exact zmod_pow_ne_one _ 2 _ 256 (by decide) (by decide) (by decide)
  rcases (Nat.Prime.dvd_mul hr).mp hdvd with h | hdvd
  · rw [(Nat.prime_dvd_prime_iff_eq hr prime_2).mp h]
    exact zmod_pow_ne_one _ 2 _ 256 (by decide) (by decide) (by decide)
  rcases (Nat.Prime.dvd_mul hr).mp hdvd with h | hdvd
  · rw [(Nat.prime_dvd_prime_iff_eq hr prime_7).mp h]
    exact zmod_pow_ne_one _ 2 _ 256 (by decide) (by decide) (by decide)
  rw [(Nat.prime_dvd_prime_iff_eq hr prime_1263766531).mp hdvd]
  exact zmod_pow_ne_one _ 2 _ 256 (by decide) (by decide) (by decide)

theorem prime_2480874801745591 : Nat.Prime 2480874801745591 := by
  have h1 : ((6 : ℕ) : ZMod 2480874801745591) ^ (2480874801745591 - 1) = 1 :=
    zmod_pow_eq_one 2480874801745591 6 (2480874801745591 - 1) 256 (by decide) (by decide) (by decide)
  refine lucas_primality _ _ h1 ?_
  intro r hr hdvd
  have hfac : 2480874801745591 - 1 = 2 * (3 * (3 * (5 * (19 * (41 * (35385462869)))))) := by decide
  rw [hfac] at hdvd
  rcases (Nat.Prime.dvd_mul hr).mp hdvd with h | hdvd
  · rw [(Nat.prime_dvd_prime_iff_eq hr prime_2).mp h]
    exact zmod_pow_ne_one _ 6 _ 256 (by decide) (by decide) (by decide)
  rcases (Nat.Prime.dvd_mul hr).mp hdvd with h | hdvd
  · rw [(Nat.prime_dvd_prime_iff_eq hr prime_3).mp h]
    exact zmod_pow_ne_one _ 6 _ 256 (by decide) (by decide) (by decide)
  rcases (Nat.Prime.dvd_mul hr).mp hdvd with h | hdvd
  · rw [(Nat.prime_dvd_prime_iff_eq hr prime_3).mp h]
    exact zmod_pow_ne_one _ 6 _ 256 (by decide) (by decide) (by decide)
  rcases (Nat.Prime.dvd_mul hr).mp hdvd with h | hdvd
  · rw [(Nat.prime_dvd_prime_iff_eq hr prime_5).mp h]
    exact zmod_pow_ne_one _ 6 _ 256 (by decide) (by decide) (by decide)
  rcases (Nat.Prime.dvd_mul hr).mp hdvd with h | hdvd
  · rw [(Nat.prime_dvd_prime_iff_eq hr prime_19).mp h]
    exact zmod_pow_ne_one _ 6 _ 256 (by decide) (by decide) (by decide)
  rcases (Nat.Prime.dvd_mul hr).mp hdvd with h | hdvd
  · rw [(Nat.prime_dvd_prime_iff_eq hr prime_41).mp h]
    exact zmod_pow_ne_one _ 6 _ 256 (by decide) (by decide) (by decide)
  rw [(Nat.prime_dvd_prime_iff_eq hr prime_35385462869).mp hdvd]
  exact zmod_pow_ne_one _ 6 _ 256 (by decide) (by decide) (by decide)

theorem prime_173171039 : Nat.Prime 173171039 := by
  have h1 : ((13 : ℕ) : ZMod 173171039) ^ (173171039 - 1) = 1 :=
    zmod_pow_eq_one 173171039 13 (173171039 - 1) 256 (by decide) (by decide) (by decide)
  refine lucas_primality _ _ h1 ?_
  intro r hr hdvd
  have hfac : 173171039 - 1 = 2 * (73 * (89 * (13327))) := by decide
  rw [hfac] at hdvd
  rcases (Nat.Prime.dvd_mul hr).mp hdvd with h | hdvd
  · rw [(Nat.prime_dvd_prime_iff_eq hr prime_2).mp h]
    exact zmod_pow_ne_one _ 13 _ 256 (by decide) (by decide) (by decide)
  rcases (Nat.Prime.dvd_mul hr).mp hdvd with h | hdvd
  · rw [(Nat.prime_dvd_prime_iff_eq hr prime_73).mp h]
    exact zmod_pow_ne_one _ 13 _ 256 (by decide) (by decide) (by decide)
  rcases (Nat.Prime.dvd_mul hr).mp hdvd with h | hdvd
  · rw [(Nat.prime_dvd_prime_iff_eq hr prime_89).mp h]
    exact zmod_pow_ne_one _ 13 _ 256 (by decide) (by decide) (by decide)
  rw [(Nat.prime_dvd_prime_iff_eq hr prime_13327).mp hdvd]
  exact zmod_pow_ne_one _ 13 _ 256 (by decide) (by decide) (by decide)

theorem prime_405928799 : Nat.Prime 405928799 := by
  have h1 : ((22 : ℕ) : ZMod 405928799) ^ (405928799 - 1) = 1 :=
    zmod_pow_eq_one 405928799 22 (405928799 - 1) 256 (by decide) (by decide) (by decide)
  refine lucas_primality _ _ h1 ?_
  intro r hr hdvd
  have hfac : 405928799 - 1 = 2 * (11 * (3691 * (4999))) := by decide
  rw [hfac] at hdvd
  rcases (Nat.Prime.dvd_mul hr).mp hdvd with h | hdvd
  · rw [(Nat.prime_dvd_prime_iff_eq hr prime_2).mp h]
    exact zmod_pow_ne_one _ 22 _ 256 (by decide) (by decide) (by decide)
  rcases (Nat.Prime.dvd_mul hr).mp hdvd with h | hdvd
  · rw [(Nat.prime_dvd_prime_iff_eq hr prime_11).mp h]
    exact zmod_pow_ne_one _ 22 _ 256 (by decide) (by decide) (by decide)
  rcases (Nat.Prime.dvd_mul hr).mp hdvd with h | hdvd
  · rw [(Nat.prime_dvd_prime_iff_eq hr prime_3691).mp h]
    exact zmod_pow_ne_one _ 22 _ 256 (by decide) (by decide) (by decide)
  rw [(Nat.prime_dvd_prime_iff_eq hr prime_4999).mp hdvd]
  exact zmod_pow_ne_one _ 22 _ 256 (by decide) (by decide) (by decide)

theorem prime_11465965001 : Nat.Prime 11465965001 := by
  have h1 : ((3 : ℕ) : ZMod 11465965001) ^ (11465965001 - 1) = 1 :=
    zmod_pow_eq_one 11465965001 3 (11465965001 - 1) 256 (by decide) (by decide) (by decide)
  refine lucas_primality _ _ h1 ?_
  intro r hr hdvd
  have hfac : 11465965001 - 1 = 2 * (2 * (2 * (5 * (5 * (5 * (5 * (7 * (327599)))))))) := by decide
  rw [hfac] at hdvd
  rcases (Nat.Prime.dvd_mul hr).mp hdvd with h | hdvd
  · rw [(Nat.prime_dvd_prime_iff_eq hr prime_2).mp h]
    exact zmod_pow_ne_one _ 3 _ 256 (by decide) (by decide) (by decide)
  rcases (Nat.Prime.dvd_mul hr).mp hdvd with h | hdvd
  · rw [(Nat.prime_dvd_prime_iff_eq hr prime_2).mp h]
    exact zmod_pow_ne_one _ 3 _ 256 (by decide) (by decide) (by decide)
  rcases (Nat.Prime.dvd_mul hr).mp hdvd with h | hdvd
  · rw [(Nat.prime_dvd_prime_iff_eq hr prime_2).mp h]
    exact zmod_pow_ne_one _ 3 _ 256 (by decide) (by decide) (by decide)
  rcases (Nat.Prime.dvd_mul hr).mp hdvd with h | hdvd
  · rw [(Nat.prime_dvd_prime_iff_eq hr prime_5).mp h]
    exact zmod_pow_ne_one _ 3 _ 256 (by decide) (by decide) (by decide)
  rcases (Nat.Prime.dvd_mul hr).mp hdvd with h | hdvd
  · rw [(Nat.prime_dvd_prime_iff_eq hr prime_5).mp h]
    exact zmod_pow_ne_one _ 3 _ 256 (by decide) (by decide) (by decide)
  rcases (Nat.Prime.dvd_mul hr).mp hdvd with h | hdvd
  · rw [(Nat.prime_dvd_prime_iff_eq hr prime_5).mp h]
    exact zmod_pow_ne_one _ 3 _ 256 (by decide) (by decide) (by decide)
  rcases (Nat.Prime.dvd_mul hr).mp hdvd with h | hdvd
  · rw [(Nat.prime_dvd_prime_iff_eq hr prime_5).mp h]
    exact zmod_pow_ne_one _ 3 _ 256 (by decide) (by decide) (by decide)
  rcases (Nat.Prime.dvd_mul hr).mp hdvd with h | hdvd
  · rw [(Nat.prime_dvd_prime_iff_eq hr prime_7).mp h]
    exact zmod_pow_ne_one _ 3 _ 256 (by decide) (by decide) (by decide)
  rw [(Nat.prime_dvd_prime_iff_eq hr prime_327599).mp hdvd]
  exact zmod_pow_ne_one _ 3 _ 256 (by decide) (by decide) (by decide)

theorem prime_13427688667394608761327070753331941386769 : Nat.Prime 13427688667394608761327070753331941386769 := by
  have h1 : ((17 : ℕ) : ZMod 13427688667394608761327070753331941386769) ^ (13427688667394608761327070753331941386769 - 1) = 1 :=
    zmod_pow_eq_one 13427688667394608761327070753331941386769 17 (13427688667394608761327070753331941386769 - 1) 256 (by decide) (by decide) (by decide)
  refine lucas_primality _ _ h1 ?_
  intro r hr hdvd
  have hfac : 13427688667394608761327070753331941386769 - 1 = 2 * (2 * (2 * (2 * (3 * (7 * (11 * (1853641 * (4562087 * (173171039 * (2480874801745591)))))))))) := by decide
  rw [hfac] at hdvd
  rcases (Nat.Prime.dvd_mul hr).mp hdvd with h | hdvd
  · rw [(Nat.prime_dvd_prime_iff_eq hr prime_2).mp h]
    exact zmod_pow_ne_one _ 17 _ 256 (by decide) (by decide) (by decide)
  rcases (Nat.Prime.dvd_mul hr).mp hdvd with h | hdvd
  · rw [(Nat.prime_dvd_prime_iff_eq hr prime_2).mp h]
    exact zmod_pow_ne_one _ 17 _ 256 (by decide) (by decide) (by decide)
  rcases (Nat.Prime.dvd_mul hr).mp hdvd with h | hdvd
  · rw [(Nat.prime_dvd_prime_iff_eq hr prime_2).mp h]
    exact zmod_pow_ne_one _ 17 _ 256 (by decide) (by decide) (by decide)
  rcases (Nat.Prime.dvd_mul hr).mp hdvd with h | hdvd
  · rw [(Nat.prime_dvd_prime_iff_eq hr prime_2).mp h]
    exact zmod_pow_ne_one _ 17 _ 256 (by decide) (by decide) (by decide)
  rcases (Nat.Prime.dvd_mul hr).mp hdvd with h | hdvd
  · rw [(Nat.prime_dvd_prime_iff_eq hr prime_3).mp h]
    exact zmod_pow_ne_one _ 17 _ 256 (by decide) (by decide) (by decide)
  rcases (Nat.Prime.dvd_mul hr).mp hdvd with h | hdvd
  · rw [(Nat.prime_dvd_prime_iff_eq hr prime_7).mp h]
    exact zmod_pow_ne_one _ 17 _ 256 (by decide) (by decide) (by decide)
  rcases (Nat.Prime.dvd_mul hr).mp hdvd with h | hdvd
  · rw [(Nat.prime_dvd_prime_iff_eq hr prime_11).mp h]
    exact zmod_pow_ne_one _ 17 _ 256 (by decide) (by decide) (by decide)
  rcases (Nat.Prime.dvd_mul hr).mp hdvd with h | hdvd
  · rw [(Nat.prime_dvd_prime_iff_eq hr prime_1853641).mp h]
    exact zmod_pow_ne_one _ 17 _ 256 (by decide) (by decide) (by decide)
  rcases (Nat.Prime.dvd_mul hr).mp hdvd with h | hdvd
  · rw [(Nat.prime_dvd_prime_iff_eq hr prime_4562087).mp h]
    exact zmod_pow_ne_one _ 17 _ 256 (by decide) (by decide) (by decide)
  rcases (Nat.Prime.dvd_mul hr).mp hdvd with h | hdvd
  · rw [(Nat.prime_dvd_prime_iff_eq hr prime_173171039).mp h]
    exact zmod_pow_ne_one _ 17 _ 256 (by decide) (by decide) (by decide)
  rw [(Nat.prime_dvd_prime_iff_eq hr prime_2480874801745591).mp hdvd]
  exact zmod_pow_ne_one _ 17 _ 256 (by decide) (by decide) (by decide)

theorem prime_21888242871839275222246405745257275088696311157297823662689037894645226208583 : Nat.Prime 21888242871839275222246405745257275088696311157297823662689037894645226208583 := by
  have h1 : ((3 : ℕ) : ZMod 21888242871839275222246405745257275088696311157297823662689037894645226208583) ^ (21888242871839275222246405745257275088696311157297823662689037894645226208583 - 1) = 1 :=
    zmod_pow_eq_one 21888242871839275222246405745257275088696311157297823662689037894645226208583 3 (21888242871839275222246405745257275088696311157297823662689037894645226208583 - 1) 256 (by decide) (by decide) (by decide)
  refine lucas_primality _ _ h1 ?_
  intro r hr hdvd
  have hfac : 21888242871839275222246405745257275088696311157297823662689037894645226208583 - 1 = 2 * (3 * (3 * (13 * (29 * (67 * (229 * (311 * (983 * (11003 * (405928799 * (11465965001 * (13427688667394608761327070753331941386769)))))))))))) := by decide
  rw [hfac] at hdvd
  rcases (Nat.Prime.dvd_mul hr).mp hdvd with h | hdvd
  · rw [(Nat.prime_dvd_prime_iff_eq hr prime_2).mp h]
    exact zmod_pow_ne_one _ 3 _ 256 (by decide) (by decide) (by decide)
  rcases (Nat.Prime.dvd_mul hr).mp hdvd with h | hdvd
  · rw [(Nat.prime_dvd_prime_iff_eq hr prime_3).mp h]
    exact zmod_pow_ne_one _ 3 _ 256 (by decide) (by decide) (by decide)
  rcases (Nat.Prime.dvd_mul hr).mp hdvd with h | hdvd
  · rw [(Nat.prime_dvd_prime_iff_eq hr prime_3).mp h]
    exact zmod_pow_ne_one _ 3 _ 256 (by decide) (by decide) (by decide)
  rcases (Nat.Prime.dvd_mul hr).mp hdvd with h | hdvd
  · rw [(Nat.prime_dvd_prime_iff_eq hr prime_13).mp h]
    exact zmod_pow_ne_one _ 3 _ 256 (by decide) (by decide) (by decide)
  rcases (Nat.Prime.dvd_mul hr).mp hdvd with h | hdvd
  · rw [(Nat.prime_dvd_prime_iff_eq hr prime_29).mp h]
    exact zmod_pow_ne_one _ 3 _ 256 (by decide) (by decide) (by decide)
  rcases (Nat.Prime.dvd_mul hr).mp hdvd with h | hdvd
  · rw [(Nat.prime_dvd_prime_iff_eq hr prime_67).mp h]
    exact zmod_pow_ne_one _ 3 _ 256 (by decide) (by decide) (by decide)
  rcases (Nat.Prime.dvd_mul hr).mp hdvd with h | hdvd
  · rw [(Nat.prime_dvd_prime_iff_eq hr prime_229).mp h]
    exact zmod_pow_ne_one _ 3 _ 256 (by decide) (by decide) (by decide)
  rcases (Nat.Prime.dvd_mul hr).mp hdvd with h | hdvd
  · rw [(Nat.prime_dvd_prime_iff_eq hr prime_311).mp h]
    exact zmod_pow_ne_one _ 3 _ 256 (by decide) (by decide) (by decide)
  rcases (Nat.Prime.dvd_mul hr).mp hdvd with h | hdvd
  · rw [(Nat.prime_dvd_prime_iff_eq hr prime_983).mp h]
    exact zmod_pow_ne_one _ 3 _ 256 (by decide) (by decide) (by decide)
  rcases (Nat.Prime.dvd_mul hr).mp hdvd with h | hdvd
  · rw [(Nat.prime_dvd_prime_iff_eq hr prime_11003).mp h]
    exact zmod_pow_ne_one _ 3 _ 256 (by decide) (by decide) (by decide)
  rcases (Nat.Prime.dvd_mul hr).mp hdvd with h | hdvd
  · rw [(Nat.prime_dvd_prime_iff_eq hr prime_405928799).mp h]
    exact zmod_pow_ne_one _ 3 _ 256 (by decide) (by decide) (by decide)
  rcases (Nat.Prime.dvd_mul hr).mp hdvd with h | hdvd
  · rw [(Nat.prime_dvd_prime_iff_eq hr prime_11465965001).mp h]
    exact zmod_pow_ne_one _ 3 _ 256 (by decide) (by decide) (by decide)
  rw [(Nat.prime_dvd_prime_iff_eq hr prime_13427688667394608761327070753331941386769).mp hdvd]
  exact zmod_pow_ne_one _ 3 _ 256 (by decide) (by decide) (by decide)

theorem P_prime : Nat.Prime FIELD_MODULUS := prime_21888242871839275222246405745257275088696311157297823662689037894645226208583

theorem mstep_zmod (t i : Nat) :
    ((mstep t i : ℕ) : ZMod FIELD_MODULUS) = (t : ZMod FIELD_MODULUS) := by
  simp only [mstep]
  push_cast
  rw [ZMod.natCast_self]
  ring

theorem mstep_dvd (t i : Nat) (h : 2 ^ (64 * i) ∣ t) :
    2 ^ (64 * (i + 1)) ∣ mstep t i := by
  obtain ⟨u, rfl⟩ := h
  have hpos : 0 < 2 ^ (64 * i) := pow_pos (by norm_num) _
  have hdiv : 2 ^ (64 * i) * u / 2 ^ (64 * i) = u := Nat.mul_div_cancel_left u hpos
  have key : 2 ^ 64 ∣ u + u % 2 ^ 64 * FIELD_INV % 2 ^ 64 * FIELD_MODULUS := by
    have h1 : u + u % 2 ^ 64 * FIELD_INV % 2 ^ 64 * FIELD_MODULUS ≡
        u % 2 ^ 64 + u % 2 ^ 64 * FIELD_INV * FIELD_MODULUS [MOD 2 ^ 64] :=
      Nat.ModEq.add (Nat.mod_modEq u (2 ^ 64)).symm
        ((Nat.mod_modEq (u % 2 ^ 64 * FIELD_INV) (2 ^ 64)).mul_right FIELD_MODULUS)
    have h2 : u % 2 ^ 64 + u % 2 ^ 64 * FIELD_INV * FIELD_MODULUS =
        u % 2 ^ 64 * (1 + FIELD_INV * FIELD_MODULUS) := by ring
    have h3 : u % 2 ^ 64 * (1 + FIELD_INV * FIELD_MODULUS) ≡
        u % 2 ^ 64 * 0 [MOD 2 ^ 64] :=
      Nat.ModEq.mul_left _ (by decide)
    have h4 : u + u % 2 ^ 64 * FIELD_INV % 2 ^ 64 * FIELD_MODULUS ≡ 0 [MOD 2 ^ 64] := by
      calc u + u % 2 ^ 64 * FIELD_INV % 2 ^ 64 * FIELD_MODULUS
          ≡ u % 2 ^ 64 + u % 2 ^ 64 * FIELD_INV * FIELD_MODULUS [MOD 2 ^ 64] := h1
        _ = u % 2 ^ 64 * (1 + FIELD_INV * FIELD_MODULUS) := h2
        _ ≡ u % 2 ^ 64 * 0 [MOD 2 ^ 64] := h3
        _ = 0 := by ring
    exact (Nat.modEq_zero_iff_dvd).mp h4
  obtain ⟨w, hw⟩ := key
  refine ⟨w, ?_⟩
  simp only [mstep, hdiv]
  rw [show 64 * (i + 1) = 64 * i + 64 by ring, pow_add]
  calc 2 ^ (64 * i) * u + u % 2 ^ 64 * FIELD_INV % 2 ^ 64 * FIELD_MODULUS * 2 ^ (64 * i)
      = 2 ^ (64 * i) * (u + u % 2 ^ 64 * FIELD_INV % 2 ^ 64 * FIELD_MODULUS) := by ring
    _ = 2 ^ (64 * i) * (2 ^ 64 * w) := by rw [hw]
    _ = 2 ^ (64 * i) * 2 ^ 64 * w := by ring

theorem mstep_le (t i : Nat) :
    mstep t i ≤ t + (2 ^ 64 - 1) * FIELD_MODULUS * 2 ^ (64 * i) := by
  have hk : t / 2 ^ (64 * i) % 2 ^ 64 * FIELD_INV % 2 ^ 64 ≤ 2 ^ 64 - 1 := by
    have := Nat.mod_lt (t / 2 ^ (64 * i) % 2 ^ 64 * FIELD_INV)
      (show 0 < 2 ^ 64 by norm_num)
    omega
  simp only [mstep]
  exact Nat.add_le_add_left
    (Nat.mul_le_mul (Nat.mul_le_mul hk (le_refl FIELD_MODULUS)) (le_refl _)) t

theorem montReduce_zmod (t : Nat) :
    ((montReduce t : ℕ) : ZMod FIELD_MODULUS) * ((2 ^ 256 : ℕ) : ZMod FIELD_MODULUS) =
      (t : ZMod FIELD_MODULUS) := by
  have hd0 : 2 ^ (64 * 0) ∣ t := by simp
  have hd4 := mstep_dvd _ 3 (mstep_dvd _ 2 (mstep_dvd _ 1 (mstep_dvd t 0 hd0)))
  have hzm : ((mstep (mstep (mstep (mstep t 0) 1) 2) 3 : ℕ) : ZMod FIELD_MODULUS) =
      (t : ZMod FIELD_MODULUS) := by
    rw [mstep_zmod, mstep_zmod, mstep_zmod, mstep_zmod]
  have h256 : 2 ^ 256 ∣ mstep (mstep (mstep (mstep t 0) 1) 2) 3 := by
    have he : 64 * (3 + 1) = 256 := by norm_num
    rwa [he] at hd4
  have hmul : mstep (mstep (mstep (mstep t 0) 1) 2) 3 / 2 ^ 256 * 2 ^ 256 =
      mstep (mstep (mstep (mstep t 0) 1) 2) 3 := Nat.div_mul_cancel h256
  have hcast : ∀ r : Nat, ((r : ℕ) : ZMod FIELD_MODULUS) * ((2 ^ 256 : ℕ) : ZMod FIELD_MODULUS) =
      ((r * 2 ^ 256 : ℕ) : ZMod FIELD_MODULUS) := by
    intro r
    push_cast
    ring
  by_cases hle : FIELD_MODULUS ≤ mstep (mstep (mstep (mstep t 0) 1) 2) 3 / 2 ^ 256
  · have hmr : montReduce t =
        mstep (mstep (mstep (mstep t 0) 1) 2) 3 / 2 ^ 256 - FIELD_MODULUS := by
      simp only [montReduce]
      rw [if_pos hle]
    rw [hmr]
    rw [Nat.cast_sub hle, ZMod.natCast_self, sub_zero, hcast, hmul, hzm]
  · have hmr : montReduce t = mstep (mstep (mstep (mstep t 0) 1) 2) 3 / 2 ^ 256 := by
      simp only [montReduce]
      rw [if_neg hle]
    rw [hmr, hcast, hmul, hzm]

theorem montReduce_lt (t : Nat) (h : t < FIELD_MODULUS * 2 ^ 256) :
    montReduce t < FIELD_MODULUS := by
  have l0 := mstep_le t 0
  have l1 := mstep_le (mstep t 0) 1
  have l2 := mstep_le (mstep (mstep t 0) 1) 2
  have l3 := mstep_le (mstep (mstep (mstep t 0) 1) 2) 3
  have hb : (2 ^ 64 - 1) * FIELD_MODULUS * 2 ^ (64 * 0) +
      (2 ^ 64 - 1) * FIELD_MODULUS * 2 ^ (64 * 1) +
      (2 ^ 64 - 1) * FIELD_MODULUS * 2 ^ (64 * 2) +
      (2 ^ 64 - 1) * FIELD_MODULUS * 2 ^ (64 * 3) < FIELD_MODULUS * 2 ^ 256 := by
    norm_num [FIELD_MODULUS]
  have h4 : mstep (mstep (mstep (mstep t 0) 1) 2) 3 < 2 ^ 256 * (2 * FIELD_MODULUS) := by
    have hchain : mstep (mstep (mstep (mstep t 0) 1) 2) 3 <
        FIELD_MODULUS * 2 ^ 256 + FIELD_MODULUS * 2 ^ 256 := by
      linarith [l0, l1, l2, l3, hb, h]
    calc mstep (mstep (mstep (mstep t 0) 1) 2) 3
        < FIELD_MODULUS * 2 ^ 256 + FIELD_MODULUS * 2 ^ 256 := hchain
      _ = 2 ^ 256 * (2 * FIELD_MODULUS) := by ring
  have hr : mstep (mstep (mstep (mstep t 0) 1) 2) 3 / 2 ^ 256 < 2 * FIELD_MODULUS :=
    Nat.div_lt_of_lt_mul h4
  simp only [montReduce]
  by_cases hle : FIELD_MODULUS ≤ mstep (mstep (mstep (mstep t 0) 1) 2) 3 / 2 ^ 256
  · rw [if_pos hle]
    omega
  · rw [if_neg hle]
    omega

theorem FIELD_MODULUS_le_two_pow : FIELD_MODULUS ≤ 2 ^ 256 := by
  norm_num [FIELD_MODULUS]

theorem field_mul_lt (a b : Nat) (ha : a < FIELD_MODULUS) (hb : b < FIELD_MODULUS) :
    field_mul a b < FIELD_MODULUS := by
  apply montReduce_lt
  have h1 : a * b ≤ a * 2 ^ 256 :=
    Nat.mul_le_mul (le_refl a) (le_of_lt (lt_of_lt_of_le hb FIELD_MODULUS_le_two_pow))
  have h2 : a * 2 ^ 256 < FIELD_MODULUS * 2 ^ 256 :=
    mul_lt_mul_of_pos_right ha (by norm_num)
  exact lt_of_le_of_lt h1 h2

theorem U_ne_zero : ((2 ^ 256 : ℕ) : ZMod FIELD_MODULUS) ≠ 0 := by
  rw [Ne, ZMod.natCast_zmod_eq_zero_iff_dvd]
  intro hdvd
  have h2 : FIELD_MODULUS ∣ 2 := P_prime.dvd_of_dvd_pow hdvd
  have h3 := Nat.le_of_dvd (by norm_num) h2
  norm_num [FIELD_MODULUS] at h3

theorem U_mul_inv :
    ((2 ^ 256 : ℕ) : ZMod FIELD_MODULUS) * ((2 ^ 256 : ℕ) : ZMod FIELD_MODULUS)⁻¹ = 1 := by
  haveI : Fact (Nat.Prime FIELD_MODULUS) := ⟨P_prime⟩
  exact mul_inv_cancel₀ U_ne_zero

theorem phi_mul (a b : Nat) : phi (field_mul a b) = phi a * phi b := by
  have h := montReduce_zmod (a * b)
  have hab : ((a * b : ℕ) : ZMod FIELD_MODULUS) =
      (a : ZMod FIELD_MODULUS) * (b : ZMod FIELD_MODULUS) := by
    push_cast
    ring
  have hm : ((montReduce (a * b) : ℕ) : ZMod FIELD_MODULUS) =
      (a : ZMod FIELD_MODULUS) * (b : ZMod FIELD_MODULUS) *
        ((2 ^ 256 : ℕ) : ZMod FIELD_MODULUS)⁻¹ := by
    calc ((montReduce (a * b) : ℕ) : ZMod FIELD_MODULUS)
        = ((montReduce (a * b) : ℕ) : ZMod FIELD_MODULUS) *
          (((2 ^ 256 : ℕ) : ZMod FIELD_MODULUS) * ((2 ^ 256 : ℕ) : ZMod FIELD_MODULUS)⁻¹) := by
          rw [U_mul_inv, mul_one]
      _ = ((montReduce (a * b) : ℕ) : ZMod FIELD_MODULUS) * ((2 ^ 256 : ℕ) : ZMod FIELD_MODULUS) *
          ((2 ^ 256 : ℕ) : ZMod FIELD_MODULUS)⁻¹ := by ring
      _ = (a : ZMod FIELD_MODULUS) * (b : ZMod FIELD_MODULUS) *
          ((2 ^ 256 : ℕ) : ZMod FIELD_MODULUS)⁻¹ := by rw [h, hab]
  simp only [phi, field_mul]
  rw [hm]
  ring

theorem field_sqr_eq (a : Nat) : field_sqr a = field_mul a a := rfl

theorem FIELD_R_lt : FIELD_R < FIELD_MODULUS := by decide

theorem FIELD_R_eq : FIELD_R = 2 ^ 256 % FIELD_MODULUS := by decide

theorem phi_R : phi FIELD_R = 1 := by
  simp only [phi]
  rw [FIELD_R_eq, ZMod.natCast_mod]
  exact U_mul_inv

theorem phi_inj (a b : Nat) (ha : a < FIELD_MODULUS) (hb : b < FIELD_MODULUS)
    (h : phi a = phi b) : a = b := by
  haveI : Fact (Nat.Prime FIELD_MODULUS) := ⟨P_prime⟩
  have h2 : (a : ZMod FIELD_MODULUS) = (b : ZMod FIELD_MODULUS) := by
    have h3 := congrArg (fun z => z * ((2 ^ 256 : ℕ) : ZMod FIELD_MODULUS)) h
    simp only [phi] at h3
    rwa [mul_assoc, mul_assoc, inv_mul_cancel₀ U_ne_zero, mul_one, mul_one] at h3
  have h4 := (ZMod.natCast_eq_natCast_iff' a b FIELD_MODULUS).mp h2
  rw [Nat.mod_eq_of_lt ha, Nat.mod_eq_of_lt hb] at h4
  exact h4

theorem phi_ne_zero (a : Nat) (ha : a < FIELD_MODULUS) (h0 : a ≠ 0) : phi a ≠ 0 := by
  haveI : Fact (Nat.Prime FIELD_MODULUS) := ⟨P_prime⟩
  simp only [phi]
  apply mul_ne_zero
  · rw [Ne, ZMod.natCast_zmod_eq_zero_iff_dvd]
    intro hdvd
    have := Nat.le_of_dvd (Nat.pos_of_ne_zero h0) hdvd
    omega
  · exact inv_ne_zero U_ne_zero

theorem mod_two_pow_succ (e j : Nat) :
    e % 2 ^ (j + 1) = 2 * (e / 2 % 2 ^ j) + e % 2 := by
  have hpow : (2 : ℕ) ^ (j + 1) = 2 * 2 ^ j := by
    rw [pow_succ]
    ring
  have h2 : 2 * (e / 2) % (2 * 2 ^ j) = 2 * (e / 2 % 2 ^ j) :=
    Nat.mul_mod_mul_left 2 (e / 2) (2 ^ j)
  have hj : 0 < 2 ^ j := pow_pos (by norm_num) j
  have hlt : 2 * (e / 2 % 2 ^ j) + e % 2 < 2 * 2 ^ j := by
    have ha := Nat.mod_lt (e / 2) hj
    have hb : e % 2 < 2 := Nat.mod_lt e (by norm_num)
    omega
  calc e % 2 ^ (j + 1) = e % (2 * 2 ^ j) := by rw [hpow]
    _ = (2 * (e / 2) + e % 2) % (2 * 2 ^ j) := by rw [Nat.div_add_mod e 2]
    _ = (2 * (e / 2) % (2 * 2 ^ j) + e % 2 % (2 * 2 ^ j)) % (2 * 2 ^ j) := by
        rw [Nat.add_mod]
    _ = (2 * (e / 2 % 2 ^ j) + e % 2) % (2 * 2 ^ j) := by
        rw [h2, Nat.mod_eq_of_lt (show e % 2 < 2 * 2 ^ j by omega)]
    _ = 2 * (e / 2 % 2 ^ j) + e % 2 := Nat.mod_eq_of_lt hlt

theorem powLimb_spec (j : Nat) : ∀ (s : Nat × Nat) (e : Nat),
    s.1 < FIELD_MODULUS → s.2 < FIELD_MODULUS →
    (powLimb j s e).1 < FIELD_MODULUS ∧ (powLimb j s e).2 < FIELD_MODULUS ∧
    phi (powLimb j s e).1 = phi s.1 ^ 2 ^ j ∧
    phi (powLimb j s e).2 = phi s.2 * phi s.1 ^ (e % 2 ^ j) := by
  induction j with
  | zero =>
    intro s e h1 h2
    refine ⟨h1, h2, ?_, ?_⟩
    · simp [powLimb]
    · simp [powLimb, Nat.mod_one]
  | succ j ih =>
    intro s e h1 h2
    have hstep : powLimb (j + 1) s e =
        powLimb j (field_sqr s.1, if e % 2 = 1 then field_mul s.2 s.1 else s.2) (e / 2) := rfl
    have hblt : field_sqr s.1 < FIELD_MODULUS := by
      rw [field_sqr_eq]
      exact field_mul_lt _ _ h1 h1
    have hrlt : (if e % 2 = 1 then field_mul s.2 s.1 else s.2) < FIELD_MODULUS := by
      split
      · exact field_mul_lt _ _ h2 h1
      · exact h2
    obtain ⟨g1, g2, g3, g4⟩ :=
      ih (field_sqr s.1, if e % 2 = 1 then field_mul s.2 s.1 else s.2) (e / 2) hblt hrlt
    rw [hstep]
    refine ⟨g1, g2, ?_, ?_⟩
    · rw [g3]
      show (phi (field_sqr s.1)) ^ 2 ^ j = phi s.1 ^ 2 ^ (j + 1)
      rw [field_sqr_eq, phi_mul, ← pow_two, ← pow_mul]
      congr 1
      rw [pow_succ]
      ring
    · rw [g4]
      show phi (if e % 2 = 1 then field_mul s.2 s.1 else s.2) *
          phi (field_sqr s.1) ^ (e / 2 % 2 ^ j) = phi s.2 * phi s.1 ^ (e % 2 ^ (j + 1))
      rw [field_sqr_eq, phi_mul, ← pow_two, ← pow_mul, mod_two_pow_succ e j]
      by_cases hb : e % 2 = 1
      · rw [if_pos hb, phi_mul, hb, pow_add]
        ring
      · have hb0 : e % 2 = 0 := by omega
        rw [if_neg hb, hb0, pow_add]
        ring

theorem field_inv_spec (a : Nat) (ha : a < FIELD_MODULUS) :
    field_inv a < FIELD_MODULUS ∧ phi (field_inv a) = phi a ^ (FIELD_MODULUS - 2) := by
  have hfold : field_inv a = (powLimb 64 (powLimb 64 (powLimb 64 (powLimb 64
      (a, FIELD_R) 0x3C208C16D87CFD45) 0x97816A916871CA8D) 0xB85045B68181585D)
      0x30644E72E131A029).2 := rfl
  obtain ⟨a1, b1, c1, d1⟩ := powLimb_spec 64 (a, FIELD_R) 0x3C208C16D87CFD45 ha FIELD_R_lt
  obtain ⟨a2, b2, c2, d2⟩ := powLimb_spec 64 _ 0x97816A916871CA8D a1 b1
  obtain ⟨a3, b3, c3, d3⟩ := powLimb_spec 64 _ 0xB85045B68181585D a2 b2
  obtain ⟨a4, b4, c4, d4⟩ := powLimb_spec 64 _ 0x30644E72E131A029 a3 b3
  have hfst : phi (a, FIELD_R).1 = phi a := rfl
  have hsnd : phi (a, FIELD_R).2 = phi FIELD_R := rfl
  have hm0 : (0x3C208C16D87CFD45 : ℕ) % 2 ^ 64 = 0x3C208C16D87CFD45 := by decide
  have hm1 : (0x97816A916871CA8D : ℕ) % 2 ^ 64 = 0x97816A916871CA8D := by decide
  have hm2 : (0xB85045B68181585D : ℕ) % 2 ^ 64 = 0xB85045B68181585D := by decide
  have hm3 : (0x30644E72E131A029 : ℕ) % 2 ^ 64 = 0x30644E72E131A029 := by decide
  refine ⟨hfold ▸ b4, ?_⟩
  rw [hfold, d4, d3, d2, d1, c3, c2, c1, hfst, hsnd, phi_R, one_mul,
    hm0, hm1, hm2, hm3]
  simp only [← pow_mul, ← pow_add]
  congr 1

theorem field_inv_lt (a : Nat) (ha : a < FIELD_MODULUS) : field_inv a < FIELD_MODULUS :=
  (field_inv_spec a ha).1

theorem field_inv_mul (a : Nat) (ha : a < FIELD_MODULUS) (h0 : a ≠ 0) :
    phi (field_inv a) * phi a = 1 := by
  haveI : Fact (Nat.Prime FIELD_MODULUS) := ⟨P_prime⟩
  obtain ⟨hlt, hspec⟩ := field_inv_spec a ha
  rw [hspec]
  have hne := phi_ne_zero a ha h0
  have h2 : phi a ^ (FIELD_MODULUS - 2) * phi a = phi a ^ (FIELD_MODULUS - 1) := by
    rw [← pow_succ]
    congr 1
  rw [h2]
  exact ZMod.pow_card_sub_one_eq_one hne

theorem phi_zero : phi 0 = 0 := by
  simp [phi]

theorem phi_cancel (u v c : ZMod FIELD_MODULUS) (h1 : u * c = 1) (h2 : v * c = 1) :
    u = v := by
  calc u = u * (c * v) := by
        rw [mul_comm c v, h2, mul_one]
    _ = u * c * v := (mul_assoc u c v).symm
    _ = v := by rw [h1, one_mul]

theorem backLoop_eq (l : List (Nat × Nat)) : ∀ inv,
    backLoop l inv = mulFoldFst inv l :: outs l inv := by
  induction l with
  | nil =>
    intro inv
    rfl
  | cons p rest ih =>
    intro inv
    obtain ⟨ai, acci⟩ := p
    simp only [backLoop, outs, ih (field_mul inv ai)]
    rw [List.cons_append]
    rfl

theorem backLoop_append (l1 l2 : List (Nat × Nat)) : ∀ inv,
    backLoop (l1 ++ l2) inv = backLoop l2 (mulFoldFst inv l1) ++ outs l1 inv := by
  induction l1 with
  | nil =>
    intro inv
    simp [mulFoldFst, outs]
  | cons p rest ih =>
    intro inv
    obtain ⟨ai, acci⟩ := p
    show backLoop (rest ++ l2) (field_mul inv ai) ++ [field_mul inv acci] =
      backLoop l2 (mulFoldFst inv ((ai, acci) :: rest)) ++ outs ((ai, acci) :: rest) inv
    rw [ih (field_mul inv ai), List.append_assoc]
    rfl

theorem scan_last : ∀ (tl : List Nat) (x : Nat),
    (x :: scanMul x tl).getLastD 0 = tl.foldl field_mul x := by
  intro tl
  induction tl with
  | nil =>
    intro x
    rfl
  | cons y ys ih =>
    intro x
    calc (x :: scanMul x (y :: ys)).getLastD 0
        = (x :: (field_mul x y :: scanMul (field_mul x y) ys)).getLastD 0 := rfl
      _ = (field_mul x y :: scanMul (field_mul x y) ys).getLastD x := by
          rw [List.getLastD_cons]
      _ = (scanMul (field_mul x y) ys).getLastD (field_mul x y) := by
          rw [List.getLastD_cons]
      _ = (field_mul x y :: scanMul (field_mul x y) ys).getLastD 0 := by
          rw [List.getLastD_cons]
      _ = ys.foldl field_mul (field_mul x y) := ih (field_mul x y)
      _ = (y :: ys).foldl field_mul x := rfl

theorem foldl_mul_lt : ∀ (tl : List Nat) (x : Nat), x < FIELD_MODULUS →
    (∀ y ∈ tl, y < FIELD_MODULUS) → tl.foldl field_mul x < FIELD_MODULUS := by
  intro tl
  induction tl with
  | nil =>
    intro x hx _
    exact hx
  | cons y ys ih =>
    intro x hx hall
    exact ih (field_mul x y) (field_mul_lt x y hx (hall y (by simp)))
      (fun z hz => hall z (by simp [hz]))

theorem field_mul_ne_zero (x y : Nat) (hx1 : x < FIELD_MODULUS) (hx2 : x ≠ 0)
    (hy1 : y < FIELD_MODULUS) (hy2 : y ≠ 0) : field_mul x y ≠ 0 := by
  haveI : Fact (Nat.Prime FIELD_MODULUS) := ⟨P_prime⟩
  intro h0
  have hpm := phi_mul x y
  rw [h0, phi_zero] at hpm
  exact mul_ne_zero (phi_ne_zero x hx1 hx2) (phi_ne_zero y hy1 hy2) hpm.symm

theorem foldl_mul_ne_zero : ∀ (tl : List Nat) (x : Nat),
    x < FIELD_MODULUS → x ≠ 0 → (∀ y ∈ tl, y < FIELD_MODULUS ∧ y ≠ 0) →
    tl.foldl field_mul x ≠ 0 := by
  intro tl
  induction tl with
  | nil =>
    intro x _ hx2 _
    exact hx2
  | cons y ys ih =>
    intro x hx1 hx2 hall
    have hy := hall y (by simp)
    exact ih (field_mul x y) (field_mul_lt x y hx1 hy.1)
      (field_mul_ne_zero x y hx1 hx2 hy.1 hy.2)
      (fun z hz => hall z (by simp [hz]))

theorem backLoop_main : ∀ (tl : List Nat) (x inv : Nat),
    (∀ y ∈ x :: tl, y < FIELD_MODULUS ∧ y ≠ 0) →
    inv < FIELD_MODULUS →
    phi inv * phi (tl.foldl field_mul x) = 1 →
    backLoop (List.reverse (tl.zip (x :: scanMul x tl))) inv =
      field_inv x :: tl.map field_inv := by
  intro tl
  induction tl with
  | nil =>
    intro x inv hbd hinv hphi
    have hx := hbd x (by simp)
    have hfermat := field_inv_mul x hx.1 hx.2
    have hphi2 : phi inv * phi x = 1 := hphi
    have heq : inv = field_inv x :=
      phi_inj inv (field_inv x) hinv (field_inv_lt x hx.1)
        (phi_cancel (phi inv) (phi (field_inv x)) (phi x) hphi2 hfermat)
    simp [backLoop, heq]
  | cons t ts ih =>
    intro x inv hbd hinv hphi
    have hx := hbd x (by simp)
    have ht := hbd t (by simp)
    have hm_lt : field_mul x t < FIELD_MODULUS := field_mul_lt x t hx.1 ht.1
    have hm_ne : field_mul x t ≠ 0 := field_mul_ne_zero x t hx.1 hx.2 ht.1 ht.2
    have hzip : (t :: ts).zip (x :: scanMul x (t :: ts)) =
        (t, x) :: ts.zip (field_mul x t :: scanMul (field_mul x t) ts) := rfl
    rw [hzip, List.reverse_cons]
    have hbd2 : ∀ y ∈ field_mul x t :: ts, y < FIELD_MODULUS ∧ y ≠ 0 := by
      intro y hy
      rcases List.mem_cons.mp hy with h | h
      · subst h
        exact ⟨hm_lt, hm_ne⟩
      · exact hbd y (by simp [h])
    have hphi2 : phi inv * phi (ts.foldl field_mul (field_mul x t)) = 1 := hphi
    have ihres := ih (field_mul x t) inv hbd2 hinv hphi2
    rw [backLoop_eq] at ihres
    injection ihres with hM hO
    rw [backLoop_append]
    rw [hM, hO]
    have he1 : field_mul (field_inv (field_mul x t)) t = field_inv x := by
      apply phi_inj _ _ (field_mul_lt _ _ (field_inv_lt _ hm_lt) ht.1) (field_inv_lt _ hx.1)
      have k1 : phi (field_mul (field_inv (field_mul x t)) t) * phi x = 1 := by
        rw [phi_mul]
        calc phi (field_inv (field_mul x t)) * phi t * phi x
            = phi (field_inv (field_mul x t)) * (phi x * phi t) := by
              rw [mul_assoc, mul_comm (phi t) (phi x)]
          _ = 1 := by
              rw [← phi_mul]
              exact field_inv_mul (field_mul x t) hm_lt hm_ne
      exact phi_cancel _ _ (phi x) k1 (field_inv_mul x hx.1 hx.2)
    have he2 : field_mul (field_inv (field_mul x t)) x = field_inv t := by
      apply phi_inj _ _ (field_mul_lt _ _ (field_inv_lt _ hm_lt) hx.1) (field_inv_lt _ ht.1)
      have k1 : phi (field_mul (field_inv (field_mul x t)) x) * phi t = 1 := by
        rw [phi_mul]
        calc phi (field_inv (field_mul x t)) * phi x * phi t
            = phi (field_inv (field_mul x t)) * (phi x * phi t) := by
              rw [mul_assoc]
          _ = 1 := by
              rw [← phi_mul]
              exact field_inv_mul (field_mul x t) hm_lt hm_ne
      exact phi_cancel _ _ (phi t) k1 (field_inv_mul t ht.1 ht.2)
    simp only [backLoop, List.nil_append, List.cons_append]
    rw [he1, he2]
    rfl

theorem C6_theorem (xs : List Nat)
    (h : ∀ x ∈ xs, x < FIELD_MODULUS ∧ x ≠ 0) :
    field_batch_inv xs = xs.map field_inv := by
  match xs with
  | [] => rfl
  | [x] => rfl
  | x :: t :: ts =>
    show backLoop (List.reverse ((t :: ts).zip (x :: scanMul x (t :: ts))))
        (field_inv ((x :: scanMul x (t :: ts)).getLastD 0)) =
      (x :: t :: ts).map field_inv
    rw [scan_last]
    have hx := h x (by simp)
    have hall : ∀ y ∈ t :: ts, y < FIELD_MODULUS ∧ y ≠ 0 :=
      fun y hy => h y (by simp [hy])
    have hplt : (t :: ts).foldl field_mul x < FIELD_MODULUS :=
      foldl_mul_lt (t :: ts) x hx.1 (fun y hy => (hall y hy).1)
    have hpne : (t :: ts).foldl field_mul x ≠ 0 :=
      foldl_mul_ne_zero (t :: ts) x hx.1 hx.2 hall
    have hphi : phi (field_inv ((t :: ts).foldl field_mul x)) *
        phi ((t :: ts).foldl field_mul x) = 1 :=
      field_inv_mul _ hplt hpne
    have hmain := backLoop_main (t :: ts) x (field_inv ((t :: ts).foldl field_mul x)) h
      (field_inv_lt _ hplt) hphi
    rw [hmain]
    rfl

theorem C6_witness : field_batch_inv [1, 2] = List.map field_inv [1, 2] :=
  C6_theorem [1, 2] (by decide)

/-- Claim C5: the spec states that `field_cmp(a, b)` returns −1 when a < b,
0 when a = b and +1 when a > b.  The per-limb comparator
`(b_i - a_i) >> 63` misorders limbs whose difference is at least 2^63: for
the canonical field elements a = 0 and b = 2^63 (limbs (2^63, 0, 0, 0)) the
code returns 0, reporting two distinct elements equal, and for b = 2^63 + 1
it returns +1 although a < b.  The claim is a code bug; this theorem
evaluates the embedded `field_cmp` at the failing inputs. -/
theorem C5_theorem :
    field_cmp 0 (2 ^ 63) = 0 ∧ (0 : Nat) < 2 ^ 63 ∧ (2 ^ 63 : Nat) < FIELD_MODULUS ∧
    field_cmp 0 (2 ^ 63 + 1) = 1 ∧ (0 : Nat) < 2 ^ 63 + 1 := by
  constructor
  · decide
  constructor
  · decide
  constructor
  · decide
  constructor
  · decide
  · decide

/-- Claim C3 counterexample: the wire record `w0` is accepted by
`proof_parse` although its documented B region (bytes 64-191) decodes to a
G2 point that is not in the G2 subgroup (it is not even on the twist), so
the claim that parse rejects every proof whose B fails the subgroup test is
false at `w0`. -/
theorem C3_counterexample :
    proof_parse w0 ≠ none ∧ ¬ g2_in_subgroup (wire_g2_b w0) := by
  constructor
  · decide
  · decide

/-- Claim C3, amended: `proof_parse` rejects exactly the records with
version ≠ 1 or whose A point (bytes 0-63) or C point (bytes 64-127 — not
the documented 192-255) decodes off-curve; the decoded A and C always carry
`z = 1` and hence are never the point at infinity (an all-zero encoding is
caught by the curve equation), no subgroup test is performed, and the B
region is ignored entirely: every parsed proof has B set to the point at
infinity.  Subgroup failures of B therefore never cause `VERIFY_MALFORMED`;
for A and C the G1 subgroup is the full curve (cofactor 1), so the claim's
subgroup clause carries no further content there. -/
theorem C3_theorem : ∀ w : proof_wire_t,
    (proof_parse w = none ↔
      (w.version ≠ 1 ∨ point_is_on_curve (wireA w) = false ∨
        point_is_on_curve (wireC w) = false)) ∧
    point_is_infinity (wireA w) = false ∧
    point_is_infinity (wireC w) = false ∧
    (proof_parse w).all (fun pr => pr.proof_point_b == ⟨0, field_set_one, 0⟩) = true := by
  intro w
  have hA : point_is_infinity (wireA w) = false := rfl
  have hC : point_is_infinity (wireC w) = false := rfl
  refine ⟨?_, hA, hC, ?_⟩
  · simp only [proof_parse, hA, hC, Bool.not_false, Bool.true_and]
    by_cases hv : w.version ≠ 1
    · simp [hv]
    · simp only [if_neg hv]
      by_cases ha : point_is_on_curve (wireA w)
      · by_cases hc : point_is_on_curve (wireC w)
        · simp [ha, hc, hv]
        · simp only [Bool.not_eq_true] at hc
          simp [ha, hc, hv]
      · simp only [Bool.not_eq_true] at ha
        simp [ha, hv]
  · simp only [proof_parse]
    by_cases hv : w.version ≠ 1
    · simp [hv]
    · simp only [if_neg hv, hA, hC, Bool.not_false, Bool.true_and]
      by_cases ha : !point_is_on_curve (wireA w)
      · simp [ha]
      · simp only [Bool.not_eq_true'] at ha
        by_cases hc : !point_is_on_curve (wireC w)
        · simp [ha, hc]
        · simp only [Bool.not_eq_true'] at hc
          simp [ha, hc, Option.all]

/-- Claim C4: the spec (and the layout comment in `verify.h`) places A at
bytes 0-63, B at bytes 64-191 and C at bytes 192-255 of `proof_data`.  The
code instead reads C from bytes 64-127, never decodes B (it is set to the
point at infinity), and ignores bytes 128-255.  This theorem evaluates
`proof_parse` at the concrete record `w1`, whose bytes 64-127 encode (1, 2)
and whose documented C region (bytes 192-255) is all zeros: the parsed C is
the Montgomery form of (1, 2), taken from bytes 64-127, and the parsed B is
infinity although the documented B region is nonzero. -/
theorem C4_theorem :
    proof_parse w1 = some pr1 ∧
    pr1.proof_point_c.x = field_to_mont 1 ∧
    pr1.proof_point_c.y = field_to_mont 2 ∧
    (w1.proof_data.drop 192).take 32 = List.replicate 32 0 ∧
    field_to_mont (field_from_bytes ((w1.proof_data.drop 192).take 32)) = 0 ∧
    point_is_infinity pr1.proof_point_b = true ∧
    (w1.proof_data.drop 64).take 32 = be32 1 := by
  refine ⟨?_, rfl, rfl, ?_, ?_, rfl, ?_⟩
  · decide
  · decide
  · decide
  · decide

/-- Claim C1 counterexample: with the pairing back-end uninitialized and no
verification key, the well-formed wire proof `w2` (timestamp 5000) under
context `ctx1` (clock 10000, max age 3600) yields `VERIFY_EXPIRED`, not
`VERIFY_INVALID_PROOF` — the claim's "returns INVALID_PROOF" fails when a
policy check rejects first. -/
theorem C1_counterexample :
    verify_proof false (fun _ _ => false) (fun _ _ _ => 0) ctx1 w2 = VERIFY_EXPIRED ∧
    VERIFY_EXPIRED ≠ VERIFY_INVALID_PROOF ∧
    proof_parse w2 ≠ none := by
  refine ⟨?_, by decide, by decide⟩
  decide

/-- Claim C1, amended: for every pairing back-end state, Groth16 oracle,
Poseidon model, context and well-formed wire proof, if the pairing back-end
is not initialized or the context's verification key is not loaded then
`verify_proof` never returns `VERIFY_OK`; it returns `VERIFY_INVALID_PROOF`
whenever the expiry and threshold policy checks pass, `VERIFY_EXPIRED` when
the expiry check rejects, and `VERIFY_BELOW_THRESHOLD` when the expiry
check passes but the threshold check rejects.  The expiry check compares
`current_time` against the `uint32_t` sum `timestamp + max_proof_age`,
which wraps modulo `2^32`. -/
theorem C1_theorem (pinit : Bool) (g16verify : proof_t → Nat → Bool)
    (poseidonHash3 : Nat → Nat → Nat → Nat) (ctx : verify_ctx_t) (w : proof_wire_t)
    (pr : proof_t) (hfail : pinit = false ∨ ctx.has_groth16_vk = false)
    (hparse : proof_parse w = some pr) :
    verify_proof pinit g16verify poseidonHash3 ctx w ≠ VERIFY_OK ∧
    (¬ (0 < ctx.current_time ∧
        (pr.timestamp + ctx.max_proof_age) % 2 ^ 32 < ctx.current_time) →
      ¬ (pr.threshold < ctx.min_threshold) →
      verify_proof pinit g16verify poseidonHash3 ctx w = VERIFY_INVALID_PROOF) ∧
    ((0 < ctx.current_time ∧
        (pr.timestamp + ctx.max_proof_age) % 2 ^ 32 < ctx.current_time) →
      verify_proof pinit g16verify poseidonHash3 ctx w = VERIFY_EXPIRED) ∧
    (¬ (0 < ctx.current_time ∧
        (pr.timestamp + ctx.max_proof_age) % 2 ^ 32 < ctx.current_time) →
      pr.threshold < ctx.min_threshold →
      verify_proof pinit g16verify poseidonHash3 ctx w = VERIFY_BELOW_THRESHOLD) := by
  have hvp : verify_proof pinit g16verify poseidonHash3 ctx w =
      verify_proof_ex pinit g16verify poseidonHash3 ctx pr := by
    simp [verify_proof, hparse]
  have hbr : (pinit && ctx.has_groth16_vk) = false := by
    rcases hfail with h | h <;> simp [h]
  refine ⟨?_, ?_, ?_, ?_⟩
  · rw [hvp]
    simp only [verify_proof_ex, hbr, Bool.false_eq_true, if_false]
    split
    · simp
    split
    · simp
    split
    · simp
    split
    · simp
    split
    · simp
    split
    · simp
    · simp
  · intro h1 h2
    rw [hvp]
    simp only [verify_proof_ex, hbr, Bool.false_eq_true, if_false]
    rw [if_neg h1, if_neg h2]
    split
    · rfl
    split
    · rfl
    split
    · rfl
    split
    · rfl
    · rfl
  · intro h1
    rw [hvp]
    simp only [verify_proof_ex]
    rw [if_pos h1]
  · intro h1 h2
    rw [hvp]
    simp only [verify_proof_ex]
    rw [if_neg h1, if_pos h2]

/-- Witness for the amended claim C1: the concrete instantiation with the
pairing back-end off, no key loaded, policy-clean context `ctxW` and the
well-formed proof `wW`. -/
theorem C1_witness :
    verify_proof false (fun _ _ => false) (fun _ _ _ => 0) ctxW wW = VERIFY_INVALID_PROOF :=
  (C1_theorem false (fun _ _ => false) (fun _ _ _ => 0) ctxW wW prW
    (Or.inl rfl) (by decide)).2.1 (by decide) (by decide)

theorem pml_succ (i : Nat) (s : PointT × PointT) (sc : Nat) : point_mul_loop (i + 1) s sc = point_mul_loop i (ladder_step s (sc / 2 ^ i % 2)) sc := rfl

theorem ladStep0 : ladder_step ladSt0 (FIELD_R / 2 ^ 255 % 2) = ladSt1 := rfl

theorem ladStep1 : ladder_step ladSt1 (FIELD_R / 2 ^ 254 % 2) = ladSt2 := rfl

theorem ladStep2 : ladder_step ladSt2 (FIELD_R / 2 ^ 253 % 2) = ladSt3 := rfl

theorem ladStep3 : ladder_step ladSt3 (FIELD_R / 2 ^ 252 % 2) = ladSt4 := rfl

theorem ladStep4 : ladder_step ladSt4 (FIELD_R / 2 ^ 251 % 2) = ladSt5 := rfl

theorem ladStep5 : ladder_step ladSt5 (FIELD_R / 2 ^ 250 % 2) = ladSt6 := rfl

theorem ladStep6 : ladder_step ladSt6 (FIELD_R / 2 ^ 249 % 2) = ladSt7 := rfl

theorem ladStep7 : ladder_step ladSt7 (FIELD_R / 2 ^ 248 % 2) = ladSt8 := rfl

theorem ladStep8 : ladder_step ladSt8 (FIELD_R / 2 ^ 247 % 2) = ladSt9 := rfl

theorem ladStep9 : ladder_step ladSt9 (FIELD_R / 2 ^ 246 % 2) = ladSt10 := rfl

theorem ladStep10 : ladder_step ladSt10 (FIELD_R / 2 ^ 245 % 2) = ladSt11 := rfl

theorem ladStep11 : ladder_step ladSt11 (FIELD_R / 2 ^ 244 % 2) = ladSt12 := rfl

theorem ladStep12 : ladder_step ladSt12 (FIELD_R / 2 ^ 243 % 2) = ladSt13 := rfl

theorem ladStep13 : ladder_step ladSt13 (FIELD_R / 2 ^ 242 % 2) = ladSt14 := rfl

theorem ladStep14 : ladder_step ladSt14 (FIELD_R / 2 ^ 241 % 2) = ladSt15 := rfl

theorem ladStep15 : ladder_step ladSt15 (FIELD_R / 2 ^ 240 % 2) = ladSt16 := rfl

theorem ladStep16 : ladder_step ladSt16 (FIELD_R / 2 ^ 239 % 2) = ladSt17 := rfl

theorem ladStep17 : ladder_step ladSt17 (FIELD_R / 2 ^ 238 % 2) = ladSt18 := rfl

theorem ladStep18 : ladder_step ladSt18 (FIELD_R / 2 ^ 237 % 2) = ladSt19 := rfl

theorem ladStep19 : ladder_step ladSt19 (FIELD_R / 2 ^ 236 % 2) = ladSt20 := rfl

theorem ladStep20 : ladder_step ladSt20 (FIELD_R / 2 ^ 235 % 2) = ladSt21 := rfl

theorem ladStep21 : ladder_step ladSt21 (FIELD_R / 2 ^ 234 % 2) = ladSt22 := rfl

theorem ladStep22 : ladder_step ladSt22 (FIELD_R / 2 ^ 233 % 2) = ladSt23 := rfl

theorem ladStep23 : ladder_step ladSt23 (FIELD_R / 2 ^ 232 % 2) = ladSt24 := rfl

theorem ladStep24 : ladder_step ladSt24 (FIELD_R / 2 ^ 231 % 2) = ladSt25 := rfl

theorem ladStep25 : ladder_step ladSt25 (FIELD_R / 2 ^ 230 % 2) = ladSt26 := rfl

theorem ladStep26 : ladder_step ladSt26 (FIELD_R / 2 ^ 229 % 2) = ladSt27 := rfl

theorem ladStep27 : ladder_step ladSt27 (FIELD_R / 2 ^ 228 % 2) = ladSt28 := rfl

theorem ladStep28 : ladder_step ladSt28 (FIELD_R / 2 ^ 227 % 2) = ladSt29 := rfl

theorem ladStep29 : ladder_step ladSt29 (FIELD_R / 2 ^ 226 % 2) = ladSt30 := rfl

theorem ladStep30 : ladder_step ladSt30 (FIELD_R / 2 ^ 225 % 2) = ladSt31 := rfl

theorem ladStep31 : ladder_step ladSt31 (FIELD_R / 2 ^ 224 % 2) = ladSt32 := rfl

theorem ladStep32 : ladder_step ladSt32 (FIELD_R / 2 ^ 223 % 2) = ladSt33 := rfl

theorem ladStep33 : ladder_step ladSt33 (FIELD_R / 2 ^ 222 % 2) = ladSt34 := rfl

theorem ladStep34 : ladder_step ladSt34 (FIELD_R / 2 ^ 221 % 2) = ladSt35 := rfl

theorem ladStep35 : ladder_step ladSt35 (FIELD_R / 2 ^ 220 % 2) = ladSt36 := rfl

theorem ladStep36 : ladder_step ladSt36 (FIELD_R / 2 ^ 219 % 2) = ladSt37 := rfl

theorem ladStep37 : ladder_step ladSt37 (FIELD_R / 2 ^ 218 % 2) = ladSt38 := rfl

theorem ladStep38 : ladder_step ladSt38 (FIELD_R / 2 ^ 217 % 2) = ladSt39 := rfl

theorem ladStep39 : ladder_step ladSt39 (FIELD_R / 2 ^ 216 % 2) = ladSt40 := rfl

theorem ladStep40 : ladder_step ladSt40 (FIELD_R / 2 ^ 215 % 2) = ladSt41 := rfl

theorem ladStep41 : ladder_step ladSt41 (FIELD_R / 2 ^ 214 % 2) = ladSt42 := rfl

theorem ladStep42 : ladder_step ladSt42 (FIELD_R / 2 ^ 213 % 2) = ladSt43 := rfl

theorem ladStep43 : ladder_step ladSt43 (FIELD_R / 2 ^ 212 % 2) = ladSt44 := rfl

theorem ladStep44 : ladder_step ladSt44 (FIELD_R / 2 ^ 211 % 2) = ladSt45 := rfl

theorem ladStep45 : ladder_step ladSt45 (FIELD_R / 2 ^ 210 % 2) = ladSt46 := rfl

theorem ladStep46 : ladder_step ladSt46 (FIELD_R / 2 ^ 209 % 2) = ladSt47 := rfl

theorem ladStep47 : ladder_step ladSt47 (FIELD_R / 2 ^ 208 % 2) = ladSt48 := rfl

theorem ladStep48 : ladder_step ladSt48 (FIELD_R / 2 ^ 207 % 2) = ladSt49 := rfl

theorem ladStep49 : ladder_step ladSt49 (FIELD_R / 2 ^ 206 % 2) = ladSt50 := rfl

theorem ladStep50 : ladder_step ladSt50 (FIELD_R / 2 ^ 205 % 2) = ladSt51 := rfl

theorem ladStep51 : ladder_step ladSt51 (FIELD_R / 2 ^ 204 % 2) = ladSt52 := rfl

theorem ladStep52 : ladder_step ladSt52 (FIELD_R / 2 ^ 203 % 2) = ladSt53 := rfl

theorem ladStep53 : ladder_step ladSt53 (FIELD_R / 2 ^ 202 % 2) = ladSt54 := rfl

theorem ladStep54 : ladder_step ladSt54 (FIELD_R / 2 ^ 201 % 2) = ladSt55 := rfl

theorem ladStep55 : ladder_step ladSt55 (FIELD_R / 2 ^ 200 % 2) = ladSt56 := rfl

theorem ladStep56 : ladder_step ladSt56 (FIELD_R / 2 ^ 199 % 2) = ladSt57 := rfl

theorem ladStep57 : ladder_step ladSt57 (FIELD_R / 2 ^ 198 % 2) = ladSt58 := rfl

theorem ladStep58 : ladder_step ladSt58 (FIELD_R / 2 ^ 197 % 2) = ladSt59 := rfl

theorem ladStep59 : ladder_step ladSt59 (FIELD_R / 2 ^ 196 % 2) = ladSt60 := rfl

theorem ladStep60 : ladder_step ladSt60 (FIELD_R / 2 ^ 195 % 2) = ladSt61 := rfl

theorem ladStep61 : ladder_step ladSt61 (FIELD_R / 2 ^ 194 % 2) = ladSt62 := rfl

theorem ladStep62 : ladder_step ladSt62 (FIELD_R / 2 ^ 193 % 2) = ladSt63 := rfl

theorem ladStep63 : ladder_step ladSt63 (FIELD_R / 2 ^ 192 % 2) = ladSt64 := rfl

theorem ladStep64 : ladder_step ladSt64 (FIELD_R / 2 ^ 191 % 2) = ladSt65 := rfl

theorem ladStep65 : ladder_step ladSt65 (FIELD_R / 2 ^ 190 % 2) = ladSt66 := rfl

theorem ladStep66 : ladder_step ladSt66 (FIELD_R / 2 ^ 189 % 2) = ladSt67 := rfl

theorem ladStep67 : ladder_step ladSt67 (FIELD_R / 2 ^ 188 % 2) = ladSt68 := rfl

theorem ladStep68 : ladder_step ladSt68 (FIELD_R / 2 ^ 187 % 2) = ladSt69 := rfl

theorem ladStep69 : ladder_step ladSt69 (FIELD_R / 2 ^ 186 % 2) = ladSt70 := rfl

theorem ladStep70 : ladder_step ladSt70 (FIELD_R / 2 ^ 185 % 2) = ladSt71 := rfl

theorem ladStep71 : ladder_step ladSt71 (FIELD_R / 2 ^ 184 % 2) = ladSt72 := rfl

theorem ladStep72 : ladder_step ladSt72 (FIELD_R / 2 ^ 183 % 2) = ladSt73 := rfl

theorem ladStep73 : ladder_step ladSt73 (FIELD_R / 2 ^ 182 % 2) = ladSt74 := rfl

theorem ladStep74 : ladder_step ladSt74 (FIELD_R / 2 ^ 181 % 2) = ladSt75 := rfl

theorem ladStep75 : ladder_step ladSt75 (FIELD_R / 2 ^ 180 % 2) = ladSt76 := rfl

theorem ladStep76 : ladder_step ladSt76 (FIELD_R / 2 ^ 179 % 2) = ladSt77 := rfl

theorem ladStep77 : ladder_step ladSt77 (FIELD_R / 2 ^ 178 % 2) = ladSt78 := rfl

theorem ladStep78 : ladder_step ladSt78 (FIELD_R / 2 ^ 177 % 2) = ladSt79 := rfl

theorem ladStep79 : ladder_step ladSt79 (FIELD_R / 2 ^ 176 % 2) = ladSt80 := rfl

theorem ladStep80 : ladder_step ladSt80 (FIELD_R / 2 ^ 175 % 2) = ladSt81 := rfl

theorem ladStep81 : ladder_step ladSt81 (FIELD_R / 2 ^ 174 % 2) = ladSt82 := rfl

theorem ladStep82 : ladder_step ladSt82 (FIELD_R / 2 ^ 173 % 2) = ladSt83 := rfl

theorem ladStep83 : ladder_step ladSt83 (FIELD_R / 2 ^ 172 % 2) = ladSt84 := rfl

theorem ladStep84 : ladder_step ladSt84 (FIELD_R / 2 ^ 171 % 2) = ladSt85 := rfl

theorem ladStep85 : ladder_step ladSt85 (FIELD_R / 2 ^ 170 % 2) = ladSt86 := rfl

theorem ladStep86 : ladder_step ladSt86 (FIELD_R / 2 ^ 169 % 2) = ladSt87 := rfl

theorem ladStep87 : ladder_step ladSt87 (FIELD_R / 2 ^ 168 % 2) = ladSt88 := rfl

theorem ladStep88 : ladder_step ladSt88 (FIELD_R / 2 ^ 167 % 2) = ladSt89 := rfl

theorem ladStep89 : ladder_step ladSt89 (FIELD_R / 2 ^ 166 % 2) = ladSt90 := rfl

theorem ladStep90 : ladder_step ladSt90 (FIELD_R / 2 ^ 165 % 2) = ladSt91 := rfl

theorem ladStep91 : ladder_step ladSt91 (FIELD_R / 2 ^ 164 % 2) = ladSt92 := rfl

theorem ladStep92 : ladder_step ladSt92 (FIELD_R / 2 ^ 163 % 2) = ladSt93 := rfl

theorem ladStep93 : ladder_step ladSt93 (FIELD_R / 2 ^ 162 % 2) = ladSt94 := rfl

theorem ladStep94 : ladder_step ladSt94 (FIELD_R / 2 ^ 161 % 2) = ladSt95 := rfl

theorem ladStep95 : ladder_step ladSt95 (FIELD_R / 2 ^ 160 % 2) = ladSt96 := rfl

theorem ladStep96 : ladder_step ladSt96 (FIELD_R / 2 ^ 159 % 2) = ladSt97 := rfl

theorem ladStep97 : ladder_step ladSt97 (FIELD_R / 2 ^ 158 % 2) = ladSt98 := rfl

theorem ladStep98 : ladder_step ladSt98 (FIELD_R / 2 ^ 157 % 2) = ladSt99 := rfl

theorem ladStep99 : ladder_step ladSt99 (FIELD_R / 2 ^ 156 % 2) = ladSt100 := rfl

theorem ladStep100 : ladder_step ladSt100 (FIELD_R / 2 ^ 155 % 2) = ladSt101 := rfl

theorem ladStep101 : ladder_step ladSt101 (FIELD_R / 2 ^ 154 % 2) = ladSt102 := rfl

theorem ladStep102 : ladder_step ladSt102 (FIELD_R / 2 ^ 153 % 2) = ladSt103 := rfl

theorem ladStep103 : ladder_step ladSt103 (FIELD_R / 2 ^ 152 % 2) = ladSt104 := rfl

theorem ladStep104 : ladder_step ladSt104 (FIELD_R / 2 ^ 151 % 2) = ladSt105 := rfl

theorem ladStep105 : ladder_step ladSt105 (FIELD_R / 2 ^ 150 % 2) = ladSt106 := rfl

theorem ladStep106 : ladder_step ladSt106 (FIELD_R / 2 ^ 149 % 2) = ladSt107 := rfl

theorem ladStep107 : ladder_step ladSt107 (FIELD_R / 2 ^ 148 % 2) = ladSt108 := rfl

theorem ladStep108 : ladder_step ladSt108 (FIELD_R / 2 ^ 147 % 2) = ladSt109 := rfl

theorem ladStep109 : ladder_step ladSt109 (FIELD_R / 2 ^ 146 % 2) = ladSt110 := rfl

theorem ladStep110 : ladder_step ladSt110 (FIELD_R / 2 ^ 145 % 2) = ladSt111 := rfl

theorem ladStep111 : ladder_step ladSt111 (FIELD_R / 2 ^ 144 % 2) = ladSt112 := rfl

theorem ladStep112 : ladder_step ladSt112 (FIELD_R / 2 ^ 143 % 2) = ladSt113 := rfl

theorem ladStep113 : ladder_step ladSt113 (FIELD_R / 2 ^ 142 % 2) = ladSt114 := rfl

theorem ladStep114 : ladder_step ladSt114 (FIELD_R / 2 ^ 141 % 2) = ladSt115 := rfl

theorem ladStep115 : ladder_step ladSt115 (FIELD_R / 2 ^ 140 % 2) = ladSt116 := rfl

theorem ladStep116 : ladder_step ladSt116 (FIELD_R / 2 ^ 139 % 2) = ladSt117 := rfl

theorem ladStep117 : ladder_step ladSt117 (FIELD_R / 2 ^ 138 % 2) = ladSt118 := rfl

theorem ladStep118 : ladder_step ladSt118 (FIELD_R / 2 ^ 137 % 2) = ladSt119 := rfl

theorem ladStep119 : ladder_step ladSt119 (FIELD_R / 2 ^ 136 % 2) = ladSt120 := rfl

theorem ladStep120 : ladder_step ladSt120 (FIELD_R / 2 ^ 135 % 2) = ladSt121 := rfl

theorem ladStep121 : ladder_step ladSt121 (FIELD_R / 2 ^ 134 % 2) = ladSt122 := rfl

theorem ladStep122 : ladder_step ladSt122 (FIELD_R / 2 ^ 133 % 2) = ladSt123 := rfl

theorem ladStep123 : ladder_step ladSt123 (FIELD_R / 2 ^ 132 % 2) = ladSt124 := rfl

theorem ladStep124 : ladder_step ladSt124 (FIELD_R / 2 ^ 131 % 2) = ladSt125 := rfl

theorem ladStep125 : ladder_step ladSt125 (FIELD_R / 2 ^ 130 % 2) = ladSt126 := rfl

theorem ladStep126 : ladder_step ladSt126 (FIELD_R / 2 ^ 129 % 2) = ladSt127 := rfl

theorem ladStep127 : ladder_step ladSt127 (FIELD_R / 2 ^ 128 % 2) = ladSt128 := rfl

theorem ladStep128 : ladder_step ladSt128 (FIELD_R / 2 ^ 127 % 2) = ladSt129 := rfl

theorem ladStep129 : ladder_step ladSt129 (FIELD_R / 2 ^ 126 % 2) = ladSt130 := rfl

theorem ladStep130 : ladder_step ladSt130 (FIELD_R / 2 ^ 125 % 2) = ladSt131 := rfl

theorem ladStep131 : ladder_step ladSt131 (FIELD_R / 2 ^ 124 % 2) = ladSt132 := rfl

theorem ladStep132 : ladder_step ladSt132 (FIELD_R / 2 ^ 123 % 2) = ladSt133 := rfl

theorem ladStep133 : ladder_step ladSt133 (FIELD_R / 2 ^ 122 % 2) = ladSt134 := rfl

theorem ladStep134 : ladder_step ladSt134 (FIELD_R / 2 ^ 121 % 2) = ladSt135 := rfl

theorem ladStep135 : ladder_step ladSt135 (FIELD_R / 2 ^ 120 % 2) = ladSt136 := rfl

theorem ladStep136 : ladder_step ladSt136 (FIELD_R / 2 ^ 119 % 2) = ladSt137 := rfl

theorem ladStep137 : ladder_step ladSt137 (FIELD_R / 2 ^ 118 % 2) = ladSt138 := rfl

theorem ladStep138 : ladder_step ladSt138 (FIELD_R / 2 ^ 117 % 2) = ladSt139 := rfl

theorem ladStep139 : ladder_step ladSt139 (FIELD_R / 2 ^ 116 % 2) = ladSt140 := rfl

theorem ladStep140 : ladder_step ladSt140 (FIELD_R / 2 ^ 115 % 2) = ladSt141 := rfl

theorem ladStep141 : ladder_step ladSt141 (FIELD_R / 2 ^ 114 % 2) = ladSt142 := rfl

theorem ladStep142 : ladder_step ladSt142 (FIELD_R / 2 ^ 113 % 2) = ladSt143 := rfl

theorem ladStep143 : ladder_step ladSt143 (FIELD_R / 2 ^ 112 % 2) = ladSt144 := rfl

theorem ladStep144 : ladder_step ladSt144 (FIELD_R / 2 ^ 111 % 2) = ladSt145 := rfl

theorem ladStep145 : ladder_step ladSt145 (FIELD_R / 2 ^ 110 % 2) = ladSt146 := rfl

theorem ladStep146 : ladder_step ladSt146 (FIELD_R / 2 ^ 109 % 2) = ladSt147 := rfl

theorem ladStep147 : ladder_step ladSt147 (FIELD_R / 2 ^ 108 % 2) = ladSt148 := rfl

theorem ladStep148 : ladder_step ladSt148 (FIELD_R / 2 ^ 107 % 2) = ladSt149 := rfl

theorem ladStep149 : ladder_step ladSt149 (FIELD_R / 2 ^ 106 % 2) = ladSt150 := rfl

theorem ladStep150 : ladder_step ladSt150 (FIELD_R / 2 ^ 105 % 2) = ladSt151 := rfl

theorem ladStep151 : ladder_step ladSt151 (FIELD_R / 2 ^ 104 % 2) = ladSt152 := rfl

theorem ladStep152 : ladder_step ladSt152 (FIELD_R / 2 ^ 103 % 2) = ladSt153 := rfl

theorem ladStep153 : ladder_step ladSt153 (FIELD_R / 2 ^ 102 % 2) = ladSt154 := rfl

theorem ladStep154 : ladder_step ladSt154 (FIELD_R / 2 ^ 101 % 2) = ladSt155 := rfl

theorem ladStep155 : ladder_step ladSt155 (FIELD_R / 2 ^ 100 % 2) = ladSt156 := rfl

theorem ladStep156 : ladder_step ladSt156 (FIELD_R / 2 ^ 99 % 2) = ladSt157 := rfl

theorem ladStep157 : ladder_step ladSt157 (FIELD_R / 2 ^ 98 % 2) = ladSt158 := rfl

theorem ladStep158 : ladder_step ladSt158 (FIELD_R / 2 ^ 97 % 2) = ladSt159 := rfl

theorem ladStep159 : ladder_step ladSt159 (FIELD_R / 2 ^ 96 % 2) = ladSt160 := rfl

theorem ladStep160 : ladder_step ladSt160 (FIELD_R / 2 ^ 95 % 2) = ladSt161 := rfl

theorem ladStep161 : ladder_step ladSt161 (FIELD_R / 2 ^ 94 % 2) = ladSt162 := rfl

theorem ladStep162 : ladder_step ladSt162 (FIELD_R / 2 ^ 93 % 2) = ladSt163 := rfl

theorem ladStep163 : ladder_step ladSt163 (FIELD_R / 2 ^ 92 % 2) = ladSt164 := rfl

theorem ladStep164 : ladder_step ladSt164 (FIELD_R / 2 ^ 91 % 2) = ladSt165 := rfl

theorem ladStep165 : ladder_step ladSt165 (FIELD_R / 2 ^ 90 % 2) = ladSt166 := rfl

theorem ladStep166 : ladder_step ladSt166 (FIELD_R / 2 ^ 89 % 2) = ladSt167 := rfl

theorem ladStep167 : ladder_step ladSt167 (FIELD_R / 2 ^ 88 % 2) = ladSt168 := rfl

theorem ladStep168 : ladder_step ladSt168 (FIELD_R / 2 ^ 87 % 2) = ladSt169 := rfl

theorem ladStep169 : ladder_step ladSt169 (FIELD_R / 2 ^ 86 % 2) = ladSt170 := rfl

theorem ladStep170 : ladder_step ladSt170 (FIELD_R / 2 ^ 85 % 2) = ladSt171 := rfl

theorem ladStep171 : ladder_step ladSt171 (FIELD_R / 2 ^ 84 % 2) = ladSt172 := rfl

theorem ladStep172 : ladder_step ladSt172 (FIELD_R / 2 ^ 83 % 2) = ladSt173 := rfl

theorem ladStep173 : ladder_step ladSt173 (FIELD_R / 2 ^ 82 % 2) = ladSt174 := rfl

theorem ladStep174 : ladder_step ladSt174 (FIELD_R / 2 ^ 81 % 2) = ladSt175 := rfl

theorem ladStep175 : ladder_step ladSt175 (FIELD_R / 2 ^ 80 % 2) = ladSt176 := rfl

theorem ladStep176 : ladder_step ladSt176 (FIELD_R / 2 ^ 79 % 2) = ladSt177 := rfl

theorem ladStep177 : ladder_step ladSt177 (FIELD_R / 2 ^ 78 % 2) = ladSt178 := rfl

theorem ladStep178 : ladder_step ladSt178 (FIELD_R / 2 ^ 77 % 2) = ladSt179 := rfl

theorem ladStep179 : ladder_step ladSt179 (FIELD_R / 2 ^ 76 % 2) = ladSt180 := rfl

theorem ladStep180 : ladder_step ladSt180 (FIELD_R / 2 ^ 75 % 2) = ladSt181 := rfl

theorem ladStep181 : ladder_step ladSt181 (FIELD_R / 2 ^ 74 % 2) = ladSt182 := rfl

theorem ladStep182 : ladder_step ladSt182 (FIELD_R / 2 ^ 73 % 2) = ladSt183 := rfl

theorem ladStep183 : ladder_step ladSt183 (FIELD_R / 2 ^ 72 % 2) = ladSt184 := rfl

theorem ladStep184 : ladder_step ladSt184 (FIELD_R / 2 ^ 71 % 2) = ladSt185 := rfl

theorem ladStep185 : ladder_step ladSt185 (FIELD_R / 2 ^ 70 % 2) = ladSt186 := rfl

theorem ladStep186 : ladder_step ladSt186 (FIELD_R / 2 ^ 69 % 2) = ladSt187 := rfl

theorem ladStep187 : ladder_step ladSt187 (FIELD_R / 2 ^ 68 % 2) = ladSt188 := rfl

theorem ladStep188 : ladder_step ladSt188 (FIELD_R / 2 ^ 67 % 2) = ladSt189 := rfl

theorem ladStep189 : ladder_step ladSt189 (FIELD_R / 2 ^ 66 % 2) = ladSt190 := rfl

theorem ladStep190 : ladder_step ladSt190 (FIELD_R / 2 ^ 65 % 2) = ladSt191 := rfl

theorem ladStep191 : ladder_step ladSt191 (FIELD_R / 2 ^ 64 % 2) = ladSt192 := rfl

theorem ladStep192 : ladder_step ladSt192 (FIELD_R / 2 ^ 63 % 2) = ladSt193 := rfl

theorem ladStep193 : ladder_step ladSt193 (FIELD_R / 2 ^ 62 % 2) = ladSt194 := rfl

theorem ladStep194 : ladder_step ladSt194 (FIELD_R / 2 ^ 61 % 2) = ladSt195 := rfl

theorem ladStep195 : ladder_step ladSt195 (FIELD_R / 2 ^ 60 % 2) = ladSt196 := rfl

theorem ladStep196 : ladder_step ladSt196 (FIELD_R / 2 ^ 59 % 2) = ladSt197 := rfl

theorem ladStep197 : ladder_step ladSt197 (FIELD_R / 2 ^ 58 % 2) = ladSt198 := rfl

theorem ladStep198 : ladder_step ladSt198 (FIELD_R / 2 ^ 57 % 2) = ladSt199 := rfl

theorem ladStep199 : ladder_step ladSt199 (FIELD_R / 2 ^ 56 % 2) = ladSt200 := rfl

theorem ladStep200 : ladder_step ladSt200 (FIELD_R / 2 ^ 55 % 2) = ladSt201 := rfl

theorem ladStep201 : ladder_step ladSt201 (FIELD_R / 2 ^ 54 % 2) = ladSt202 := rfl

theorem ladStep202 : ladder_step ladSt202 (FIELD_R / 2 ^ 53 % 2) = ladSt203 := rfl

theorem ladStep203 : ladder_step ladSt203 (FIELD_R / 2 ^ 52 % 2) = ladSt204 := rfl

theorem ladStep204 : ladder_step ladSt204 (FIELD_R / 2 ^ 51 % 2) = ladSt205 := rfl

theorem ladStep205 : ladder_step ladSt205 (FIELD_R / 2 ^ 50 % 2) = ladSt206 := rfl

theorem ladStep206 : ladder_step ladSt206 (FIELD_R / 2 ^ 49 % 2) = ladSt207 := rfl

theorem ladStep207 : ladder_step ladSt207 (FIELD_R / 2 ^ 48 % 2) = ladSt208 := rfl

theorem ladStep208 : ladder_step ladSt208 (FIELD_R / 2 ^ 47 % 2) = ladSt209 := rfl

theorem ladStep209 : ladder_step ladSt209 (FIELD_R / 2 ^ 46 % 2) = ladSt210 := rfl

theorem ladStep210 : ladder_step ladSt210 (FIELD_R / 2 ^ 45 % 2) = ladSt211 := rfl

theorem ladStep211 : ladder_step ladSt211 (FIELD_R / 2 ^ 44 % 2) = ladSt212 := rfl

theorem ladStep212 : ladder_step ladSt212 (FIELD_R / 2 ^ 43 % 2) = ladSt213 := rfl

theorem ladStep213 : ladder_step ladSt213 (FIELD_R / 2 ^ 42 % 2) = ladSt214 := rfl

theorem ladStep214 : ladder_step ladSt214 (FIELD_R / 2 ^ 41 % 2) = ladSt215 := rfl

theorem ladStep215 : ladder_step ladSt215 (FIELD_R / 2 ^ 40 % 2) = ladSt216 := rfl

theorem ladStep216 : ladder_step ladSt216 (FIELD_R / 2 ^ 39 % 2) = ladSt217 := rfl

theorem ladStep217 : ladder_step ladSt217 (FIELD_R / 2 ^ 38 % 2) = ladSt218 := rfl

theorem ladStep218 : ladder_step ladSt218 (FIELD_R / 2 ^ 37 % 2) = ladSt219 := rfl

theorem ladStep219 : ladder_step ladSt219 (FIELD_R / 2 ^ 36 % 2) = ladSt220 := rfl

theorem ladStep220 : ladder_step ladSt220 (FIELD_R / 2 ^ 35 % 2) = ladSt221 := rfl

theorem ladStep221 : ladder_step ladSt221 (FIELD_R / 2 ^ 34 % 2) = ladSt222 := rfl

theorem ladStep222 : ladder_step ladSt222 (FIELD_R / 2 ^ 33 % 2) = ladSt223 := rfl

theorem ladStep223 : ladder_step ladSt223 (FIELD_R / 2 ^ 32 % 2) = ladSt224 := rfl

theorem ladStep224 : ladder_step ladSt224 (FIELD_R / 2 ^ 31 % 2) = ladSt225 := rfl

theorem ladStep225 : ladder_step ladSt225 (FIELD_R / 2 ^ 30 % 2) = ladSt226 := rfl

theorem ladStep226 : ladder_step ladSt226 (FIELD_R / 2 ^ 29 % 2) = ladSt227 := rfl

theorem ladStep227 : ladder_step ladSt227 (FIELD_R / 2 ^ 28 % 2) = ladSt228 := rfl

theorem ladStep228 : ladder_step ladSt228 (FIELD_R / 2 ^ 27 % 2) = ladSt229 := rfl

theorem ladStep229 : ladder_step ladSt229 (FIELD_R / 2 ^ 26 % 2) = ladSt230 := rfl

theorem ladStep230 : ladder_step ladSt230 (FIELD_R / 2 ^ 25 % 2) = ladSt231 := rfl

theorem ladStep231 : ladder_step ladSt231 (FIELD_R / 2 ^ 24 % 2) = ladSt232 := rfl

theorem ladStep232 : ladder_step ladSt232 (FIELD_R / 2 ^ 23 % 2) = ladSt233 := rfl

theorem ladStep233 : ladder_step ladSt233 (FIELD_R / 2 ^ 22 % 2) = ladSt234 := rfl

theorem ladStep234 : ladder_step ladSt234 (FIELD_R / 2 ^ 21 % 2) = ladSt235 := rfl

theorem ladStep235 : ladder_step ladSt235 (FIELD_R / 2 ^ 20 % 2) = ladSt236 := rfl

theorem ladStep236 : ladder_step ladSt236 (FIELD_R / 2 ^ 19 % 2) = ladSt237 := rfl

theorem ladStep237 : ladder_step ladSt237 (FIELD_R / 2 ^ 18 % 2) = ladSt238 := rfl

theorem ladStep238 : ladder_step ladSt238 (FIELD_R / 2 ^ 17 % 2) = ladSt239 := rfl

theorem ladStep239 : ladder_step ladSt239 (FIELD_R / 2 ^ 16 % 2) = ladSt240 := rfl

theorem ladStep240 : ladder_step ladSt240 (FIELD_R / 2 ^ 15 % 2) = ladSt241 := rfl

theorem ladStep241 : ladder_step ladSt241 (FIELD_R / 2 ^ 14 % 2) = ladSt242 := rfl

theorem ladStep242 : ladder_step ladSt242 (FIELD_R / 2 ^ 13 % 2) = ladSt243 := rfl

theorem ladStep243 : ladder_step ladSt243 (FIELD_R / 2 ^ 12 % 2) = ladSt244 := rfl

theorem ladStep244 : ladder_step ladSt244 (FIELD_R / 2 ^ 11 % 2) = ladSt245 := rfl

theorem ladStep245 : ladder_step ladSt245 (FIELD_R / 2 ^ 10 % 2) = ladSt246 := rfl

theorem ladStep246 : ladder_step ladSt246 (FIELD_R / 2 ^ 9 % 2) = ladSt247 := rfl

theorem ladStep247 : ladder_step ladSt247 (FIELD_R / 2 ^ 8 % 2) = ladSt248 := rfl

theorem ladStep248 : ladder_step ladSt248 (FIELD_R / 2 ^ 7 % 2) = ladSt249 := rfl

theorem ladStep249 : ladder_step ladSt249 (FIELD_R / 2 ^ 6 % 2) = ladSt250 := rfl

theorem ladStep250 : ladder_step ladSt250 (FIELD_R / 2 ^ 5 % 2) = ladSt251 := rfl

theorem ladStep251 : ladder_step ladSt251 (FIELD_R / 2 ^ 4 % 2) = ladSt252 := rfl

theorem ladStep252 : ladder_step ladSt252 (FIELD_R / 2 ^ 3 % 2) = ladSt253 := rfl

theorem ladStep253 : ladder_step ladSt253 (FIELD_R / 2 ^ 2 % 2) = ladSt254 := rfl

theorem ladStep254 : ladder_step ladSt254 (FIELD_R / 2 ^ 1 % 2) = ladSt255 := rfl

theorem ladStep255 : ladder_step ladSt255 (FIELD_R / 2 ^ 0 % 2) = ladSt256 := rfl

theorem ladEq0 : point_mul_loop 256 ladSt0 FIELD_R = point_mul_loop 255 ladSt1 FIELD_R := (pml_succ 255 ladSt0 FIELD_R).trans (congrArg (fun s => point_mul_loop 255 s FIELD_R) ladStep0)

theorem ladEq1 : point_mul_loop 255 ladSt1 FIELD_R = point_mul_loop 254 ladSt2 FIELD_R := (pml_succ 254 ladSt1 FIELD_R).trans (congrArg (fun s => point_mul_loop 254 s FIELD_R) ladStep1)

theorem ladEq2 : point_mul_loop 254 ladSt2 FIELD_R = point_mul_loop 253 ladSt3 FIELD_R := (pml_succ 253 ladSt2 FIELD_R).trans (congrArg (fun s => point_mul_loop 253 s FIELD_R) ladStep2)

theorem ladEq3 : point_mul_loop 253 ladSt3 FIELD_R = point_mul_loop 252 ladSt4 FIELD_R := (pml_succ 252 ladSt3 FIELD_R).trans (congrArg (fun s => point_mul_loop 252 s FIELD_R) ladStep3)

theorem ladEq4 : point_mul_loop 252 ladSt4 FIELD_R = point_mul_loop 251 ladSt5 FIELD_R := (pml_succ 251 ladSt4 FIELD_R).trans (congrArg (fun s => point_mul_loop 251 s FIELD_R) ladStep4)

theorem ladEq5 : point_mul_loop 251 ladSt5 FIELD_R = point_mul_loop 250 ladSt6 FIELD_R := (pml_succ 250 ladSt5 FIELD_R).trans (congrArg (fun s => point_mul_loop 250 s FIELD_R) ladStep5)

theorem ladEq6 : point_mul_loop 250 ladSt6 FIELD_R = point_mul_loop 249 ladSt7 FIELD_R := (pml_succ 249 ladSt6 FIELD_R).trans (congrArg (fun s => point_mul_loop 249 s FIELD_R) ladStep6)

theorem ladEq7 : point_mul_loop 249 ladSt7 FIELD_R = point_mul_loop 248 ladSt8 FIELD_R := (pml_succ 248 ladSt7 FIELD_R).trans (congrArg (fun s => point_mul_loop 248 s FIELD_R) ladStep7)

theorem ladEq8 : point_mul_loop 248 ladSt8 FIELD_R = point_mul_loop 247 ladSt9 FIELD_R := (pml_succ 247 ladSt8 FIELD_R).trans (congrArg (fun s => point_mul_loop 247 s FIELD_R) ladStep8)

theorem ladEq9 : point_mul_loop 247 ladSt9 FIELD_R = point_mul_loop 246 ladSt10 FIELD_R := (pml_succ 246 ladSt9 FIELD_R).trans (congrArg (fun s => point_mul_loop 246 s FIELD_R) ladStep9)

theorem ladEq10 : point_mul_loop 246 ladSt10 FIELD_R = point_mul_loop 245 ladSt11 FIELD_R := (pml_succ 245 ladSt10 FIELD_R).trans (congrArg (fun s => point_mul_loop 245 s FIELD_R) ladStep10)

theorem ladEq11 : point_mul_loop 245 ladSt11 FIELD_R = point_mul_loop 244 ladSt12 FIELD_R := (pml_succ 244 ladSt11 FIELD_R).trans (congrArg (fun s => point_mul_loop 244 s FIELD_R) ladStep11)

theorem ladEq12 : point_mul_loop 244 ladSt12 FIELD_R = point_mul_loop 243 ladSt13 FIELD_R := (pml_succ 243 ladSt12 FIELD_R).trans (congrArg (fun s => point_mul_loop 243 s FIELD_R) ladStep12)

theorem ladEq13 : point_mul_loop 243 ladSt13 FIELD_R = point_mul_loop 242 ladSt14 FIELD_R := (pml_succ 242 ladSt13 FIELD_R).trans (congrArg (fun s => point_mul_loop 242 s FIELD_R) ladStep13)

theorem ladEq14 : point_mul_loop 242 ladSt14 FIELD_R = point_mul_loop 241 ladSt15 FIELD_R := (pml_succ 241 ladSt14 FIELD_R).trans (congrArg (fun s => point_mul_loop 241 s FIELD_R) ladStep14)

theorem ladEq15 : point_mul_loop 241 ladSt15 FIELD_R = point_mul_loop 240 ladSt16 FIELD_R := (pml_succ 240 ladSt15 FIELD_R).trans (congrArg (fun s => point_mul_loop 240 s FIELD_R) ladStep15)

theorem ladEq16 : point_mul_loop 240 ladSt16 FIELD_R = point_mul_loop 239 ladSt17 FIELD_R := (pml_succ 239 ladSt16 FIELD_R).trans (congrArg (fun s => point_mul_loop 239 s FIELD_R) ladStep16)

theorem ladEq17 : point_mul_loop 239 ladSt17 FIELD_R = point_mul_loop 238 ladSt18 FIELD_R := (pml_succ 238 ladSt17 FIELD_R).trans (congrArg (fun s => point_mul_loop 238 s FIELD_R) ladStep17)

theorem ladEq18 : point_mul_loop 238 ladSt18 FIELD_R = point_mul_loop 237 ladSt19 FIELD_R := (pml_succ 237 ladSt18 FIELD_R).trans (congrArg (fun s => point_mul_loop 237 s FIELD_R) ladStep18)

theorem ladEq19 : point_mul_loop 237 ladSt19 FIELD_R = point_mul_loop 236 ladSt20 FIELD_R := (pml_succ 236 ladSt19 FIELD_R).trans (congrArg (fun s => point_mul_loop 236 s FIELD_R) ladStep19)

theorem ladEq20 : point_mul_loop 236 ladSt20 FIELD_R = point_mul_loop 235 ladSt21 FIELD_R := (pml_succ 235 ladSt20 FIELD_R).trans (congrArg (fun s => point_mul_loop 235 s FIELD_R) ladStep20)

theorem ladEq21 : point_mul_loop 235 ladSt21 FIELD_R = point_mul_loop 234 ladSt22 FIELD_R := (pml_succ 234 ladSt21 FIELD_R).trans (congrArg (fun s => point_mul_loop 234 s FIELD_R) ladStep21)

theorem ladEq22 : point_mul_loop 234 ladSt22 FIELD_R = point_mul_loop 233 ladSt23 FIELD_R := (pml_succ 233 ladSt22 FIELD_R).trans (congrArg (fun s => point_mul_loop 233 s FIELD_R) ladStep22)

theorem ladEq23 : point_mul_loop 233 ladSt23 FIELD_R = point_mul_loop 232 ladSt24 FIELD_R := (pml_succ 232 ladSt23 FIELD_R).trans (congrArg (fun s => point_mul_loop 232 s FIELD_R) ladStep23)

theorem ladEq24 : point_mul_loop 232 ladSt24 FIELD_R = point_mul_loop 231 ladSt25 FIELD_R := (pml_succ 231 ladSt24 FIELD_R).trans (congrArg (fun s => point_mul_loop 231 s FIELD_R) ladStep24)

theorem ladEq25 : point_mul_loop 231 ladSt25 FIELD_R = point_mul_loop 230 ladSt26 FIELD_R := (pml_succ 230 ladSt25 FIELD_R).trans (congrArg (fun s => point_mul_loop 230 s FIELD_R) ladStep25)

theorem ladEq26 : point_mul_loop 230 ladSt26 FIELD_R = point_mul_loop 229 ladSt27 FIELD_R := (pml_succ 229 ladSt26 FIELD_R).trans (congrArg (fun s => point_mul_loop 229 s FIELD_R) ladStep26)

theorem ladEq27 : point_mul_loop 229 ladSt27 FIELD_R = point_mul_loop 228 ladSt28 FIELD_R := (pml_succ 228 ladSt27 FIELD_R).trans (congrArg (fun s => point_mul_loop 228 s FIELD_R) ladStep27)

theorem ladEq28 : point_mul_loop 228 ladSt28 FIELD_R = point_mul_loop 227 ladSt29 FIELD_R := (pml_succ 227 ladSt28 FIELD_R).trans (congrArg (fun s => point_mul_loop 227 s FIELD_R) ladStep28)

theorem ladEq29 : point_mul_loop 227 ladSt29 FIELD_R = point_mul_loop 226 ladSt30 FIELD_R := (pml_succ 226 ladSt29 FIELD_R).trans (congrArg (fun s => point_mul_loop 226 s FIELD_R) ladStep29)

theorem ladEq30 : point_mul_loop 226 ladSt30 FIELD_R = point_mul_loop 225 ladSt31 FIELD_R := (pml_succ 225 ladSt30 FIELD_R).trans (congrArg (fun s => point_mul_loop 225 s FIELD_R) ladStep30)

theorem ladEq31 : point_mul_loop 225 ladSt31 FIELD_R = point_mul_loop 224 ladSt32 FIELD_R := (pml_succ 224 ladSt31 FIELD_R).trans (congrArg (fun s => point_mul_loop 224 s FIELD_R) ladStep31)

theorem ladEq32 : point_mul_loop 224 ladSt32 FIELD_R = point_mul_loop 223 ladSt33 FIELD_R := (pml_succ 223 ladSt32 FIELD_R).trans (congrArg (fun s => point_mul_loop 223 s FIELD_R) ladStep32)

theorem ladEq33 : point_mul_loop 223 ladSt33 FIELD_R = point_mul_loop 222 ladSt34 FIELD_R := (pml_succ 222 ladSt33 FIELD_R).trans (congrArg (fun s => point_mul_loop 222 s FIELD_R) ladStep33)

theorem ladEq34 : point_mul_loop 222 ladSt34 FIELD_R = point_mul_loop 221 ladSt35 FIELD_R := (pml_succ 221 ladSt34 FIELD_R).trans (congrArg (fun s => point_mul_loop 221 s FIELD_R) ladStep34)

theorem ladEq35 : point_mul_loop 221 ladSt35 FIELD_R = point_mul_loop 220 ladSt36 FIELD_R := (pml_succ 220 ladSt35 FIELD_R).trans (congrArg (fun s => point_mul_loop 220 s FIELD_R) ladStep35)

theorem ladEq36 : point_mul_loop 220 ladSt36 FIELD_R = point_mul_loop 219 ladSt37 FIELD_R := (pml_succ 219 ladSt36 FIELD_R).trans (congrArg (fun s => point_mul_loop 219 s FIELD_R) ladStep36)

theorem ladEq37 : point_mul_loop 219 ladSt37 FIELD_R = point_mul_loop 218 ladSt38 FIELD_R := (pml_succ 218 ladSt37 FIELD_R).trans (congrArg (fun s => point_mul_loop 218 s FIELD_R) ladStep37)

theorem ladEq38 : point_mul_loop 218 ladSt38 FIELD_R = point_mul_loop 217 ladSt39 FIELD_R := (pml_succ 217 ladSt38 FIELD_R).trans (congrArg (fun s => point_mul_loop 217 s FIELD_R) ladStep38)

theorem ladEq39 : point_mul_loop 217 ladSt39 FIELD_R = point_mul_loop 216 ladSt40 FIELD_R := (pml_succ 216 ladSt39 FIELD_R).trans (congrArg (fun s => point_mul_loop 216 s FIELD_R) ladStep39)

theorem ladEq40 : point_mul_loop 216 ladSt40 FIELD_R = point_mul_loop 215 ladSt41 FIELD_R := (pml_succ 215 ladSt40 FIELD_R).trans (congrArg (fun s => point_mul_loop 215 s FIELD_R) ladStep40)

theorem ladEq41 : point_mul_loop 215 ladSt41 FIELD_R = point_mul_loop 214 ladSt42 FIELD_R := (pml_succ 214 ladSt41 FIELD_R).trans (congrArg (fun s => point_mul_loop 214 s FIELD_R) ladStep41)

theorem ladEq42 : point_mul_loop 214 ladSt42 FIELD_R = point_mul_loop 213 ladSt43 FIELD_R := (pml_succ 213 ladSt42 FIELD_R).trans (congrArg (fun s => point_mul_loop 213 s FIELD_R) ladStep42)

theorem ladEq43 : point_mul_loop 213 ladSt43 FIELD_R = point_mul_loop 212 ladSt44 FIELD_R := (pml_succ 212 ladSt43 FIELD_R).trans (congrArg (fun s => point_mul_loop 212 s FIELD_R) ladStep43)

theorem ladEq44 : point_mul_loop 212 ladSt44 FIELD_R = point_mul_loop 211 ladSt45 FIELD_R := (pml_succ 211 ladSt44 FIELD_R).trans (congrArg (fun s => point_mul_loop 211 s FIELD_R) ladStep44)

theorem ladEq45 : point_mul_loop 211 ladSt45 FIELD_R = point_mul_loop 210 ladSt46 FIELD_R := (pml_succ 210 ladSt45 FIELD_R).trans (congrArg (fun s => point_mul_loop 210 s FIELD_R) ladStep45)

theorem ladEq46 : point_mul_loop 210 ladSt46 FIELD_R = point_mul_loop 209 ladSt47 FIELD_R := (pml_succ 209 ladSt46 FIELD_R).trans (congrArg (fun s => point_mul_loop 209 s FIELD_R) ladStep46)

theorem ladEq47 : point_mul_loop 209 ladSt47 FIELD_R = point_mul_loop 208 ladSt48 FIELD_R := (pml_succ 208 ladSt47 FIELD_R).trans (congrArg (fun s => point_mul_loop 208 s FIELD_R) ladStep47)

theorem ladEq48 : point_mul_loop 208 ladSt48 FIELD_R = point_mul_loop 207 ladSt49 FIELD_R := (pml_succ 207 ladSt48 FIELD_R).trans (congrArg (fun s => point_mul_loop 207 s FIELD_R) ladStep48)

theorem ladEq49 : point_mul_loop 207 ladSt49 FIELD_R = point_mul_loop 206 ladSt50 FIELD_R := (pml_succ 206 ladSt49 FIELD_R).trans (congrArg (fun s => point_mul_loop 206 s FIELD_R) ladStep49)

theorem ladEq50 : point_mul_loop 206 ladSt50 FIELD_R = point_mul_loop 205 ladSt51 FIELD_R := (pml_succ 205 ladSt50 FIELD_R).trans (congrArg (fun s => point_mul_loop 205 s FIELD_R) ladStep50)

theorem ladEq51 : point_mul_loop 205 ladSt51 FIELD_R = point_mul_loop 204 ladSt52 FIELD_R := (pml_succ 204 ladSt51 FIELD_R).trans (congrArg (fun s => point_mul_loop 204 s FIELD_R) ladStep51)

theorem ladEq52 : point_mul_loop 204 ladSt52 FIELD_R = point_mul_loop 203 ladSt53 FIELD_R := (pml_succ 203 ladSt52 FIELD_R).trans (congrArg (fun s => point_mul_loop 203 s FIELD_R) ladStep52)

theorem ladEq53 : point_mul_loop 203 ladSt53 FIELD_R = point_mul_loop 202 ladSt54 FIELD_R := (pml_succ 202 ladSt53 FIELD_R).trans (congrArg (fun s => point_mul_loop 202 s FIELD_R) ladStep53)

theorem ladEq54 : point_mul_loop 202 ladSt54 FIELD_R = point_mul_loop 201 ladSt55 FIELD_R := (pml_succ 201 ladSt54 FIELD_R).trans (congrArg (fun s => point_mul_loop 201 s FIELD_R) ladStep54)

theorem ladEq55 : point_mul_loop 201 ladSt55 FIELD_R = point_mul_loop 200 ladSt56 FIELD_R := (pml_succ 200 ladSt55 FIELD_R).trans (congrArg (fun s => point_mul_loop 200 s FIELD_R) ladStep55)

theorem ladEq56 : point_mul_loop 200 ladSt56 FIELD_R = point_mul_loop 199 ladSt57 FIELD_R := (pml_succ 199 ladSt56 FIELD_R).trans (congrArg (fun s => point_mul_loop 199 s FIELD_R) ladStep56)

theorem ladEq57 : point_mul_loop 199 ladSt57 FIELD_R = point_mul_loop 198 ladSt58 FIELD_R := (pml_succ 198 ladSt57 FIELD_R).trans (congrArg (fun s => point_mul_loop 198 s FIELD_R) ladStep57)

theorem ladEq58 : point_mul_loop 198 ladSt58 FIELD_R = point_mul_loop 197 ladSt59 FIELD_R := (pml_succ 197 ladSt58 FIELD_R).trans (congrArg (fun s => point_mul_loop 197 s FIELD_R) ladStep58)

theorem ladEq59 : point_mul_loop 197 ladSt59 FIELD_R = point_mul_loop 196 ladSt60 FIELD_R := (pml_succ 196 ladSt59 FIELD_R).trans (congrArg (fun s => point_mul_loop 196 s FIELD_R) ladStep59)

theorem ladEq60 : point_mul_loop 196 ladSt60 FIELD_R = point_mul_loop 195 ladSt61 FIELD_R := (pml_succ 195 ladSt60 FIELD_R).trans (congrArg (fun s => point_mul_loop 195 s FIELD_R) ladStep60)

theorem ladEq61 : point_mul_loop 195 ladSt61 FIELD_R = point_mul_loop 194 ladSt62 FIELD_R := (pml_succ 194 ladSt61 FIELD_R).trans (congrArg (fun s => point_mul_loop 194 s FIELD_R) ladStep61)

theorem ladEq62 : point_mul_loop 194 ladSt62 FIELD_R = point_mul_loop 193 ladSt63 FIELD_R := (pml_succ 193 ladSt62 FIELD_R).trans (congrArg (fun s => point_mul_loop 193 s FIELD_R) ladStep62)

theorem ladEq63 : point_mul_loop 193 ladSt63 FIELD_R = point_mul_loop 192 ladSt64 FIELD_R := (pml_succ 192 ladSt63 FIELD_R).trans (congrArg (fun s => point_mul_loop 192 s FIELD_R) ladStep63)

theorem ladEq64 : point_mul_loop 192 ladSt64 FIELD_R = point_mul_loop 191 ladSt65 FIELD_R := (pml_succ 191 ladSt64 FIELD_R).trans (congrArg (fun s => point_mul_loop 191 s FIELD_R) ladStep64)

theorem ladEq65 : point_mul_loop 191 ladSt65 FIELD_R = point_mul_loop 190 ladSt66 FIELD_R := (pml_succ 190 ladSt65 FIELD_R).trans (congrArg (fun s => point_mul_loop 190 s FIELD_R) ladStep65)

theorem ladEq66 : point_mul_loop 190 ladSt66 FIELD_R = point_mul_loop 189 ladSt67 FIELD_R := (pml_succ 189 ladSt66 FIELD_R).trans (congrArg (fun s => point_mul_loop 189 s FIELD_R) ladStep66)

theorem ladEq67 : point_mul_loop 189 ladSt67 FIELD_R = point_mul_loop 188 ladSt68 FIELD_R := (pml_succ 188 ladSt67 FIELD_R).trans (congrArg (fun s => point_mul_loop 188 s FIELD_R) ladStep67)

theorem ladEq68 : point_mul_loop 188 ladSt68 FIELD_R = point_mul_loop 187 ladSt69 FIELD_R := (pml_succ 187 ladSt68 FIELD_R).trans (congrArg (fun s => point_mul_loop 187 s FIELD_R) ladStep68)

theorem ladEq69 : point_mul_loop 187 ladSt69 FIELD_R = point_mul_loop 186 ladSt70 FIELD_R := (pml_succ 186 ladSt69 FIELD_R).trans (congrArg (fun s => point_mul_loop 186 s FIELD_R) ladStep69)

theorem ladEq70 : point_mul_loop 186 ladSt70 FIELD_R = point_mul_loop 185 ladSt71 FIELD_R := (pml_succ 185 ladSt70 FIELD_R).trans (congrArg (fun s => point_mul_loop 185 s FIELD_R) ladStep70)

theorem ladEq71 : point_mul_loop 185 ladSt71 FIELD_R = point_mul_loop 184 ladSt72 FIELD_R := (pml_succ 184 ladSt71 FIELD_R).trans (congrArg (fun s => point_mul_loop 184 s FIELD_R) ladStep71)

theorem ladEq72 : point_mul_loop 184 ladSt72 FIELD_R = point_mul_loop 183 ladSt73 FIELD_R := (pml_succ 183 ladSt72 FIELD_R).trans (congrArg (fun s => point_mul_loop 183 s FIELD_R) ladStep72)

theorem ladEq73 : point_mul_loop 183 ladSt73 FIELD_R = point_mul_loop 182 ladSt74 FIELD_R := (pml_succ 182 ladSt73 FIELD_R).trans (congrArg (fun s => point_mul_loop 182 s FIELD_R) ladStep73)

theorem ladEq74 : point_mul_loop 182 ladSt74 FIELD_R = point_mul_loop 181 ladSt75 FIELD_R := (pml_succ 181 ladSt74 FIELD_R).trans (congrArg (fun s => point_mul_loop 181 s FIELD_R) ladStep74)

theorem ladEq75 : point_mul_loop 181 ladSt75 FIELD_R = point_mul_loop 180 ladSt76 FIELD_R := (pml_succ 180 ladSt75 FIELD_R).trans (congrArg (fun s => point_mul_loop 180 s FIELD_R) ladStep75)

theorem ladEq76 : point_mul_loop 180 ladSt76 FIELD_R = point_mul_loop 179 ladSt77 FIELD_R := (pml_succ 179 ladSt76 FIELD_R).trans (congrArg (fun s => point_mul_loop 179 s FIELD_R) ladStep76)

theorem ladEq77 : point_mul_loop 179 ladSt77 FIELD_R = point_mul_loop 178 ladSt78 FIELD_R := (pml_succ 178 ladSt77 FIELD_R).trans (congrArg (fun s => point_mul_loop 178 s FIELD_R) ladStep77)

theorem ladEq78 : point_mul_loop 178 ladSt78 FIELD_R = point_mul_loop 177 ladSt79 FIELD_R := (pml_succ 177 ladSt78 FIELD_R).trans (congrArg (fun s => point_mul_loop 177 s FIELD_R) ladStep78)

theorem ladEq79 : point_mul_loop 177 ladSt79 FIELD_R = point_mul_loop 176 ladSt80 FIELD_R := (pml_succ 176 ladSt79 FIELD_R).trans (congrArg (fun s => point_mul_loop 176 s FIELD_R) ladStep79)

theorem ladEq80 : point_mul_loop 176 ladSt80 FIELD_R = point_mul_loop 175 ladSt81 FIELD_R := (pml_succ 175 ladSt80 FIELD_R).trans (congrArg (fun s => point_mul_loop 175 s FIELD_R) ladStep80)

theorem ladEq81 : point_mul_loop 175 ladSt81 FIELD_R = point_mul_loop 174 ladSt82 FIELD_R := (pml_succ 174 ladSt81 FIELD_R).trans (congrArg (fun s => point_mul_loop 174 s FIELD_R) ladStep81)

theorem ladEq82 : point_mul_loop 174 ladSt82 FIELD_R = point_mul_loop 173 ladSt83 FIELD_R := (pml_succ 173 ladSt82 FIELD_R).trans (congrArg (fun s => point_mul_loop 173 s FIELD_R) ladStep82)

theorem ladEq83 : point_mul_loop 173 ladSt83 FIELD_R = point_mul_loop 172 ladSt84 FIELD_R := (pml_succ 172 ladSt83 FIELD_R).trans (congrArg (fun s => point_mul_loop 172 s FIELD_R) ladStep83)

theorem ladEq84 : point_mul_loop 172 ladSt84 FIELD_R = point_mul_loop 171 ladSt85 FIELD_R := (pml_succ 171 ladSt84 FIELD_R).trans (congrArg (fun s => point_mul_loop 171 s FIELD_R) ladStep84)

theorem ladEq85 : point_mul_loop 171 ladSt85 FIELD_R = point_mul_loop 170 ladSt86 FIELD_R := (pml_succ 170 ladSt85 FIELD_R).trans (congrArg (fun s => point_mul_loop 170 s FIELD_R) ladStep85)

theorem ladEq86 : point_mul_loop 170 ladSt86 FIELD_R = point_mul_loop 169 ladSt87 FIELD_R := (pml_succ 169 ladSt86 FIELD_R).trans (congrArg (fun s => point_mul_loop 169 s FIELD_R) ladStep86)

theorem ladEq87 : point_mul_loop 169 ladSt87 FIELD_R = point_mul_loop 168 ladSt88 FIELD_R := (pml_succ 168 ladSt87 FIELD_R).trans (congrArg (fun s => point_mul_loop 168 s FIELD_R) ladStep87)

theorem ladEq88 : point_mul_loop 168 ladSt88 FIELD_R = point_mul_loop 167 ladSt89 FIELD_R := (pml_succ 167 ladSt88 FIELD_R).trans (congrArg (fun s => point_mul_loop 167 s FIELD_R) ladStep88)

theorem ladEq89 : point_mul_loop 167 ladSt89 FIELD_R = point_mul_loop 166 ladSt90 FIELD_R := (pml_succ 166 ladSt89 FIELD_R).trans (congrArg (fun s => point_mul_loop 166 s FIELD_R) ladStep89)

theorem ladEq90 : point_mul_loop 166 ladSt90 FIELD_R = point_mul_loop 165 ladSt91 FIELD_R := (pml_succ 165 ladSt90 FIELD_R).trans (congrArg (fun s => point_mul_loop 165 s FIELD_R) ladStep90)

theorem ladEq91 : point_mul_loop 165 ladSt91 FIELD_R = point_mul_loop 164 ladSt92 FIELD_R := (pml_succ 164 ladSt91 FIELD_R).trans (congrArg (fun s => point_mul_loop 164 s FIELD_R) ladStep91)

theorem ladEq92 : point_mul_loop 164 ladSt92 FIELD_R = point_mul_loop 163 ladSt93 FIELD_R := (pml_succ 163 ladSt92 FIELD_R).trans (congrArg (fun s => point_mul_loop 163 s FIELD_R) ladStep92)

theorem ladEq93 : point_mul_loop 163 ladSt93 FIELD_R = point_mul_loop 162 ladSt94 FIELD_R := (pml_succ 162 ladSt93 FIELD_R).trans (congrArg (fun s => point_mul_loop 162 s FIELD_R) ladStep93)

theorem ladEq94 : point_mul_loop 162 ladSt94 FIELD_R = point_mul_loop 161 ladSt95 FIELD_R := (pml_succ 161 ladSt94 FIELD_R).trans (congrArg (fun s => point_mul_loop 161 s FIELD_R) ladStep94)

theorem ladEq95 : point_mul_loop 161 ladSt95 FIELD_R = point_mul_loop 160 ladSt96 FIELD_R := (pml_succ 160 ladSt95 FIELD_R).trans (congrArg (fun s => point_mul_loop 160 s FIELD_R) ladStep95)

theorem ladEq96 : point_mul_loop 160 ladSt96 FIELD_R = point_mul_loop 159 ladSt97 FIELD_R := (pml_succ 159 ladSt96 FIELD_R).trans (congrArg (fun s => point_mul_loop 159 s FIELD_R) ladStep96)

theorem ladEq97 : point_mul_loop 159 ladSt97 FIELD_R = point_mul_loop 158 ladSt98 FIELD_R := (pml_succ 158 ladSt97 FIELD_R).trans (congrArg (fun s => point_mul_loop 158 s FIELD_R) ladStep97)

theorem ladEq98 : point_mul_loop 158 ladSt98 FIELD_R = point_mul_loop 157 ladSt99 FIELD_R := (pml_succ 157 ladSt98 FIELD_R).trans (congrArg (fun s => point_mul_loop 157 s FIELD_R) ladStep98)

theorem ladEq99 : point_mul_loop 157 ladSt99 FIELD_R = point_mul_loop 156 ladSt100 FIELD_R := (pml_succ 156 ladSt99 FIELD_R).trans (congrArg (fun s => point_mul_loop 156 s FIELD_R) ladStep99)

theorem ladEq100 : point_mul_loop 156 ladSt100 FIELD_R = point_mul_loop 155 ladSt101 FIELD_R := (pml_succ 155 ladSt100 FIELD_R).trans (congrArg (fun s => point_mul_loop 155 s FIELD_R) ladStep100)

theorem ladEq101 : point_mul_loop 155 ladSt101 FIELD_R = point_mul_loop 154 ladSt102 FIELD_R := (pml_succ 154 ladSt101 FIELD_R).trans (congrArg (fun s => point_mul_loop 154 s FIELD_R) ladStep101)

theorem ladEq102 : point_mul_loop 154 ladSt102 FIELD_R = point_mul_loop 153 ladSt103 FIELD_R := (pml_succ 153 ladSt102 FIELD_R).trans (congrArg (fun s => point_mul_loop 153 s FIELD_R) ladStep102)

theorem ladEq103 : point_mul_loop 153 ladSt103 FIELD_R = point_mul_loop 152 ladSt104 FIELD_R := (pml_succ 152 ladSt103 FIELD_R).trans (congrArg (fun s => point_mul_loop 152 s FIELD_R) ladStep103)

theorem ladEq104 : point_mul_loop 152 ladSt104 FIELD_R = point_mul_loop 151 ladSt105 FIELD_R := (pml_succ 151 ladSt104 FIELD_R).trans (congrArg (fun s => point_mul_loop 151 s FIELD_R) ladStep104)

theorem ladEq105 : point_mul_loop 151 ladSt105 FIELD_R = point_mul_loop 150 ladSt106 FIELD_R := (pml_succ 150 ladSt105 FIELD_R).trans (congrArg (fun s => point_mul_loop 150 s FIELD_R) ladStep105)

theorem ladEq106 : point_mul_loop 150 ladSt106 FIELD_R = point_mul_loop 149 ladSt107 FIELD_R := (pml_succ 149 ladSt106 FIELD_R).trans (congrArg (fun s => point_mul_loop 149 s FIELD_R) ladStep106)

theorem ladEq107 : point_mul_loop 149 ladSt107 FIELD_R = point_mul_loop 148 ladSt108 FIELD_R := (pml_succ 148 ladSt107 FIELD_R).trans (congrArg (fun s => point_mul_loop 148 s FIELD_R) ladStep107)

theorem ladEq108 : point_mul_loop 148 ladSt108 FIELD_R = point_mul_loop 147 ladSt109 FIELD_R := (pml_succ 147 ladSt108 FIELD_R).trans (congrArg (fun s => point_mul_loop 147 s FIELD_R) ladStep108)

theorem ladEq109 : point_mul_loop 147 ladSt109 FIELD_R = point_mul_loop 146 ladSt110 FIELD_R := (pml_succ 146 ladSt109 FIELD_R).trans (congrArg (fun s => point_mul_loop 146 s FIELD_R) ladStep109)

theorem ladEq110 : point_mul_loop 146 ladSt110 FIELD_R = point_mul_loop 145 ladSt111 FIELD_R := (pml_succ 145 ladSt110 FIELD_R).trans (congrArg (fun s => point_mul_loop 145 s FIELD_R) ladStep110)

theorem ladEq111 : point_mul_loop 145 ladSt111 FIELD_R = point_mul_loop 144 ladSt112 FIELD_R := (pml_succ 144 ladSt111 FIELD_R).trans (congrArg (fun s => point_mul_loop 144 s FIELD_R) ladStep111)

theorem ladEq112 : point_mul_loop 144 ladSt112 FIELD_R = point_mul_loop 143 ladSt113 FIELD_R := (pml_succ 143 ladSt112 FIELD_R).trans (congrArg (fun s => point_mul_loop 143 s FIELD_R) ladStep112)

theorem ladEq113 : point_mul_loop 143 ladSt113 FIELD_R = point_mul_loop 142 ladSt114 FIELD_R := (pml_succ 142 ladSt113 FIELD_R).trans (congrArg (fun s => point_mul_loop 142 s FIELD_R) ladStep113)

theorem ladEq114 : point_mul_loop 142 ladSt114 FIELD_R = point_mul_loop 141 ladSt115 FIELD_R := (pml_succ 141 ladSt114 FIELD_R).trans (congrArg (fun s => point_mul_loop 141 s FIELD_R) ladStep114)

theorem ladEq115 : point_mul_loop 141 ladSt115 FIELD_R = point_mul_loop 140 ladSt116 FIELD_R := (pml_succ 140 ladSt115 FIELD_R).trans (congrArg (fun s => point_mul_loop 140 s FIELD_R) ladStep115)

theorem ladEq116 : point_mul_loop 140 ladSt116 FIELD_R = point_mul_loop 139 ladSt117 FIELD_R := (pml_succ 139 ladSt116 FIELD_R).trans (congrArg (fun s => point_mul_loop 139 s FIELD_R) ladStep116)

theorem ladEq117 : point_mul_loop 139 ladSt117 FIELD_R = point_mul_loop 138 ladSt118 FIELD_R := (pml_succ 138 ladSt117 FIELD_R).trans (congrArg (fun s => point_mul_loop 138 s FIELD_R) ladStep117)

theorem ladEq118 : point_mul_loop 138 ladSt118 FIELD_R = point_mul_loop 137 ladSt119 FIELD_R := (pml_succ 137 ladSt118 FIELD_R).trans (congrArg (fun s => point_mul_loop 137 s FIELD_R) ladStep118)

theorem ladEq119 : point_mul_loop 137 ladSt119 FIELD_R = point_mul_loop 136 ladSt120 FIELD_R := (pml_succ 136 ladSt119 FIELD_R).trans (congrArg (fun s => point_mul_loop 136 s FIELD_R) ladStep119)

theorem ladEq120 : point_mul_loop 136 ladSt120 FIELD_R = point_mul_loop 135 ladSt121 FIELD_R := (pml_succ 135 ladSt120 FIELD_R).trans (congrArg (fun s => point_mul_loop 135 s FIELD_R) ladStep120)

theorem ladEq121 : point_mul_loop 135 ladSt121 FIELD_R = point_mul_loop 134 ladSt122 FIELD_R := (pml_succ 134 ladSt121 FIELD_R).trans (congrArg (fun s => point_mul_loop 134 s FIELD_R) ladStep121)

theorem ladEq122 : point_mul_loop 134 ladSt122 FIELD_R = point_mul_loop 133 ladSt123 FIELD_R := (pml_succ 133 ladSt122 FIELD_R).trans (congrArg (fun s => point_mul_loop 133 s FIELD_R) ladStep122)

theorem ladEq123 : point_mul_loop 133 ladSt123 FIELD_R = point_mul_loop 132 ladSt124 FIELD_R := (pml_succ 132 ladSt123 FIELD_R).trans (congrArg (fun s => point_mul_loop 132 s FIELD_R) ladStep123)

theorem ladEq124 : point_mul_loop 132 ladSt124 FIELD_R = point_mul_loop 131 ladSt125 FIELD_R := (pml_succ 131 ladSt124 FIELD_R).trans (congrArg (fun s => point_mul_loop 131 s FIELD_R) ladStep124)

theorem ladEq125 : point_mul_loop 131 ladSt125 FIELD_R = point_mul_loop 130 ladSt126 FIELD_R := (pml_succ 130 ladSt125 FIELD_R).trans (congrArg (fun s => point_mul_loop 130 s FIELD_R) ladStep125)

theorem ladEq126 : point_mul_loop 130 ladSt126 FIELD_R = point_mul_loop 129 ladSt127 FIELD_R := (pml_succ 129 ladSt126 FIELD_R).trans (congrArg (fun s => point_mul_loop 129 s FIELD_R) ladStep126)

theorem ladEq127 : point_mul_loop 129 ladSt127 FIELD_R = point_mul_loop 128 ladSt128 FIELD_R := (pml_succ 128 ladSt127 FIELD_R).trans (congrArg (fun s => point_mul_loop 128 s FIELD_R) ladStep127)

theorem ladEq128 : point_mul_loop 128 ladSt128 FIELD_R = point_mul_loop 127 ladSt129 FIELD_R := (pml_succ 127 ladSt128 FIELD_R).trans (congrArg (fun s => point_mul_loop 127 s FIELD_R) ladStep128)

theorem ladEq129 : point_mul_loop 127 ladSt129 FIELD_R = point_mul_loop 126 ladSt130 FIELD_R := (pml_succ 126 ladSt129 FIELD_R).trans (congrArg (fun s => point_mul_loop 126 s FIELD_R) ladStep129)

theorem ladEq130 : point_mul_loop 126 ladSt130 FIELD_R = point_mul_loop 125 ladSt131 FIELD_R := (pml_succ 125 ladSt130 FIELD_R).trans (congrArg (fun s => point_mul_loop 125 s FIELD_R) ladStep130)

theorem ladEq131 : point_mul_loop 125 ladSt131 FIELD_R = point_mul_loop 124 ladSt132 FIELD_R := (pml_succ 124 ladSt131 FIELD_R).trans (congrArg (fun s => point_mul_loop 124 s FIELD_R) ladStep131)

theorem ladEq132 : point_mul_loop 124 ladSt132 FIELD_R = point_mul_loop 123 ladSt133 FIELD_R := (pml_succ 123 ladSt132 FIELD_R).trans (congrArg (fun s => point_mul_loop 123 s FIELD_R) ladStep132)

theorem ladEq133 : point_mul_loop 123 ladSt133 FIELD_R = point_mul_loop 122 ladSt134 FIELD_R := (pml_succ 122 ladSt133 FIELD_R).trans (congrArg (fun s => point_mul_loop 122 s FIELD_R) ladStep133)

theorem ladEq134 : point_mul_loop 122 ladSt134 FIELD_R = point_mul_loop 121 ladSt135 FIELD_R := (pml_succ 121 ladSt134 FIELD_R).trans (congrArg (fun s => point_mul_loop 121 s FIELD_R) ladStep134)

theorem ladEq135 : point_mul_loop 121 ladSt135 FIELD_R = point_mul_loop 120 ladSt136 FIELD_R := (pml_succ 120 ladSt135 FIELD_R).trans (congrArg (fun s => point_mul_loop 120 s FIELD_R) ladStep135)

theorem ladEq136 : point_mul_loop 120 ladSt136 FIELD_R = point_mul_loop 119 ladSt137 FIELD_R := (pml_succ 119 ladSt136 FIELD_R).trans (congrArg (fun s => point_mul_loop 119 s FIELD_R) ladStep136)

theorem ladEq137 : point_mul_loop 119 ladSt137 FIELD_R = point_mul_loop 118 ladSt138 FIELD_R := (pml_succ 118 ladSt137 FIELD_R).trans (congrArg (fun s => point_mul_loop 118 s FIELD_R) ladStep137)

theorem ladEq138 : point_mul_loop 118 ladSt138 FIELD_R = point_mul_loop 117 ladSt139 FIELD_R := (pml_succ 117 ladSt138 FIELD_R).trans (congrArg (fun s => point_mul_loop 117 s FIELD_R) ladStep138)

theorem ladEq139 : point_mul_loop 117 ladSt139 FIELD_R = point_mul_loop 116 ladSt140 FIELD_R := (pml_succ 116 ladSt139 FIELD_R).trans (congrArg (fun s => point_mul_loop 116 s FIELD_R) ladStep139)

theorem ladEq140 : point_mul_loop 116 ladSt140 FIELD_R = point_mul_loop 115 ladSt141 FIELD_R := (pml_succ 115 ladSt140 FIELD_R).trans (congrArg (fun s => point_mul_loop 115 s FIELD_R) ladStep140)

theorem ladEq141 : point_mul_loop 115 ladSt141 FIELD_R = point_mul_loop 114 ladSt142 FIELD_R := (pml_succ 114 ladSt141 FIELD_R).trans (congrArg (fun s => point_mul_loop 114 s FIELD_R) ladStep141)

theorem ladEq142 : point_mul_loop 114 ladSt142 FIELD_R = point_mul_loop 113 ladSt143 FIELD_R := (pml_succ 113 ladSt142 FIELD_R).trans (congrArg (fun s => point_mul_loop 113 s FIELD_R) ladStep142)

theorem ladEq143 : point_mul_loop 113 ladSt143 FIELD_R = point_mul_loop 112 ladSt144 FIELD_R := (pml_succ 112 ladSt143 FIELD_R).trans (congrArg (fun s => point_mul_loop 112 s FIELD_R) ladStep143)

theorem ladEq144 : point_mul_loop 112 ladSt144 FIELD_R = point_mul_loop 111 ladSt145 FIELD_R := (pml_succ 111 ladSt144 FIELD_R).trans (congrArg (fun s => point_mul_loop 111 s FIELD_R) ladStep144)

theorem ladEq145 : point_mul_loop 111 ladSt145 FIELD_R = point_mul_loop 110 ladSt146 FIELD_R := (pml_succ 110 ladSt145 FIELD_R).trans (congrArg (fun s => point_mul_loop 110 s FIELD_R) ladStep145)

theorem ladEq146 : point_mul_loop 110 ladSt146 FIELD_R = point_mul_loop 109 ladSt147 FIELD_R := (pml_succ 109 ladSt146 FIELD_R).trans (congrArg (fun s => point_mul_loop 109 s FIELD_R) ladStep146)

theorem ladEq147 : point_mul_loop 109 ladSt147 FIELD_R = point_mul_loop 108 ladSt148 FIELD_R := (pml_succ 108 ladSt147 FIELD_R).trans (congrArg (fun s => point_mul_loop 108 s FIELD_R) ladStep147)

theorem ladEq148 : point_mul_loop 108 ladSt148 FIELD_R = point_mul_loop 107 ladSt149 FIELD_R := (pml_succ 107 ladSt148 FIELD_R).trans (congrArg (fun s => point_mul_loop 107 s FIELD_R) ladStep148)

theorem ladEq149 : point_mul_loop 107 ladSt149 FIELD_R = point_mul_loop 106 ladSt150 FIELD_R := (pml_succ 106 ladSt149 FIELD_R).trans (congrArg (fun s => point_mul_loop 106 s FIELD_R) ladStep149)

theorem ladEq150 : point_mul_loop 106 ladSt150 FIELD_R = point_mul_loop 105 ladSt151 FIELD_R := (pml_succ 105 ladSt150 FIELD_R).trans (congrArg (fun s => point_mul_loop 105 s FIELD_R) ladStep150)

theorem ladEq151 : point_mul_loop 105 ladSt151 FIELD_R = point_mul_loop 104 ladSt152 FIELD_R := (pml_succ 104 ladSt151 FIELD_R).trans (congrArg (fun s => point_mul_loop 104 s FIELD_R) ladStep151)

theorem ladEq152 : point_mul_loop 104 ladSt152 FIELD_R = point_mul_loop 103 ladSt153 FIELD_R := (pml_succ 103 ladSt152 FIELD_R).trans (congrArg (fun s => point_mul_loop 103 s FIELD_R) ladStep152)

theorem ladEq153 : point_mul_loop 103 ladSt153 FIELD_R = point_mul_loop 102 ladSt154 FIELD_R := (pml_succ 102 ladSt153 FIELD_R).trans (congrArg (fun s => point_mul_loop 102 s FIELD_R) ladStep153)

theorem ladEq154 : point_mul_loop 102 ladSt154 FIELD_R = point_mul_loop 101 ladSt155 FIELD_R := (pml_succ 101 ladSt154 FIELD_R).trans (congrArg (fun s => point_mul_loop 101 s FIELD_R) ladStep154)

theorem ladEq155 : point_mul_loop 101 ladSt155 FIELD_R = point_mul_loop 100 ladSt156 FIELD_R := (pml_succ 100 ladSt155 FIELD_R).trans (congrArg (fun s => point_mul_loop 100 s FIELD_R) ladStep155)

theorem ladEq156 : point_mul_loop 100 ladSt156 FIELD_R = point_mul_loop 99 ladSt157 FIELD_R := (pml_succ 99 ladSt156 FIELD_R).trans (congrArg (fun s => point_mul_loop 99 s FIELD_R) ladStep156)

theorem ladEq157 : point_mul_loop 99 ladSt157 FIELD_R = point_mul_loop 98 ladSt158 FIELD_R := (pml_succ 98 ladSt157 FIELD_R).trans (congrArg (fun s => point_mul_loop 98 s FIELD_R) ladStep157)

theorem ladEq158 : point_mul_loop 98 ladSt158 FIELD_R = point_mul_loop 97 ladSt159 FIELD_R := (pml_succ 97 ladSt158 FIELD_R).trans (congrArg (fun s => point_mul_loop 97 s FIELD_R) ladStep158)

theorem ladEq159 : point_mul_loop 97 ladSt159 FIELD_R = point_mul_loop 96 ladSt160 FIELD_R := (pml_succ 96 ladSt159 FIELD_R).trans (congrArg (fun s => point_mul_loop 96 s FIELD_R) ladStep159)

theorem ladEq160 : point_mul_loop 96 ladSt160 FIELD_R = point_mul_loop 95 ladSt161 FIELD_R := (pml_succ 95 ladSt160 FIELD_R).trans (congrArg (fun s => point_mul_loop 95 s FIELD_R) ladStep160)

theorem ladEq161 : point_mul_loop 95 ladSt161 FIELD_R = point_mul_loop 94 ladSt162 FIELD_R := (pml_succ 94 ladSt161 FIELD_R).trans (congrArg (fun s => point_mul_loop 94 s FIELD_R) ladStep161)

theorem ladEq162 : point_mul_loop 94 ladSt162 FIELD_R = point_mul_loop 93 ladSt163 FIELD_R := (pml_succ 93 ladSt162 FIELD_R).trans (congrArg (fun s => point_mul_loop 93 s FIELD_R) ladStep162)

theorem ladEq163 : point_mul_loop 93 ladSt163 FIELD_R = point_mul_loop 92 ladSt164 FIELD_R := (pml_succ 92 ladSt163 FIELD_R).trans (congrArg (fun s => point_mul_loop 92 s FIELD_R) ladStep163)

theorem ladEq164 : point_mul_loop 92 ladSt164 FIELD_R = point_mul_loop 91 ladSt165 FIELD_R := (pml_succ 91 ladSt164 FIELD_R).trans (congrArg (fun s => point_mul_loop 91 s FIELD_R) ladStep164)

theorem ladEq165 : point_mul_loop 91 ladSt165 FIELD_R = point_mul_loop 90 ladSt166 FIELD_R := (pml_succ 90 ladSt165 FIELD_R).trans (congrArg (fun s => point_mul_loop 90 s FIELD_R) ladStep165)

theorem ladEq166 : point_mul_loop 90 ladSt166 FIELD_R = point_mul_loop 89 ladSt167 FIELD_R := (pml_succ 89 ladSt166 FIELD_R).trans (congrArg (fun s => point_mul_loop 89 s FIELD_R) ladStep166)

theorem ladEq167 : point_mul_loop 89 ladSt167 FIELD_R = point_mul_loop 88 ladSt168 FIELD_R := (pml_succ 88 ladSt167 FIELD_R).trans (congrArg (fun s => point_mul_loop 88 s FIELD_R) ladStep167)

theorem ladEq168 : point_mul_loop 88 ladSt168 FIELD_R = point_mul_loop 87 ladSt169 FIELD_R := (pml_succ 87 ladSt168 FIELD_R).trans (congrArg (fun s => point_mul_loop 87 s FIELD_R) ladStep168)

theorem ladEq169 : point_mul_loop 87 ladSt169 FIELD_R = point_mul_loop 86 ladSt170 FIELD_R := (pml_succ 86 ladSt169 FIELD_R).trans (congrArg (fun s => point_mul_loop 86 s FIELD_R) ladStep169)

theorem ladEq170 : point_mul_loop 86 ladSt170 FIELD_R = point_mul_loop 85 ladSt171 FIELD_R := (pml_succ 85 ladSt170 FIELD_R).trans (congrArg (fun s => point_mul_loop 85 s FIELD_R) ladStep170)

theorem ladEq171 : point_mul_loop 85 ladSt171 FIELD_R = point_mul_loop 84 ladSt172 FIELD_R := (pml_succ 84 ladSt171 FIELD_R).trans (congrArg (fun s => point_mul_loop 84 s FIELD_R) ladStep171)

theorem ladEq172 : point_mul_loop 84 ladSt172 FIELD_R = point_mul_loop 83 ladSt173 FIELD_R := (pml_succ 83 ladSt172 FIELD_R).trans (congrArg (fun s => point_mul_loop 83 s FIELD_R) ladStep172)

theorem ladEq173 : point_mul_loop 83 ladSt173 FIELD_R = point_mul_loop 82 ladSt174 FIELD_R := (pml_succ 82 ladSt173 FIELD_R).trans (congrArg (fun s => point_mul_loop 82 s FIELD_R) ladStep173)

theorem ladEq174 : point_mul_loop 82 ladSt174 FIELD_R = point_mul_loop 81 ladSt175 FIELD_R := (pml_succ 81 ladSt174 FIELD_R).trans (congrArg (fun s => point_mul_loop 81 s FIELD_R) ladStep174)

theorem ladEq175 : point_mul_loop 81 ladSt175 FIELD_R = point_mul_loop 80 ladSt176 FIELD_R := (pml_succ 80 ladSt175 FIELD_R).trans (congrArg (fun s => point_mul_loop 80 s FIELD_R) ladStep175)

theorem ladEq176 : point_mul_loop 80 ladSt176 FIELD_R = point_mul_loop 79 ladSt177 FIELD_R := (pml_succ 79 ladSt176 FIELD_R).trans (congrArg (fun s => point_mul_loop 79 s FIELD_R) ladStep176)

theorem ladEq177 : point_mul_loop 79 ladSt177 FIELD_R = point_mul_loop 78 ladSt178 FIELD_R := (pml_succ 78 ladSt177 FIELD_R).trans (congrArg (fun s => point_mul_loop 78 s FIELD_R) ladStep177)

theorem ladEq178 : point_mul_loop 78 ladSt178 FIELD_R = point_mul_loop 77 ladSt179 FIELD_R := (pml_succ 77 ladSt178 FIELD_R).trans (congrArg (fun s => point_mul_loop 77 s FIELD_R) ladStep178)

theorem ladEq179 : point_mul_loop 77 ladSt179 FIELD_R = point_mul_loop 76 ladSt180 FIELD_R := (pml_succ 76 ladSt179 FIELD_R).trans (congrArg (fun s => point_mul_loop 76 s FIELD_R) ladStep179)

theorem ladEq180 : point_mul_loop 76 ladSt180 FIELD_R = point_mul_loop 75 ladSt181 FIELD_R := (pml_succ 75 ladSt180 FIELD_R).trans (congrArg (fun s => point_mul_loop 75 s FIELD_R) ladStep180)

theorem ladEq181 : point_mul_loop 75 ladSt181 FIELD_R = point_mul_loop 74 ladSt182 FIELD_R := (pml_succ 74 ladSt181 FIELD_R).trans (congrArg (fun s => point_mul_loop 74 s FIELD_R) ladStep181)

theorem ladEq182 : point_mul_loop 74 ladSt182 FIELD_R = point_mul_loop 73 ladSt183 FIELD_R := (pml_succ 73 ladSt182 FIELD_R).trans (congrArg (fun s => point_mul_loop 73 s FIELD_R) ladStep182)

theorem ladEq183 : point_mul_loop 73 ladSt183 FIELD_R = point_mul_loop 72 ladSt184 FIELD_R := (pml_succ 72 ladSt183 FIELD_R).trans (congrArg (fun s => point_mul_loop 72 s FIELD_R) ladStep183)

theorem ladEq184 : point_mul_loop 72 ladSt184 FIELD_R = point_mul_loop 71 ladSt185 FIELD_R := (pml_succ 71 ladSt184 FIELD_R).trans (congrArg (fun s => point_mul_loop 71 s FIELD_R) ladStep184)

theorem ladEq185 : point_mul_loop 71 ladSt185 FIELD_R = point_mul_loop 70 ladSt186 FIELD_R := (pml_succ 70 ladSt185 FIELD_R).trans (congrArg (fun s => point_mul_loop 70 s FIELD_R) ladStep185)

theorem ladEq186 : point_mul_loop 70 ladSt186 FIELD_R = point_mul_loop 69 ladSt187 FIELD_R := (pml_succ 69 ladSt186 FIELD_R).trans (congrArg (fun s => point_mul_loop 69 s FIELD_R) ladStep186)

theorem ladEq187 : point_mul_loop 69 ladSt187 FIELD_R = point_mul_loop 68 ladSt188 FIELD_R := (pml_succ 68 ladSt187 FIELD_R).trans (congrArg (fun s => point_mul_loop 68 s FIELD_R) ladStep187)

theorem ladEq188 : point_mul_loop 68 ladSt188 FIELD_R = point_mul_loop 67 ladSt189 FIELD_R := (pml_succ 67 ladSt188 FIELD_R).trans (congrArg (fun s => point_mul_loop 67 s FIELD_R) ladStep188)

theorem ladEq189 : point_mul_loop 67 ladSt189 FIELD_R = point_mul_loop 66 ladSt190 FIELD_R := (pml_succ 66 ladSt189 FIELD_R).trans (congrArg (fun s => point_mul_loop 66 s FIELD_R) ladStep189)

theorem ladEq190 : point_mul_loop 66 ladSt190 FIELD_R = point_mul_loop 65 ladSt191 FIELD_R := (pml_succ 65 ladSt190 FIELD_R).trans (congrArg (fun s => point_mul_loop 65 s FIELD_R) ladStep190)

theorem ladEq191 : point_mul_loop 65 ladSt191 FIELD_R = point_mul_loop 64 ladSt192 FIELD_R := (pml_succ 64 ladSt191 FIELD_R).trans (congrArg (fun s => point_mul_loop 64 s FIELD_R) ladStep191)

theorem ladEq192 : point_mul_loop 64 ladSt192 FIELD_R = point_mul_loop 63 ladSt193 FIELD_R := (pml_succ 63 ladSt192 FIELD_R).trans (congrArg (fun s => point_mul_loop 63 s FIELD_R) ladStep192)

theorem ladEq193 : point_mul_loop 63 ladSt193 FIELD_R = point_mul_loop 62 ladSt194 FIELD_R := (pml_succ 62 ladSt193 FIELD_R).trans (congrArg (fun s => point_mul_loop 62 s FIELD_R) ladStep193)

theorem ladEq194 : point_mul_loop 62 ladSt194 FIELD_R = point_mul_loop 61 ladSt195 FIELD_R := (pml_succ 61 ladSt194 FIELD_R).trans (congrArg (fun s => point_mul_loop 61 s FIELD_R) ladStep194)

theorem ladEq195 : point_mul_loop 61 ladSt195 FIELD_R = point_mul_loop 60 ladSt196 FIELD_R := (pml_succ 60 ladSt195 FIELD_R).trans (congrArg (fun s => point_mul_loop 60 s FIELD_R) ladStep195)

theorem ladEq196 : point_mul_loop 60 ladSt196 FIELD_R = point_mul_loop 59 ladSt197 FIELD_R := (pml_succ 59 ladSt196 FIELD_R).trans (congrArg (fun s => point_mul_loop 59 s FIELD_R) ladStep196)

theorem ladEq197 : point_mul_loop 59 ladSt197 FIELD_R = point_mul_loop 58 ladSt198 FIELD_R := (pml_succ 58 ladSt197 FIELD_R).trans (congrArg (fun s => point_mul_loop 58 s FIELD_R) ladStep197)

theorem ladEq198 : point_mul_loop 58 ladSt198 FIELD_R = point_mul_loop 57 ladSt199 FIELD_R := (pml_succ 57 ladSt198 FIELD_R).trans (congrArg (fun s => point_mul_loop 57 s FIELD_R) ladStep198)

theorem ladEq199 : point_mul_loop 57 ladSt199 FIELD_R = point_mul_loop 56 ladSt200 FIELD_R := (pml_succ 56 ladSt199 FIELD_R).trans (congrArg (fun s => point_mul_loop 56 s FIELD_R) ladStep199)

theorem ladEq200 : point_mul_loop 56 ladSt200 FIELD_R = point_mul_loop 55 ladSt201 FIELD_R := (pml_succ 55 ladSt200 FIELD_R).trans (congrArg (fun s => point_mul_loop 55 s FIELD_R) ladStep200)

theorem ladEq201 : point_mul_loop 55 ladSt201 FIELD_R = point_mul_loop 54 ladSt202 FIELD_R := (pml_succ 54 ladSt201 FIELD_R).trans (congrArg (fun s => point_mul_loop 54 s FIELD_R) ladStep201)

theorem ladEq202 : point_mul_loop 54 ladSt202 FIELD_R = point_mul_loop 53 ladSt203 FIELD_R := (pml_succ 53 ladSt202 FIELD_R).trans (congrArg (fun s => point_mul_loop 53 s FIELD_R) ladStep202)

theorem ladEq203 : point_mul_loop 53 ladSt203 FIELD_R = point_mul_loop 52 ladSt204 FIELD_R := (pml_succ 52 ladSt203 FIELD_R).trans (congrArg (fun s => point_mul_loop 52 s FIELD_R) ladStep203)

theorem ladEq204 : point_mul_loop 52 ladSt204 FIELD_R = point_mul_loop 51 ladSt205 FIELD_R := (pml_succ 51 ladSt204 FIELD_R).trans (congrArg (fun s => point_mul_loop 51 s FIELD_R) ladStep204)

theorem ladEq205 : point_mul_loop 51 ladSt205 FIELD_R = point_mul_loop 50 ladSt206 FIELD_R := (pml_succ 50 ladSt205 FIELD_R).trans (congrArg (fun s => point_mul_loop 50 s FIELD_R) ladStep205)

theorem ladEq206 : point_mul_loop 50 ladSt206 FIELD_R = point_mul_loop 49 ladSt207 FIELD_R := (pml_succ 49 ladSt206 FIELD_R).trans (congrArg (fun s => point_mul_loop 49 s FIELD_R) ladStep206)

theorem ladEq207 : point_mul_loop 49 ladSt207 FIELD_R = point_mul_loop 48 ladSt208 FIELD_R := (pml_succ 48 ladSt207 FIELD_R).trans (congrArg (fun s => point_mul_loop 48 s FIELD_R) ladStep207)

theorem ladEq208 : point_mul_loop 48 ladSt208 FIELD_R = point_mul_loop 47 ladSt209 FIELD_R := (pml_succ 47 ladSt208 FIELD_R).trans (congrArg (fun s => point_mul_loop 47 s FIELD_R) ladStep208)

theorem ladEq209 : point_mul_loop 47 ladSt209 FIELD_R = point_mul_loop 46 ladSt210 FIELD_R := (pml_succ 46 ladSt209 FIELD_R).trans (congrArg (fun s => point_mul_loop 46 s FIELD_R) ladStep209)

theorem ladEq210 : point_mul_loop 46 ladSt210 FIELD_R = point_mul_loop 45 ladSt211 FIELD_R := (pml_succ 45 ladSt210 FIELD_R).trans (congrArg (fun s => point_mul_loop 45 s FIELD_R) ladStep210)

theorem ladEq211 : point_mul_loop 45 ladSt211 FIELD_R = point_mul_loop 44 ladSt212 FIELD_R := (pml_succ 44 ladSt211 FIELD_R).trans (congrArg (fun s => point_mul_loop 44 s FIELD_R) ladStep211)

theorem ladEq212 : point_mul_loop 44 ladSt212 FIELD_R = point_mul_loop 43 ladSt213 FIELD_R := (pml_succ 43 ladSt212 FIELD_R).trans (congrArg (fun s => point_mul_loop 43 s FIELD_R) ladStep212)

theorem ladEq213 : point_mul_loop 43 ladSt213 FIELD_R = point_mul_loop 42 ladSt214 FIELD_R := (pml_succ 42 ladSt213 FIELD_R).trans (congrArg (fun s => point_mul_loop 42 s FIELD_R) ladStep213)

theorem ladEq214 : point_mul_loop 42 ladSt214 FIELD_R = point_mul_loop 41 ladSt215 FIELD_R := (pml_succ 41 ladSt214 FIELD_R).trans (congrArg (fun s => point_mul_loop 41 s FIELD_R) ladStep214)

theorem ladEq215 : point_mul_loop 41 ladSt215 FIELD_R = point_mul_loop 40 ladSt216 FIELD_R := (pml_succ 40 ladSt215 FIELD_R).trans (congrArg (fun s => point_mul_loop 40 s FIELD_R) ladStep215)

theorem ladEq216 : point_mul_loop 40 ladSt216 FIELD_R = point_mul_loop 39 ladSt217 FIELD_R := (pml_succ 39 ladSt216 FIELD_R).trans (congrArg (fun s => point_mul_loop 39 s FIELD_R) ladStep216)

theorem ladEq217 : point_mul_loop 39 ladSt217 FIELD_R = point_mul_loop 38 ladSt218 FIELD_R := (pml_succ 38 ladSt217 FIELD_R).trans (congrArg (fun s => point_mul_loop 38 s FIELD_R) ladStep217)

theorem ladEq218 : point_mul_loop 38 ladSt218 FIELD_R = point_mul_loop 37 ladSt219 FIELD_R := (pml_succ 37 ladSt218 FIELD_R).trans (congrArg (fun s => point_mul_loop 37 s FIELD_R) ladStep218)

theorem ladEq219 : point_mul_loop 37 ladSt219 FIELD_R = point_mul_loop 36 ladSt220 FIELD_R := (pml_succ 36 ladSt219 FIELD_R).trans (congrArg (fun s => point_mul_loop 36 s FIELD_R) ladStep219)

theorem ladEq220 : point_mul_loop 36 ladSt220 FIELD_R = point_mul_loop 35 ladSt221 FIELD_R := (pml_succ 35 ladSt220 FIELD_R).trans (congrArg (fun s => point_mul_loop 35 s FIELD_R) ladStep220)

theorem ladEq221 : point_mul_loop 35 ladSt221 FIELD_R = point_mul_loop 34 ladSt222 FIELD_R := (pml_succ 34 ladSt221 FIELD_R).trans (congrArg (fun s => point_mul_loop 34 s FIELD_R) ladStep221)

theorem ladEq222 : point_mul_loop 34 ladSt222 FIELD_R = point_mul_loop 33 ladSt223 FIELD_R := (pml_succ 33 ladSt222 FIELD_R).trans (congrArg (fun s => point_mul_loop 33 s FIELD_R) ladStep222)

theorem ladEq223 : point_mul_loop 33 ladSt223 FIELD_R = point_mul_loop 32 ladSt224 FIELD_R := (pml_succ 32 ladSt223 FIELD_R).trans (congrArg (fun s => point_mul_loop 32 s FIELD_R) ladStep223)

theorem ladEq224 : point_mul_loop 32 ladSt224 FIELD_R = point_mul_loop 31 ladSt225 FIELD_R := (pml_succ 31 ladSt224 FIELD_R).trans (congrArg (fun s => point_mul_loop 31 s FIELD_R) ladStep224)

theorem ladEq225 : point_mul_loop 31 ladSt225 FIELD_R = point_mul_loop 30 ladSt226 FIELD_R := (pml_succ 30 ladSt225 FIELD_R).trans (congrArg (fun s => point_mul_loop 30 s FIELD_R) ladStep225)

theorem ladEq226 : point_mul_loop 30 ladSt226 FIELD_R = point_mul_loop 29 ladSt227 FIELD_R := (pml_succ 29 ladSt226 FIELD_R).trans (congrArg (fun s => point_mul_loop 29 s FIELD_R) ladStep226)

theorem ladEq227 : point_mul_loop 29 ladSt227 FIELD_R = point_mul_loop 28 ladSt228 FIELD_R := (pml_succ 28 ladSt227 FIELD_R).trans (congrArg (fun s => point_mul_loop 28 s FIELD_R) ladStep227)

theorem ladEq228 : point_mul_loop 28 ladSt228 FIELD_R = point_mul_loop 27 ladSt229 FIELD_R := (pml_succ 27 ladSt228 FIELD_R).trans (congrArg (fun s => point_mul_loop 27 s FIELD_R) ladStep228)

theorem ladEq229 : point_mul_loop 27 ladSt229 FIELD_R = point_mul_loop 26 ladSt230 FIELD_R := (pml_succ 26 ladSt229 FIELD_R).trans (congrArg (fun s => point_mul_loop 26 s FIELD_R) ladStep229)

theorem ladEq230 : point_mul_loop 26 ladSt230 FIELD_R = point_mul_loop 25 ladSt231 FIELD_R := (pml_succ 25 ladSt230 FIELD_R).trans (congrArg (fun s => point_mul_loop 25 s FIELD_R) ladStep230)

theorem ladEq231 : point_mul_loop 25 ladSt231 FIELD_R = point_mul_loop 24 ladSt232 FIELD_R := (pml_succ 24 ladSt231 FIELD_R).trans (congrArg (fun s => point_mul_loop 24 s FIELD_R) ladStep231)

theorem ladEq232 : point_mul_loop 24 ladSt232 FIELD_R = point_mul_loop 23 ladSt233 FIELD_R := (pml_succ 23 ladSt232 FIELD_R).trans (congrArg (fun s => point_mul_loop 23 s FIELD_R) ladStep232)

theorem ladEq233 : point_mul_loop 23 ladSt233 FIELD_R = point_mul_loop 22 ladSt234 FIELD_R := (pml_succ 22 ladSt233 FIELD_R).trans (congrArg (fun s => point_mul_loop 22 s FIELD_R) ladStep233)

theorem ladEq234 : point_mul_loop 22 ladSt234 FIELD_R = point_mul_loop 21 ladSt235 FIELD_R := (pml_succ 21 ladSt234 FIELD_R).trans (congrArg (fun s => point_mul_loop 21 s FIELD_R) ladStep234)

theorem ladEq235 : point_mul_loop 21 ladSt235 FIELD_R = point_mul_loop 20 ladSt236 FIELD_R := (pml_succ 20 ladSt235 FIELD_R).trans (congrArg (fun s => point_mul_loop 20 s FIELD_R) ladStep235)

theorem ladEq236 : point_mul_loop 20 ladSt236 FIELD_R = point_mul_loop 19 ladSt237 FIELD_R := (pml_succ 19 ladSt236 FIELD_R).trans (congrArg (fun s => point_mul_loop 19 s FIELD_R) ladStep236)

theorem ladEq237 : point_mul_loop 19 ladSt237 FIELD_R = point_mul_loop 18 ladSt238 FIELD_R := (pml_succ 18 ladSt237 FIELD_R).trans (congrArg (fun s => point_mul_loop 18 s FIELD_R) ladStep237)

theorem ladEq238 : point_mul_loop 18 ladSt238 FIELD_R = point_mul_loop 17 ladSt239 FIELD_R := (pml_succ 17 ladSt238 FIELD_R).trans (congrArg (fun s => point_mul_loop 17 s FIELD_R) ladStep238)

theorem ladEq239 : point_mul_loop 17 ladSt239 FIELD_R = point_mul_loop 16 ladSt240 FIELD_R := (pml_succ 16 ladSt239 FIELD_R).trans (congrArg (fun s => point_mul_loop 16 s FIELD_R) ladStep239)

theorem ladEq240 : point_mul_loop 16 ladSt240 FIELD_R = point_mul_loop 15 ladSt241 FIELD_R := (pml_succ 15 ladSt240 FIELD_R).trans (congrArg (fun s => point_mul_loop 15 s FIELD_R) ladStep240)

theorem ladEq241 : point_mul_loop 15 ladSt241 FIELD_R = point_mul_loop 14 ladSt242 FIELD_R := (pml_succ 14 ladSt241 FIELD_R).trans (congrArg (fun s => point_mul_loop 14 s FIELD_R) ladStep241)

theorem ladEq242 : point_mul_loop 14 ladSt242 FIELD_R = point_mul_loop 13 ladSt243 FIELD_R := (pml_succ 13 ladSt242 FIELD_R).trans (congrArg (fun s => point_mul_loop 13 s FIELD_R) ladStep242)

theorem ladEq243 : point_mul_loop 13 ladSt243 FIELD_R = point_mul_loop 12 ladSt244 FIELD_R := (pml_succ 12 ladSt243 FIELD_R).trans (congrArg (fun s => point_mul_loop 12 s FIELD_R) ladStep243)

theorem ladEq244 : point_mul_loop 12 ladSt244 FIELD_R = point_mul_loop 11 ladSt245 FIELD_R := (pml_succ 11 ladSt244 FIELD_R).trans (congrArg (fun s => point_mul_loop 11 s FIELD_R) ladStep244)

theorem ladEq245 : point_mul_loop 11 ladSt245 FIELD_R = point_mul_loop 10 ladSt246 FIELD_R := (pml_succ 10 ladSt245 FIELD_R).trans (congrArg (fun s => point_mul_loop 10 s FIELD_R) ladStep245)

theorem ladEq246 : point_mul_loop 10 ladSt246 FIELD_R = point_mul_loop 9 ladSt247 FIELD_R := (pml_succ 9 ladSt246 FIELD_R).trans (congrArg (fun s => point_mul_loop 9 s FIELD_R) ladStep246)

theorem ladEq247 : point_mul_loop 9 ladSt247 FIELD_R = point_mul_loop 8 ladSt248 FIELD_R := (pml_succ 8 ladSt247 FIELD_R).trans (congrArg (fun s => point_mul_loop 8 s FIELD_R) ladStep247)

theorem ladEq248 : point_mul_loop 8 ladSt248 FIELD_R = point_mul_loop 7 ladSt249 FIELD_R := (pml_succ 7 ladSt248 FIELD_R).trans (congrArg (fun s => point_mul_loop 7 s FIELD_R) ladStep248)

theorem ladEq249 : point_mul_loop 7 ladSt249 FIELD_R = point_mul_loop 6 ladSt250 FIELD_R := (pml_succ 6 ladSt249 FIELD_R).trans (congrArg (fun s => point_mul_loop 6 s FIELD_R) ladStep249)

theorem ladEq250 : point_mul_loop 6 ladSt250 FIELD_R = point_mul_loop 5 ladSt251 FIELD_R := (pml_succ 5 ladSt250 FIELD_R).trans (congrArg (fun s => point_mul_loop 5 s FIELD_R) ladStep250)

theorem ladEq251 : point_mul_loop 5 ladSt251 FIELD_R = point_mul_loop 4 ladSt252 FIELD_R := (pml_succ 4 ladSt251 FIELD_R).trans (congrArg (fun s => point_mul_loop 4 s FIELD_R) ladStep251)

theorem ladEq252 : point_mul_loop 4 ladSt252 FIELD_R = point_mul_loop 3 ladSt253 FIELD_R := (pml_succ 3 ladSt252 FIELD_R).trans (congrArg (fun s => point_mul_loop 3 s FIELD_R) ladStep252)

theorem ladEq253 : point_mul_loop 3 ladSt253 FIELD_R = point_mul_loop 2 ladSt254 FIELD_R := (pml_succ 2 ladSt253 FIELD_R).trans (congrArg (fun s => point_mul_loop 2 s FIELD_R) ladStep253)

theorem ladEq254 : point_mul_loop 2 ladSt254 FIELD_R = point_mul_loop 1 ladSt255 FIELD_R := (pml_succ 1 ladSt254 FIELD_R).trans (congrArg (fun s => point_mul_loop 1 s FIELD_R) ladStep254)

theorem ladEq255 : point_mul_loop 1 ladSt255 FIELD_R = point_mul_loop 0 ladSt256 FIELD_R := (pml_succ 0 ladSt255 FIELD_R).trans (congrArg (fun s => point_mul_loop 0 s FIELD_R) ladStep255)

theorem ladEq256 : point_mul_loop 0 ladSt256 FIELD_R = ladSt256 := rfl

theorem ladFull : point_mul_loop 256 ladSt0 FIELD_R = ladSt256 := ladEq0.trans (ladEq1.trans (ladEq2.trans (ladEq3.trans (ladEq4.trans (ladEq5.trans (ladEq6.trans (ladEq7.trans (ladEq8.trans (ladEq9.trans (ladEq10.trans (ladEq11.trans (ladEq12.trans (ladEq13.trans (ladEq14.trans (ladEq15.trans (ladEq16.trans (ladEq17.trans (ladEq18.trans (ladEq19.trans (ladEq20.trans (ladEq21.trans (ladEq22.trans (ladEq23.trans (ladEq24.trans (ladEq25.trans (ladEq26.trans (ladEq27.trans (ladEq28.trans (ladEq29.trans (ladEq30.trans (ladEq31.trans (ladEq32.trans (ladEq33.trans (ladEq34.trans (ladEq35.trans (ladEq36.trans (ladEq37.trans (ladEq38.trans (ladEq39.trans (ladEq40.trans (ladEq41.trans (ladEq42.trans (ladEq43.trans (ladEq44.trans (ladEq45.trans (ladEq46.trans (ladEq47.trans (ladEq48.trans (ladEq49.trans (ladEq50.trans (ladEq51.trans (ladEq52.trans (ladEq53.trans (ladEq54.trans (ladEq55.trans (ladEq56.trans (ladEq57.trans (ladEq58.trans (ladEq59.trans (ladEq60.trans (ladEq61.trans (ladEq62.trans (ladEq63.trans (ladEq64.trans (ladEq65.trans (ladEq66.trans (ladEq67.trans (ladEq68.trans (ladEq69.trans (ladEq70.trans (ladEq71.trans (ladEq72.trans (ladEq73.trans (ladEq74.trans (ladEq75.trans (ladEq76.trans (ladEq77.trans (ladEq78.trans (ladEq79.trans (ladEq80.trans (ladEq81.trans (ladEq82.trans (ladEq83.trans (ladEq84.trans (ladEq85.trans (ladEq86.trans (ladEq87.trans (ladEq88.trans (ladEq89.trans (ladEq90.trans (ladEq91.trans (ladEq92.trans (ladEq93.trans (ladEq94.trans (ladEq95.trans (ladEq96.trans (ladEq97.trans (ladEq98.trans (ladEq99.trans (ladEq100.trans (ladEq101.trans (ladEq102.trans (ladEq103.trans (ladEq104.trans (ladEq105.trans (ladEq106.trans (ladEq107.trans (ladEq108.trans (ladEq109.trans (ladEq110.trans (ladEq111.trans (ladEq112.trans (ladEq113.trans (ladEq114.trans (ladEq115.trans (ladEq116.trans (ladEq117.trans (ladEq118.trans (ladEq119.trans (ladEq120.trans (ladEq121.trans (ladEq122.trans (ladEq123.trans (ladEq124.trans (ladEq125.trans (ladEq126.trans (ladEq127.trans (ladEq128.trans (ladEq129.trans (ladEq130.trans (ladEq131.trans (ladEq132.trans (ladEq133.trans (ladEq134.trans (ladEq135.trans (ladEq136.trans (ladEq137.trans (ladEq138.trans (ladEq139.trans (ladEq140.trans (ladEq141.trans (ladEq142.trans (ladEq143.trans (ladEq144.trans (ladEq145.trans (ladEq146.trans (ladEq147.trans (ladEq148.trans (ladEq149.trans (ladEq150.trans (ladEq151.trans (ladEq152.trans (ladEq153.trans (ladEq154.trans (ladEq155.trans (ladEq156.trans (ladEq157.trans (ladEq158.trans (ladEq159.trans (ladEq160.trans (ladEq161.trans (ladEq162.trans (ladEq163.trans (ladEq164.trans (ladEq165.trans (ladEq166.trans (ladEq167.trans (ladEq168.trans (ladEq169.trans (ladEq170.trans (ladEq171.trans (ladEq172.trans (ladEq173.trans (ladEq174.trans (ladEq175.trans (ladEq176.trans (ladEq177.trans (ladEq178.trans (ladEq179.trans (ladEq180.trans (ladEq181.trans (ladEq182.trans (ladEq183.trans (ladEq184.trans (ladEq185.trans (ladEq186.trans (ladEq187.trans (ladEq188.trans (ladEq189.trans (ladEq190.trans (ladEq191.trans (ladEq192.trans (ladEq193.trans (ladEq194.trans (ladEq195.trans (ladEq196.trans (ladEq197.trans (ladEq198.trans (ladEq199.trans (ladEq200.trans (ladEq201.trans (ladEq202.trans (ladEq203.trans (ladEq204.trans (ladEq205.trans (ladEq206.trans (ladEq207.trans (ladEq208.trans (ladEq209.trans (ladEq210.trans (ladEq211.trans (ladEq212.trans (ladEq213.trans (ladEq214.trans (ladEq215.trans (ladEq216.trans (ladEq217.trans (ladEq218.trans (ladEq219.trans (ladEq220.trans (ladEq221.trans (ladEq222.trans (ladEq223.trans (ladEq224.trans (ladEq225.trans (ladEq226.trans (ladEq227.trans (ladEq228.trans (ladEq229.trans (ladEq230.trans (ladEq231.trans (ladEq232.trans (ladEq233.trans (ladEq234.trans (ladEq235.trans (ladEq236.trans (ladEq237.trans (ladEq238.trans (ladEq239.trans (ladEq240.trans (ladEq241.trans (ladEq242.trans (ladEq243.trans (ladEq244.trans (ladEq245.trans (ladEq246.trans (ladEq247.trans (ladEq248.trans (ladEq249.trans (ladEq250.trans (ladEq251.trans (ladEq252.trans (ladEq253.trans (ladEq254.trans (ladEq255.trans ladEq256)))))))))))))))))))))))))))))))))))))))))))))))))))))))))))))))))))))))))))))))))))))))))))))))))))))))))))))))))))))))))))))))))))))))))))))))))))))))))))))))))))))))))))))))))))))))))))))))))))))))))))))))))))))))))))))))))))))))))))))))))))))))))))))))

theorem acc_pair_eval : point_mul_loop 256 (point_set_infinity, ⟨6350874878119819312338956282401532409788428879151445726012394534686998597021, 12701749756239638624677912564803064819576857758302891452024789069373997194042, 6350874878119819312338956282401532409788428879151445726012394534686998597021⟩) FIELD_R = ladSt256 := ladFull

theorem acc_fst_eval : (point_mul_loop 256 (point_set_infinity, ⟨6350874878119819312338956282401532409788428879151445726012394534686998597021, 12701749756239638624677912564803064819576857758302891452024789069373997194042, 6350874878119819312338956282401532409788428879151445726012394534686998597021⟩) FIELD_R).1 = ladSt256.1 := congrArg Prod.fst acc_pair_eval

theorem ladSt256_fst : ladSt256.1 = ⟨15778590529945377856077575114064373724223434745046502771319035698411422917465, 10460723736887821776920274937386350578494707629378615744008597407270585796430, 16684937756375514585295539470666548804943527710500521379394696275901984524857⟩ := rfl

theorem acc_a_eval : point_mul ⟨6350874878119819312338956282401532409788428879151445726012394534686998597021, 12701749756239638624677912564803064819576857758302891452024789069373997194042, 6350874878119819312338956282401532409788428879151445726012394534686998597021⟩ FIELD_R = ⟨15778590529945377856077575114064373724223434745046502771319035698411422917465, 10460723736887821776920274937386350578494707629378615744008597407270585796430, 16684937756375514585295539470666548804943527710500521379394696275901984524857⟩ := acc_fst_eval.trans ladSt256_fst

theorem batch_verify_not_inf (pinit : Bool) (g16verify : proof_t → Nat → Bool)
    (poseidonHash3 : Nat → Nat → Nat → Nat) (ctx : verify_ctx_t)
    (proofs : List proof_t) (randoms : List Nat)
    (hne : ¬ proofs.length = 0)
    (hok : ¬ ((proofs.map (batch_policy_result ctx)).filter
      (fun r => r == VERIFY_OK)).length = 0)
    (hinf : point_is_infinity (batch_acc_a ctx proofs randoms) = false) :
    batch_verify pinit g16verify poseidonHash3 ctx proofs randoms =
      (proofs.map (batch_policy_result ctx), true) := by
  simp only [batch_verify]
  rw [if_neg hne, if_neg hok, if_neg (by simp [hinf])]

/-- Claim C2: the spec requires `batch_verify` to settle each policy-passing
proof by the aggregated random-linear-combination pairing equation (with a
sequential fallback only for batches of fewer than 4 proofs), marking a
proof `VERIFY_OK` only if that cryptographic check succeeds.  The code
computes only the A-point MSM and never feeds it into any pairing: when the
MSM result is not the point at infinity the policy results — `VERIFY_OK`
for every policy-passing proof — are returned with no cryptographic check
at all (`groth16_verify_batch` in `pairing.c`, which implements the
equation and the `n < 4` fallback, is never called).  Concretely: with the
pairing back-end uninitialized and no verification key loaded, the
single-proof batch `[pr0]` with stored random coefficient `FIELD_R` is
marked `VERIFY_OK`, although the same proof under the same context fails
sequential verification with `VERIFY_INVALID_PROOF` (here the MSM is
`point_mul` of the generator by `FIELD_R`, evaluated by the `acc_a_eval`
ladder computation, and is not infinity). -/
theorem C2_theorem :
    batch_verify false (fun _ _ => false) (fun _ _ _ => 0) ctx0 [pr0] [FIELD_R] =
      ([VERIFY_OK], true) ∧
    verify_proof_ex false (fun _ _ => false) (fun _ _ _ => 0) ctx0 pr0 =
      VERIFY_INVALID_PROOF := by
  have hacc : batch_acc_a ctx0 [pr0] [FIELD_R] =
      point_mul
        ⟨6350874878119819312338956282401532409788428879151445726012394534686998597021,
         12701749756239638624677912564803064819576857758302891452024789069373997194042,
         6350874878119819312338956282401532409788428879151445726012394534686998597021⟩
        FIELD_R := rfl
  have hinf : point_is_infinity (batch_acc_a ctx0 [pr0] [FIELD_R]) = false := by
    rw [hacc, acc_a_eval]
    rfl
  constructor
  · rw [batch_verify_not_inf false (fun _ _ => false) (fun _ _ _ => 0) ctx0 [pr0] [FIELD_R]
      (by decide) (by decide) hinf]
    decide
  · decide
